import Mathlib

/-!
# LSTM unit kernels of `caffe2/operators/lstm_unit_op.h`

A shallow embedding of `detail::sigmoid`, `detail::host_tanh`, `detail::LSTMUnit` and
`detail::LSTMUnitGradient`.

Modelling conventions.

* The element type `T` of the C++ templates is a type `α` carrying field operations; the
  library function `exp` that `sigmoid` calls is passed in as a parameter `exp : α → α`.
  Statements about derivatives instantiate `α := ℝ` and `exp := Real.exp`.
* `int` and `int32_t` values are mathematical integers (`Int`); signed overflow of an index
  expression such as `3 * D + d` is undefined behaviour in C++ and is not modelled.
* A buffer behind a `T*` is a map `Int → α` from element offsets to values.  A pointer that
  the source advances (`X += 4 * D`) is an integer offset into the buffer it was created
  from; the offsets are part of the loop state and are bumped exactly where the source bumps
  the pointers.
* `for (int k = 0; k < hi; ++k) body` is `forLoop body hi.toNat`: the body runs for
  `k = 0, 1, …, hi - 1` in this order, and not at all when `hi ≤ 0`.
-/

namespace caffe2
namespace detail

variable {α : Type}

/-- The C++ counting loop `for (int k = 0; k < hi; ++k) s = body k s`, given the number of
iterations. -/
def forLoop {σ : Type} (body : Int → σ → σ) : Nat → σ → σ
  | 0, s => s
  | k + 1, s => body (k : Int) (forLoop body k s)

/-- Source: `return 1. / (1. + exp(-x));` -/
def sigmoid [Field α] (exp : α → α) (x : α) : α :=
  1 / (1 + exp (-x))

/-- Source: `return 2. * sigmoid(2. * x) - 1.;` -/
def host_tanh [Field α] (exp : α → α) (x : α) : α :=
  2 * sigmoid exp (2 * x) - 1

/-- Loop state of `LSTMUnit`: the five pointers that the row loop advances, as offsets from
their initial values, and the contents of the two output buffers `C` and `H`. -/
structure LSTMUnitState (α : Type) where
  pH_prev : Int
  pC_prev : Int
  pX : Int
  pC : Int
  pH : Int
  C : Int → α
  H : Int → α

/-- Body of the inner loop `for (int d = 0; d < D; ++d)` of `LSTMUnit` (lines 37-55). -/
def LSTMUnit.cell [Field α] (exp : α → α) (D : Int) (valid drop_states : Bool)
    (H_prev C_prev X : Int → α) (forget_bias : α) (d : Int) (s : LSTMUnitState α) :
    LSTMUnitState α :=
  if !valid then
    if drop_states then
      let H := Function.update s.H (s.pH + d) 0
      let C := Function.update s.C (s.pC + d) 0
      { s with C := C, H := H }
    else
      let H := Function.update s.H (s.pH + d) (H_prev (s.pH_prev + d))
      let C := Function.update s.C (s.pC + d) (C_prev (s.pC_prev + d))
      { s with C := C, H := H }
  else
    let i := sigmoid exp (X (s.pX + d))
    let f := sigmoid exp (X (s.pX + (1 * D + d)) + forget_bias)
    let o := sigmoid exp (X (s.pX + (2 * D + d)))
    let g := host_tanh exp (X (s.pX + (3 * D + d)))
    let c_prev := C_prev (s.pC_prev + d)
    let c := f * c_prev + i * g
    let C := Function.update s.C (s.pC + d) c
    let host_tanh_c := host_tanh exp c
    let H := Function.update s.H (s.pH + d) (o * host_tanh_c)
    { s with C := C, H := H }

/-- Body of the outer loop `for (int n = 0; n < N; ++n)` of `LSTMUnit` (lines 34-61): the
validity test, the inner loop, and the five pointer bumps. -/
def LSTMUnit.row [Field α] (exp : α → α) (D t : Int) (H_prev C_prev X : Int → α)
    (seqLengths : Int → Int) (drop_states : Bool) (forget_bias : α) (n : Int)
    (s : LSTMUnitState α) : LSTMUnitState α :=
  let valid : Bool := decide (t < seqLengths n)
  let s := forLoop (LSTMUnit.cell exp D valid drop_states H_prev C_prev X forget_bias)
    D.toNat s
  { s with
    pH_prev := s.pH_prev + D
    pC_prev := s.pC_prev + D
    pX := s.pX + 4 * D
    pC := s.pC + D
    pH := s.pH + D }

/-- The kernel `detail::LSTMUnit`.  The arguments `C` and `H` are the contents of the output
buffers before the call; the result holds their contents after it. -/
def LSTMUnit [Field α] (exp : α → α) (N D t : Int) (H_prev C_prev X : Int → α)
    (seqLengths : Int → Int) (drop_states : Bool) (C H : Int → α) (forget_bias : α) :
    LSTMUnitState α :=
  forLoop (LSTMUnit.row exp D t H_prev C_prev X seqLengths drop_states forget_bias)
    N.toNat ⟨0, 0, 0, 0, 0, C, H⟩

/-- Loop state of `LSTMUnitGradient`: the nine pointers that the row loop advances, as
offsets, and the contents of the three output buffers. -/
structure LSTMUnitGradientState (α : Type) where
  pC_prev : Int
  pX : Int
  pC : Int
  pH : Int
  pC_diff : Int
  pH_diff : Int
  pX_diff : Int
  pH_prev_diff : Int
  pC_prev_diff : Int
  H_prev_diff : Int → α
  C_prev_diff : Int → α
  X_diff : Int → α

/-- Body of the inner loop of `LSTMUnitGradient` (lines 87-121).  The six local pointers
`c_prev_diff … g_diff` are the offsets computed first; the stores follow in source order. -/
def LSTMUnitGradient.cell [Field α] (exp : α → α) (D : Int) (valid drop_states : Bool)
    (C_prev X C C_diff H_diff : Int → α) (forget_bias : α) (d : Int)
    (s : LSTMUnitGradientState α) : LSTMUnitGradientState α :=
  let c_prev_diff := s.pC_prev_diff + d
  let h_prev_diff := s.pH_prev_diff + d
  let i_diff := s.pX_diff + d
  let f_diff := s.pX_diff + 1 * D + d
  let o_diff := s.pX_diff + 2 * D + d
  let g_diff := s.pX_diff + 3 * D + d
  if !valid then
    let s :=
      if drop_states then
        let H_prev_diff := Function.update s.H_prev_diff h_prev_diff 0
        let C_prev_diff := Function.update s.C_prev_diff c_prev_diff 0
        { s with H_prev_diff := H_prev_diff, C_prev_diff := C_prev_diff }
      else
        let H_prev_diff := Function.update s.H_prev_diff h_prev_diff (H_diff (s.pH_diff + d))
        let C_prev_diff := Function.update s.C_prev_diff c_prev_diff (C_diff (s.pC_diff + d))
        { s with H_prev_diff := H_prev_diff, C_prev_diff := C_prev_diff }
    let X_diff := Function.update s.X_diff i_diff 0
    let X_diff := Function.update X_diff f_diff 0
    let X_diff := Function.update X_diff o_diff 0
    let X_diff := Function.update X_diff g_diff 0
    { s with X_diff := X_diff }
  else
    let i := sigmoid exp (X (s.pX + d))
    let f := sigmoid exp (X (s.pX + (1 * D + d)) + forget_bias)
    let o := sigmoid exp (X (s.pX + (2 * D + d)))
    let g := host_tanh exp (X (s.pX + (3 * D + d)))
    let c_prev := C_prev (s.pC_prev + d)
    let c := C (s.pC + d)
    let host_tanh_c := host_tanh exp c
    let c_term_diff := C_diff (s.pC_diff + d)
      + H_diff (s.pH_diff + d) * o * (1 - host_tanh_c * host_tanh_c)
    let C_prev_diff := Function.update s.C_prev_diff c_prev_diff (c_term_diff * f)
    let H_prev_diff := Function.update s.H_prev_diff h_prev_diff 0
    let X_diff := Function.update s.X_diff i_diff (c_term_diff * g * i * (1 - i))
    let X_diff := Function.update X_diff f_diff (c_term_diff * c_prev * f * (1 - f))
    let X_diff := Function.update X_diff o_diff (H_diff (s.pH_diff + d) * host_tanh_c * o * (1 - o))
    let X_diff := Function.update X_diff g_diff (c_term_diff * i * (1 - g * g))
    { s with H_prev_diff := H_prev_diff, C_prev_diff := C_prev_diff, X_diff := X_diff }

/-- Body of the outer loop of `LSTMUnitGradient` (lines 84-131). -/
def LSTMUnitGradient.row [Field α] (exp : α → α) (D t : Int) (C_prev X : Int → α)
    (seqLengths : Int → Int) (C C_diff H_diff : Int → α) (drop_states : Bool)
    (forget_bias : α) (n : Int) (s : LSTMUnitGradientState α) : LSTMUnitGradientState α :=
  let valid : Bool := decide (t < seqLengths n)
  let s := forLoop
    (LSTMUnitGradient.cell exp D valid drop_states C_prev X C C_diff H_diff forget_bias)
    D.toNat s
  { s with
    pC_prev := s.pC_prev + D
    pX := s.pX + 4 * D
    pC := s.pC + D
    pH := s.pH + D
    pC_diff := s.pC_diff + D
    pH_diff := s.pH_diff + D
    pX_diff := s.pX_diff + 4 * D
    pH_prev_diff := s.pH_prev_diff + D
    pC_prev_diff := s.pC_prev_diff + D }

/-- The kernel `detail::LSTMUnitGradient`.  The buffer `H` is a parameter of the source
function that its body never dereferences.  `H_prev_diff`, `C_prev_diff` and `X_diff` are
the contents of the output buffers before the call. -/
def LSTMUnitGradient [Field α] (exp : α → α) (N D t : Int) (C_prev X : Int → α)
    (seqLengths : Int → Int) (C _H C_diff H_diff : Int → α) (drop_states : Bool)
    (H_prev_diff C_prev_diff X_diff : Int → α) (forget_bias : α) :
    LSTMUnitGradientState α :=
  forLoop
    (LSTMUnitGradient.row exp D t C_prev X seqLengths C C_diff H_diff drop_states forget_bias)
    N.toNat ⟨0, 0, 0, 0, 0, 0, 0, 0, 0, H_prev_diff, C_prev_diff, X_diff⟩

/-! ## The recomputing variant of the backward kernel

The consistency property of the specification compares `LSTMUnitGradient`, which reads the
cell value `c` from the forward output buffer `C`, with a kernel that recomputes
`c = f * c_prev + i * g` from the gates.  The three definitions below are that second kernel:
they repeat `LSTMUnitGradient.cell`, `LSTMUnitGradient.row` and `LSTMUnitGradient` with this
one line changed and without the parameter `C`. -/

/-- Body of the inner loop of the recomputing variant: as `LSTMUnitGradient.cell`, with
`c := f * c_prev + i * g` in place of `c := C[d]`. -/
def LSTMUnitGradientRecompute.cell [Field α] (exp : α → α) (D : Int)
    (valid drop_states : Bool) (C_prev X C_diff H_diff : Int → α) (forget_bias : α) (d : Int)
    (s : LSTMUnitGradientState α) : LSTMUnitGradientState α :=
  let c_prev_diff := s.pC_prev_diff + d
  let h_prev_diff := s.pH_prev_diff + d
  let i_diff := s.pX_diff + d
  let f_diff := s.pX_diff + 1 * D + d
  let o_diff := s.pX_diff + 2 * D + d
  let g_diff := s.pX_diff + 3 * D + d
  if !valid then
    let s :=
      if drop_states then
        let H_prev_diff := Function.update s.H_prev_diff h_prev_diff 0
        let C_prev_diff := Function.update s.C_prev_diff c_prev_diff 0
        { s with H_prev_diff := H_prev_diff, C_prev_diff := C_prev_diff }
      else
        let H_prev_diff := Function.update s.H_prev_diff h_prev_diff (H_diff (s.pH_diff + d))
        let C_prev_diff := Function.update s.C_prev_diff c_prev_diff (C_diff (s.pC_diff + d))
        { s with H_prev_diff := H_prev_diff, C_prev_diff := C_prev_diff }
    let X_diff := Function.update s.X_diff i_diff 0
    let X_diff := Function.update X_diff f_diff 0
    let X_diff := Function.update X_diff o_diff 0
    let X_diff := Function.update X_diff g_diff 0
    { s with X_diff := X_diff }
  else
    let i := sigmoid exp (X (s.pX + d))
    let f := sigmoid exp (X (s.pX + (1 * D + d)) + forget_bias)
    let o := sigmoid exp (X (s.pX + (2 * D + d)))
    let g := host_tanh exp (X (s.pX + (3 * D + d)))
    let c_prev := C_prev (s.pC_prev + d)
    let c := f * c_prev + i * g
    let host_tanh_c := host_tanh exp c
    let c_term_diff := C_diff (s.pC_diff + d)
      + H_diff (s.pH_diff + d) * o * (1 - host_tanh_c * host_tanh_c)
    let C_prev_diff := Function.update s.C_prev_diff c_prev_diff (c_term_diff * f)
    let H_prev_diff := Function.update s.H_prev_diff h_prev_diff 0
    let X_diff := Function.update s.X_diff i_diff (c_term_diff * g * i * (1 - i))
    let X_diff := Function.update X_diff f_diff (c_term_diff * c_prev * f * (1 - f))
    let X_diff := Function.update X_diff o_diff (H_diff (s.pH_diff + d) * host_tanh_c * o * (1 - o))
    let X_diff := Function.update X_diff g_diff (c_term_diff * i * (1 - g * g))
    { s with H_prev_diff := H_prev_diff, C_prev_diff := C_prev_diff, X_diff := X_diff }

/-- Body of the outer loop of the recomputing variant: as `LSTMUnitGradient.row`. -/
def LSTMUnitGradientRecompute.row [Field α] (exp : α → α) (D t : Int) (C_prev X : Int → α)
    (seqLengths : Int → Int) (C_diff H_diff : Int → α) (drop_states : Bool)
    (forget_bias : α) (n : Int) (s : LSTMUnitGradientState α) : LSTMUnitGradientState α :=
  let valid : Bool := decide (t < seqLengths n)
  let s := forLoop
    (LSTMUnitGradientRecompute.cell exp D valid drop_states C_prev X C_diff H_diff forget_bias)
    D.toNat s
  { s with
    pC_prev := s.pC_prev + D
    pX := s.pX + 4 * D
    pC := s.pC + D
    pH := s.pH + D
    pC_diff := s.pC_diff + D
    pH_diff := s.pH_diff + D
    pX_diff := s.pX_diff + 4 * D
    pH_prev_diff := s.pH_prev_diff + D
    pC_prev_diff := s.pC_prev_diff + D }

/-- The recomputing variant of `LSTMUnitGradient`: the backward kernel that does not read the
forward output `C`. -/
def LSTMUnitGradientRecompute [Field α] (exp : α → α) (N D t : Int) (C_prev X : Int → α)
    (seqLengths : Int → Int) (C_diff H_diff : Int → α) (drop_states : Bool)
    (H_prev_diff C_prev_diff X_diff : Int → α) (forget_bias : α) :
    LSTMUnitGradientState α :=
  forLoop
    (LSTMUnitGradientRecompute.row exp D t C_prev X seqLengths C_diff H_diff drop_states
      forget_bias)
    N.toNat ⟨0, 0, 0, 0, 0, 0, 0, 0, 0, H_prev_diff, C_prev_diff, X_diff⟩

/-! ## The operators `LSTMUnitOp` and `LSTMUnitGradientOp`

The operator classes call into the framework (`Tensor`, `Input`, `Output`,
`GetSingleArgument`, `CAFFE_ENFORCE_EQ`), which is declared outside the two source files.
The parts of it that `RunOnDevice` and the constructors use are modelled below.  A failed
`CAFFE_ENFORCE_EQ` throws; `RunOnDevice` is therefore a function from the inputs and the
output tensors before the call to the output tensors at the moment the call ends together
with either the returned `bool` or the check that failed.  The conversion of `N` and `D`
from the tensor index type to the `int` parameters of the kernels is taken to be exact. -/

/-- Modelled from the spec: the framework class `Tensor` (declared outside the source files),
reduced to its shape and the flat row-major buffer behind `data<T>()` and
`mutable_data<T>()`. -/
structure Tensor (β : Type) where
  dims : List Int
  data : Int → β

/-- Modelled from the spec: `Tensor::dim(i)`, the extent of dimension `i`; `0` stands for a
dimension that the tensor does not have. -/
def Tensor.dim {β : Type} (x : Tensor β) (i : Nat) : Int :=
  x.dims.getD i 0

/-- Modelled from the spec: `Tensor::size()`, the number of elements, which is the product of
the extents. -/
def Tensor.size {β : Type} (x : Tensor β) : Int :=
  x.dims.prod

/-- Modelled from the spec: `Tensor::ResizeLike(src)`, which gives the tensor the shape of
`src`; the buffer keeps whatever it held. -/
def Tensor.ResizeLike {β γ : Type} (x : Tensor β) (src : Tensor γ) : Tensor β :=
  { x with dims := src.dims }

/-- The two `CAFFE_ENFORCE_EQ` checks of `lstm_unit_op.h`. -/
inductive EnforceNotMet where
  | gateWidth
  | seqLengthsSize
  deriving DecidableEq

/-- Modelled from the spec: the operator definition (`OperatorDef`, declared outside the
source files), reduced to the two arguments the constructors look up: the value of the
argument named `forget_bias` and of the argument named `drop_states`, when the definition
carries one. -/
structure OperatorDef (α : Type) where
  forget_bias : Option α
  drop_states : Option Bool

/-- Modelled from the spec: `GetSingleArgument(name, default)`, the value of the named
argument when the definition carries it and the default otherwise. -/
def GetSingleArgument {β : Type} (arg : Option β) (default_value : β) : β :=
  arg.getD default_value

/-- The data members of `LSTMUnitOp`. -/
structure LSTMUnitOp (α : Type) where
  forget_bias_ : α
  drop_states_ : Bool

/-- The data members of `LSTMUnitGradientOp`. -/
structure LSTMUnitGradientOp (α : Type) where
  forget_bias_ : α
  drop_states_ : Bool

/-- The constructor `LSTMUnitOp(operator_def, ws)` (lines 139-147): both members come from
`GetSingleArgument`, with defaults `0.0` and `false`. -/
def LSTMUnitOp.create [Field α] (operator_def : OperatorDef α) : LSTMUnitOp α :=
  { forget_bias_ := GetSingleArgument operator_def.forget_bias 0
    drop_states_ := GetSingleArgument operator_def.drop_states false }

/-- The constructor `LSTMUnitGradientOp(operator_def, ws)` (lines 200-208). -/
def LSTMUnitGradientOp.create [Field α] (operator_def : OperatorDef α) :
    LSTMUnitGradientOp α :=
  { forget_bias_ := GetSingleArgument operator_def.forget_bias 0
    drop_states_ := GetSingleArgument operator_def.drop_states false }

/-- The inputs of `LSTMUnitOp`, by input tag. -/
structure LSTMUnitOpInputs (α : Type) where
  HIDDEN_T_M_1 : Tensor α
  CELL_T_M_1 : Tensor α
  GATES : Tensor α
  SEQ_LENGTHS : Tensor Int
  TIMESTEP : Tensor Int

/-- The outputs of `LSTMUnitOp`, by output tag. -/
structure LSTMUnitOpOutputs (α : Type) where
  HIDDEN_T : Tensor α
  CELL_T : Tensor α

/-- `LSTMUnitOp::RunOnDevice` (lines 151-185). -/
def LSTMUnitOp.RunOnDevice [Field α] (exp : α → α) (op : LSTMUnitOp α)
    (inp : LSTMUnitOpInputs α) (out : LSTMUnitOpOutputs α) :
    LSTMUnitOpOutputs α × Except EnforceNotMet Bool :=
  let N := inp.CELL_T_M_1.dim 1
  let G := inp.GATES.dim 2
  let D := inp.CELL_T_M_1.dim 2
  if 4 * D ≠ G then (out, Except.error EnforceNotMet.gateWidth) else
  let H_prev := inp.HIDDEN_T_M_1.data
  let C_prev := inp.CELL_T_M_1.data
  let X := inp.GATES.data
  if inp.SEQ_LENGTHS.size ≠ N then (out, Except.error EnforceNotMet.seqLengthsSize) else
  let seqLengths := inp.SEQ_LENGTHS.data
  let t := inp.TIMESTEP.data 0
  let out := { out with CELL_T := out.CELL_T.ResizeLike inp.CELL_T_M_1 }
  let C := out.CELL_T.data
  let out := { out with HIDDEN_T := out.HIDDEN_T.ResizeLike inp.CELL_T_M_1 }
  let H := out.HIDDEN_T.data
  let r := LSTMUnit exp N D t H_prev C_prev X seqLengths op.drop_states_ C H op.forget_bias_
  ({ HIDDEN_T := { out.HIDDEN_T with data := r.H }
     CELL_T := { out.CELL_T with data := r.C } }, Except.ok true)

/-- The inputs of `LSTMUnitGradientOp`, by input tag. -/
structure LSTMUnitGradientOpInputs (α : Type) where
  HIDDEN_T_M_1 : Tensor α
  CELL_T_M_1 : Tensor α
  GATES : Tensor α
  SEQ_LENGTHS : Tensor Int
  TIMESTEP : Tensor Int
  HIDDEN_T : Tensor α
  CELL_T : Tensor α
  HIDDEN_T_GRAD : Tensor α
  CELL_T_GRAD : Tensor α

/-- The outputs of `LSTMUnitGradientOp`, by output tag. -/
structure LSTMUnitGradientOpOutputs (α : Type) where
  HIDDEN_T_M_1_GRAD : Tensor α
  CELL_T_M_1_GRAD : Tensor α
  GATES_GRAD : Tensor α

/-- `LSTMUnitGradientOp::RunOnDevice` (lines 211-254).  The only check is the one on the gate
width. -/
def LSTMUnitGradientOp.RunOnDevice [Field α] (exp : α → α) (op : LSTMUnitGradientOp α)
    (inp : LSTMUnitGradientOpInputs α) (out : LSTMUnitGradientOpOutputs α) :
    LSTMUnitGradientOpOutputs α × Except EnforceNotMet Bool :=
  let N := inp.CELL_T_M_1.dim 1
  let G := inp.GATES.dim 2
  let D := inp.CELL_T_M_1.dim 2
  if 4 * D ≠ G then (out, Except.error EnforceNotMet.gateWidth) else
  let C_prev := inp.CELL_T_M_1.data
  let X := inp.GATES.data
  let t := inp.TIMESTEP.data 0
  let C := inp.CELL_T.data
  let H := inp.HIDDEN_T.data
  let C_diff := inp.CELL_T_GRAD.data
  let H_diff := inp.HIDDEN_T_GRAD.data
  let seqLengths := inp.SEQ_LENGTHS.data
  let out := { out with HIDDEN_T_M_1_GRAD := out.HIDDEN_T_M_1_GRAD.ResizeLike inp.HIDDEN_T_M_1 }
  let H_prev_diff := out.HIDDEN_T_M_1_GRAD.data
  let out := { out with CELL_T_M_1_GRAD := out.CELL_T_M_1_GRAD.ResizeLike inp.CELL_T_M_1 }
  let C_prev_diff := out.CELL_T_M_1_GRAD.data
  let out := { out with GATES_GRAD := out.GATES_GRAD.ResizeLike inp.GATES }
  let X_diff := out.GATES_GRAD.data
  let r := LSTMUnitGradient exp N D t C_prev X seqLengths C H C_diff H_diff op.drop_states_
    H_prev_diff C_prev_diff X_diff op.forget_bias_
  ({ HIDDEN_T_M_1_GRAD := { out.HIDDEN_T_M_1_GRAD with data := r.H_prev_diff }
     CELL_T_M_1_GRAD := { out.CELL_T_M_1_GRAD with data := r.C_prev_diff }
     GATES_GRAD := { out.GATES_GRAD with data := r.X_diff } }, Except.ok true)

/-! ## Which branch a row takes, as seen from outside

The two predicates below say what it means, in terms of the values written, that a kernel
treats row `n` as expired: for every choice of the other inputs the row is written the way
the branch `if (!valid)` writes it.  They are used to state that the forward and the backward
kernel come to the same decision. -/

section CellValues

variable [Field α]

/-- Value that the body of `LSTMUnit` stores to `C[d]` when the row pointers `C_prev` and `X`
stand at offsets `pC_prev` and `pX`. -/
def LSTMUnit.cOut (exp : α → α) (D : Int) (valid drop_states : Bool) (C_prev X : Int → α)
    (forget_bias : α) (pC_prev pX d : Int) : α :=
  (LSTMUnit.cell exp D valid drop_states (fun _ => 0) C_prev X forget_bias d
    ⟨0, pC_prev, pX, 0, 0, fun _ => 0, fun _ => 0⟩).C d

/-- Value that the body of `LSTMUnit` stores to `H[d]` when the row pointers `H_prev`,
`C_prev` and `X` stand at offsets `pH_prev`, `pC_prev` and `pX`. -/
def LSTMUnit.hOut (exp : α → α) (D : Int) (valid drop_states : Bool) (H_prev C_prev X : Int → α)
    (forget_bias : α) (pH_prev pC_prev pX d : Int) : α :=
  (LSTMUnit.cell exp D valid drop_states H_prev C_prev X forget_bias d
    ⟨pH_prev, pC_prev, pX, 0, 0, fun _ => 0, fun _ => 0⟩).H d

/-- The six values that one iteration of the inner loop of `LSTMUnitGradient` stores. -/
structure GradCell (α : Type) where
  h_prev_diff : α
  c_prev_diff : α
  i_diff : α
  f_diff : α
  o_diff : α
  g_diff : α

/-- Values stored by the body of `LSTMUnitGradient` at column `d` when the input row
pointers stand at the given offsets (lines 94-121, without the stores). -/
def LSTMUnitGradient.vals (exp : α → α) (D : Int) (valid drop_states : Bool)
    (C_prev X C C_diff H_diff : Int → α) (forget_bias : α)
    (pC_prev pX pC pC_diff pH_diff d : Int) : GradCell α :=
  if !valid then
    if drop_states then
      ⟨0, 0, 0, 0, 0, 0⟩
    else
      ⟨H_diff (pH_diff + d), C_diff (pC_diff + d), 0, 0, 0, 0⟩
  else
    let i := sigmoid exp (X (pX + d))
    let f := sigmoid exp (X (pX + (1 * D + d)) + forget_bias)
    let o := sigmoid exp (X (pX + (2 * D + d)))
    let g := host_tanh exp (X (pX + (3 * D + d)))
    let c_prev := C_prev (pC_prev + d)
    let c := C (pC + d)
    let host_tanh_c := host_tanh exp c
    let c_term_diff := C_diff (pC_diff + d)
      + H_diff (pH_diff + d) * o * (1 - host_tanh_c * host_tanh_c)
    ⟨0, c_term_diff * f, c_term_diff * g * i * (1 - i), c_term_diff * c_prev * f * (1 - f),
      H_diff (pH_diff + d) * host_tanh_c * o * (1 - o), c_term_diff * i * (1 - g * g)⟩

/-- The linear scalar loss of the gradient claims,
`L = ∑_{n < N} ∑_{d < D} (C_grad[n*D+d] * C[n*D+d] + H_grad[n*D+d] * H[n*D+d])`,
over the `N × D` cells of the two forward outputs. -/
def linearLoss (N D : Int) (C_grad H_grad C H : Int → α) : α :=
  ∑ n ∈ Finset.range N.toNat, ∑ d ∈ Finset.range D.toNat,
    (C_grad ((n : Int) * D + d) * C ((n : Int) * D + d)
      + H_grad ((n : Int) * D + d) * H ((n : Int) * D + d))

/-- The summand of `linearLoss` for cell `(n, d)`, with the values `LSTMUnit` stores there. -/
def LSTMUnit.cellLoss (exp : α → α) (D t : Int) (seqLengths : Int → Int) (drop_states : Bool)
    (C_grad H_grad H_prev C_prev X : Int → α) (forget_bias : α) (n d : Int) : α :=
  C_grad (n * D + d) * LSTMUnit.cOut exp D (decide (t < seqLengths n)) drop_states C_prev X
      forget_bias (n * D) (n * (4 * D)) d
    + H_grad (n * D + d) * LSTMUnit.hOut exp D (decide (t < seqLengths n)) drop_states H_prev
      C_prev X forget_bias (n * D) (n * D) (n * (4 * D)) d

end CellValues

/-! ## Index arithmetic -/

section Index

/-- Cells of an earlier row lie strictly below the start of a later row. -/
theorem row_lt_of_lt {D n k d : Int} (hnk : n < k) (hd : d < D) (hd0 : 0 ≤ d) :
    n * D + d < k * D := by
  have h1 : (n + 1) * D ≤ k * D :=
    mul_le_mul_of_nonneg_right (by omega) (by omega)
  have h2 : (n + 1) * D = n * D + D := by ring
  omega

/-- Row-major addressing `n * D + d` with `0 ≤ d < D` determines `n` and `d`. -/
theorem rowMajor_inj {D n m d e : Int} (hd0 : 0 ≤ d) (hd : d < D) (he0 : 0 ≤ e) (he : e < D)
    (h : n * D + d = m * D + e) : n = m ∧ d = e := by
  have hnm : n = m := by
    rcases lt_trichotomy n m with hlt | heq | hgt
    · have := row_lt_of_lt (D := D) hlt hd hd0
      omega
    · exact heq
    · have := row_lt_of_lt (D := D) hgt he he0
      omega
  subst hnm
  exact ⟨rfl, by omega⟩

/-- Four stores to pairwise distinct addresses: each address holds its value and every other
address is untouched. -/
theorem update4_apply (f : Int → α) (a0 a1 a2 a3 : Int) (v0 v1 v2 v3 : α)
    (h01 : a0 ≠ a1) (h02 : a0 ≠ a2) (h03 : a0 ≠ a3) (h12 : a1 ≠ a2) (h13 : a1 ≠ a3)
    (h23 : a2 ≠ a3) :
    let F := Function.update (Function.update (Function.update (Function.update f a0 v0) a1 v1)
      a2 v2) a3 v3
    F a0 = v0 ∧ F a1 = v1 ∧ F a2 = v2 ∧ F a3 = v3 ∧
      ∀ j, j ≠ a0 → j ≠ a1 → j ≠ a2 → j ≠ a3 → F j = f j := by
  refine ⟨?_, ?_, ?_, ?_, fun j h0 h1 h2 h3 => ?_⟩ <;>
    simp [Function.update_apply, *, Ne.symm]

/-- Gate addressing `n * 4D + (b * D + d)` with `0 ≤ b < 4` and `0 ≤ d < D` determines the
row, the block and the column. -/
theorem gate_inj {D n m b k d e : Int} (hd0 : 0 ≤ d) (hd : d < D) (he0 : 0 ≤ e) (he : e < D)
    (hb0 : 0 ≤ b) (hb : b < 4) (hk0 : 0 ≤ k) (hk : k < 4)
    (h : n * (4 * D) + (b * D + d) = m * (4 * D) + (k * D + e)) : n = m ∧ b = k ∧ d = e := by
  have hb1 := row_lt_of_lt (D := D) hb hd hd0
  have hk1 := row_lt_of_lt (D := D) hk he he0
  have hb2 : 0 ≤ b * D := mul_nonneg hb0 (by omega)
  have hk2 : 0 ≤ k * D := mul_nonneg hk0 (by omega)
  obtain ⟨hnm, hin⟩ := rowMajor_inj (D := 4 * D) (by omega) hb1 (by omega) hk1 h
  obtain ⟨hbk, hde⟩ := rowMajor_inj hd0 hd he0 he hin
  exact ⟨hnm, hbk, hde⟩

/-- An offset `e` inside a gate row of width `4 * D` lies in exactly one of the four blocks:
`e = b * D + d` with `b ∈ {0, 1, 2, 3}` and `0 ≤ d < D`. -/
theorem gate_decomp {D e : Int} (he0 : 0 ≤ e) (he : e < 4 * D) :
    ∃ d : Int, 0 ≤ d ∧ d < D ∧ (e = d ∨ e = 1 * D + d ∨ e = 2 * D + d ∨ e = 3 * D + d) := by
  by_cases h1 : e < D
  · exact ⟨e, he0, h1, Or.inl rfl⟩
  · by_cases h2 : e < 2 * D
    · exact ⟨e - D, by omega, by omega, Or.inr (Or.inl (by ring))⟩
    · by_cases h3 : e < 3 * D
      · exact ⟨e - 2 * D, by omega, by omega, Or.inr (Or.inr (Or.inl (by ring)))⟩
      · exact ⟨e - 3 * D, by omega, by omega, Or.inr (Or.inr (Or.inr (by ring)))⟩

/-- With `N` and `D` not both negative, every index of `[0, N * D)` is the row-major address
`n * D + d` of a cell with `0 ≤ n < N` and `0 ≤ d < D`. -/
theorem cell_of_index {N D j : Int} (hND : 0 ≤ N ∨ 0 ≤ D) (hj0 : 0 ≤ j) (hj : j < N * D) :
    ∃ n d : Int, 0 ≤ n ∧ n < N ∧ 0 ≤ d ∧ d < D ∧ j = n * D + d := by
  have hD : 0 < D := by
    by_contra hD
    have hD' : D ≤ 0 := by omega
    rcases hND with hN | hD0
    · have := mul_nonpos_of_nonneg_of_nonpos hN hD'
      omega
    · have hD0' : D = 0 := by omega
      rw [hD0', mul_zero] at hj
      omega
  refine ⟨j / D, j % D, Int.ediv_nonneg hj0 hD.le, Int.ediv_lt_of_lt_mul hD hj,
    Int.emod_nonneg j hD.ne', Int.emod_lt_of_pos j hD, ?_⟩
  have := Int.ediv_add_emod j D
  rw [mul_comm] at this
  exact this.symm

/-- An index outside `[0, N * D)` is not the address of any cell. -/
theorem index_not_cell {N D j : Int} (hj : j < 0 ∨ N * D ≤ j) (n d : Int) (hn0 : 0 ≤ n)
    (hn : n < N) (hd0 : 0 ≤ d) (hd : d < D) : j ≠ n * D + d := by
  have h1 := row_lt_of_lt (D := D) hn hd hd0
  have h2 : 0 ≤ n * D := mul_nonneg hn0 (by omega)
  omega

end Index

/-! ## The forward kernel, cell by cell -/

section Forward

variable [Field α]

theorem LSTMUnit.cell_C (exp : α → α) (D : Int) (valid drop_states : Bool)
    (H_prev C_prev X : Int → α) (fb : α) (d : Int) (s : LSTMUnitState α) :
    (LSTMUnit.cell exp D valid drop_states H_prev C_prev X fb d s).C =
      Function.update s.C (s.pC + d)
        (LSTMUnit.cOut exp D valid drop_states C_prev X fb s.pC_prev s.pX d) := by
  cases valid <;> cases drop_states <;> simp [LSTMUnit.cell, LSTMUnit.cOut]

theorem LSTMUnit.cell_H (exp : α → α) (D : Int) (valid drop_states : Bool)
    (H_prev C_prev X : Int → α) (fb : α) (d : Int) (s : LSTMUnitState α) :
    (LSTMUnit.cell exp D valid drop_states H_prev C_prev X fb d s).H =
      Function.update s.H (s.pH + d)
        (LSTMUnit.hOut exp D valid drop_states H_prev C_prev X fb s.pH_prev s.pC_prev s.pX d) := by
  cases valid <;> cases drop_states <;> simp [LSTMUnit.cell, LSTMUnit.hOut]

theorem LSTMUnit.cell_ptrs (exp : α → α) (D : Int) (valid drop_states : Bool)
    (H_prev C_prev X : Int → α) (fb : α) (d : Int) (s : LSTMUnitState α) :
    (LSTMUnit.cell exp D valid drop_states H_prev C_prev X fb d s).pH_prev = s.pH_prev ∧
    (LSTMUnit.cell exp D valid drop_states H_prev C_prev X fb d s).pC_prev = s.pC_prev ∧
    (LSTMUnit.cell exp D valid drop_states H_prev C_prev X fb d s).pX = s.pX ∧
    (LSTMUnit.cell exp D valid drop_states H_prev C_prev X fb d s).pC = s.pC ∧
    (LSTMUnit.cell exp D valid drop_states H_prev C_prev X fb d s).pH = s.pH := by
  cases valid <;> cases drop_states <;> simp [LSTMUnit.cell]

/-- The inner loop of `LSTMUnit` run for `k` iterations: the pointers are untouched and the
cells `d < k` of the current row hold the values of `cOut` and `hOut`. -/
theorem LSTMUnit.forward_inner_spec (exp : α → α) (D : Int) (valid drop_states : Bool)
    (H_prev C_prev X : Int → α) (fb : α) (s : LSTMUnitState α) (k : Nat) :
    let r := forLoop (LSTMUnit.cell exp D valid drop_states H_prev C_prev X fb) k s
    r.pH_prev = s.pH_prev ∧ r.pC_prev = s.pC_prev ∧ r.pX = s.pX ∧ r.pC = s.pC ∧ r.pH = s.pH ∧
    (∀ j : Int, r.C j = if s.pC ≤ j ∧ j < s.pC + k then
        LSTMUnit.cOut exp D valid drop_states C_prev X fb s.pC_prev s.pX (j - s.pC)
      else s.C j) ∧
    (∀ j : Int, r.H j = if s.pH ≤ j ∧ j < s.pH + k then
        LSTMUnit.hOut exp D valid drop_states H_prev C_prev X fb s.pH_prev s.pC_prev s.pX
          (j - s.pH)
      else s.H j) := by
  induction k with
  | zero =>
    simp only [forLoop, true_and]
    refine ⟨fun j => ?_, fun j => ?_⟩ <;> rw [if_neg] <;> simp
  | succ k ih =>
    obtain ⟨h1, h2, h3, h4, h5, hC, hH⟩ := ih
    obtain ⟨q1, q2, q3, q4, q5⟩ := LSTMUnit.cell_ptrs exp D valid drop_states H_prev C_prev X fb
      (k : Int) (forLoop (LSTMUnit.cell exp D valid drop_states H_prev C_prev X fb) k s)
    simp only [forLoop]
    refine ⟨q1.trans h1, q2.trans h2, q3.trans h3, q4.trans h4, q5.trans h5, fun j => ?_,
      fun j => ?_⟩
    · rw [LSTMUnit.cell_C, h2, h3, h4, Function.update_apply, hC j]
      by_cases hj : j = s.pC + k
      · subst hj
        rw [if_pos rfl, if_pos (by push_cast; omega)]
        congr 1; omega
      · rw [if_neg hj]
        by_cases hr : s.pC ≤ j ∧ j < s.pC + k
        · rw [if_pos hr, if_pos (by push_cast; omega)]
        · rw [if_neg hr, if_neg (by push_cast; omega)]
    · rw [LSTMUnit.cell_H, h1, h2, h3, h5, Function.update_apply, hH j]
      by_cases hj : j = s.pH + k
      · subst hj
        rw [if_pos rfl, if_pos (by push_cast; omega)]
        congr 1; omega
      · rw [if_neg hj]
        by_cases hr : s.pH ≤ j ∧ j < s.pH + k
        · rw [if_pos hr, if_pos (by push_cast; omega)]
        · rw [if_neg hr, if_neg (by push_cast; omega)]

/-- The row loop of `LSTMUnit` run for `k` rows: every pointer has advanced by `k` strides,
cell `(n, d)` of each processed row holds the value of `cOut` / `hOut` for that row, and
every other element of the output buffers is as before the call. -/
theorem LSTMUnit.forward_outer_spec (exp : α → α) (D t : Int) (H_prev C_prev X : Int → α)
    (seqLengths : Int → Int) (drop_states : Bool) (C0 H0 : Int → α) (fb : α) (k : Nat) :
    let r := forLoop (LSTMUnit.row exp D t H_prev C_prev X seqLengths drop_states fb) k
      ⟨0, 0, 0, 0, 0, C0, H0⟩
    r.pH_prev = k * D ∧ r.pC_prev = k * D ∧ r.pX = k * (4 * D) ∧ r.pC = k * D ∧ r.pH = k * D ∧
    (∀ n d : Int, 0 ≤ n → n < k → 0 ≤ d → d < D →
      r.C (n * D + d) = LSTMUnit.cOut exp D (decide (t < seqLengths n)) drop_states C_prev X fb
        (n * D) (n * (4 * D)) d ∧
      r.H (n * D + d) = LSTMUnit.hOut exp D (decide (t < seqLengths n)) drop_states H_prev
        C_prev X fb (n * D) (n * D) (n * (4 * D)) d) ∧
    (∀ j : Int, (∀ n d : Int, 0 ≤ n → n < k → 0 ≤ d → d < D → j ≠ n * D + d) →
      r.C j = C0 j ∧ r.H j = H0 j) := by
  induction k with
  | zero =>
    simp only [forLoop, Nat.cast_zero, zero_mul, true_and]
    exact ⟨fun n d h0 h1 => absurd h1 (by omega), fun j _ => trivial⟩
  | succ k ih =>
    obtain ⟨h1, h2, h3, h4, h5, hval, hframe⟩ := ih
    obtain ⟨q1, q2, q3, q4, q5, qC, qH⟩ := LSTMUnit.forward_inner_spec exp D
      (decide (t < seqLengths (k : Int))) drop_states H_prev C_prev X fb
      (forLoop (LSTMUnit.row exp D t H_prev C_prev X seqLengths drop_states fb) k
        ⟨0, 0, 0, 0, 0, C0, H0⟩) D.toNat
    simp only [forLoop, LSTMUnit.row]
    rw [h1] at q1
    rw [h2] at q2
    rw [h3] at q3
    rw [h4] at q4
    rw [h5] at q5
    rw [h2, h3, h4] at qC
    rw [h1, h2, h3, h5] at qH
    refine ⟨by rw [q1]; push_cast; ring, by rw [q2]; push_cast; ring,
      by rw [q3]; push_cast; ring, by rw [q4]; push_cast; ring, by rw [q5]; push_cast; ring,
      fun n d hn0 hn hd0 hd => ?_, fun j hj => ?_⟩
    · rw [qC, qH]
      by_cases hnk : n < (k : Int)
      · have hlt := row_lt_of_lt (D := D) hnk hd hd0
        rw [if_neg (by omega), if_neg (by omega)]
        exact hval n d hn0 hnk hd0 hd
      · have hnk2 : n = (k : Int) := by push_cast at hn; omega
        subst hnk2
        have hsub : (k : Int) * D + d - k * D = d := by ring
        rw [if_pos (by omega), if_pos (by omega), hsub]
        exact ⟨rfl, rfl⟩
    · rw [qC, qH]
      have hout : ¬ ((k : Int) * D ≤ j ∧ j < k * D + D.toNat) := by
        intro hr
        exact hj k (j - k * D) (by omega) (by push_cast; omega) (by omega) (by omega) (by ring)
      rw [if_neg hout, if_neg hout]
      exact hframe j (fun n d hn0 hn hd0 hd => hj n d hn0 (by push_cast; omega) hd0 hd)

end Forward

/-! ## The backward kernel, cell by cell -/

section Backward

variable [Field α]

/-- One iteration of the inner loop of `LSTMUnitGradient` is six stores of the values of
`vals`; no pointer changes. -/
theorem LSTMUnitGradient.cell_eq (exp : α → α) (D : Int) (valid drop_states : Bool)
    (C_prev X C C_diff H_diff : Int → α) (fb : α) (d : Int) (s : LSTMUnitGradientState α) :
    LSTMUnitGradient.cell exp D valid drop_states C_prev X C C_diff H_diff fb d s =
      let v := LSTMUnitGradient.vals exp D valid drop_states C_prev X C C_diff H_diff fb
        s.pC_prev s.pX s.pC s.pC_diff s.pH_diff d
      { s with
        H_prev_diff := Function.update s.H_prev_diff (s.pH_prev_diff + d) v.h_prev_diff
        C_prev_diff := Function.update s.C_prev_diff (s.pC_prev_diff + d) v.c_prev_diff
        X_diff := Function.update (Function.update (Function.update (Function.update s.X_diff
          (s.pX_diff + d) v.i_diff) (s.pX_diff + 1 * D + d) v.f_diff)
          (s.pX_diff + 2 * D + d) v.o_diff) (s.pX_diff + 3 * D + d) v.g_diff } := by
  cases valid <;> cases drop_states <;> simp [LSTMUnitGradient.cell, LSTMUnitGradient.vals]

/-- The inner loop of `LSTMUnitGradient` run for `k ≤ D` iterations: only the three output
buffers change; cells `d < k` of the current row hold the values of `vals`, in the block
layout `[i, f, o, g]` for `X_diff`; all other elements are untouched. -/
theorem LSTMUnitGradient.backward_inner_spec (exp : α → α) (D : Int) (valid drop_states : Bool)
    (C_prev X C C_diff H_diff : Int → α) (fb : α) (s : LSTMUnitGradientState α) (k : Nat)
    (hk : k ≤ D.toNat) :
    ∃ hp cp x : Int → α,
      forLoop (LSTMUnitGradient.cell exp D valid drop_states C_prev X C C_diff H_diff fb) k s =
        { s with H_prev_diff := hp, C_prev_diff := cp, X_diff := x } ∧
      (∀ j : Int, hp j = if s.pH_prev_diff ≤ j ∧ j < s.pH_prev_diff + k then
          (LSTMUnitGradient.vals exp D valid drop_states C_prev X C C_diff H_diff fb
            s.pC_prev s.pX s.pC s.pC_diff s.pH_diff (j - s.pH_prev_diff)).h_prev_diff
        else s.H_prev_diff j) ∧
      (∀ j : Int, cp j = if s.pC_prev_diff ≤ j ∧ j < s.pC_prev_diff + k then
          (LSTMUnitGradient.vals exp D valid drop_states C_prev X C C_diff H_diff fb
            s.pC_prev s.pX s.pC s.pC_diff s.pH_diff (j - s.pC_prev_diff)).c_prev_diff
        else s.C_prev_diff j) ∧
      (∀ d : Int, 0 ≤ d → d < k →
        x (s.pX_diff + d) = (LSTMUnitGradient.vals exp D valid drop_states C_prev X C C_diff
          H_diff fb s.pC_prev s.pX s.pC s.pC_diff s.pH_diff d).i_diff ∧
        x (s.pX_diff + 1 * D + d) = (LSTMUnitGradient.vals exp D valid drop_states C_prev X C
          C_diff H_diff fb s.pC_prev s.pX s.pC s.pC_diff s.pH_diff d).f_diff ∧
        x (s.pX_diff + 2 * D + d) = (LSTMUnitGradient.vals exp D valid drop_states C_prev X C
          C_diff H_diff fb s.pC_prev s.pX s.pC s.pC_diff s.pH_diff d).o_diff ∧
        x (s.pX_diff + 3 * D + d) = (LSTMUnitGradient.vals exp D valid drop_states C_prev X C
          C_diff H_diff fb s.pC_prev s.pX s.pC s.pC_diff s.pH_diff d).g_diff) ∧
      (∀ j : Int, (∀ d : Int, 0 ≤ d → d < k → j ≠ s.pX_diff + d ∧ j ≠ s.pX_diff + 1 * D + d ∧
          j ≠ s.pX_diff + 2 * D + d ∧ j ≠ s.pX_diff + 3 * D + d) → x j = s.X_diff j) := by
  induction k with
  | zero =>
    refine ⟨s.H_prev_diff, s.C_prev_diff, s.X_diff, rfl, fun j => ?_, fun j => ?_,
      fun d h0 h1 => absurd h1 (by push_cast; omega), fun j _ => rfl⟩ <;>
    rw [if_neg] <;> simp
  | succ k ih =>
    obtain ⟨hp, cp, x, hr, hhp, hcp, hx, hxf⟩ := ih (by omega)
    have hkD : (k : Int) < D := by omega
    obtain ⟨u0, u1, u2, u3, uf⟩ := update4_apply x
      (s.pX_diff + k) (s.pX_diff + 1 * D + k) (s.pX_diff + 2 * D + k) (s.pX_diff + 3 * D + k)
      (LSTMUnitGradient.vals exp D valid drop_states C_prev X C C_diff H_diff fb
        s.pC_prev s.pX s.pC s.pC_diff s.pH_diff k).i_diff
      (LSTMUnitGradient.vals exp D valid drop_states C_prev X C C_diff H_diff fb
        s.pC_prev s.pX s.pC s.pC_diff s.pH_diff k).f_diff
      (LSTMUnitGradient.vals exp D valid drop_states C_prev X C C_diff H_diff fb
        s.pC_prev s.pX s.pC s.pC_diff s.pH_diff k).o_diff
      (LSTMUnitGradient.vals exp D valid drop_states C_prev X C C_diff H_diff fb
        s.pC_prev s.pX s.pC s.pC_diff s.pH_diff k).g_diff
      (by omega) (by omega) (by omega) (by omega) (by omega) (by omega)
    refine ⟨_, _, _, by simp only [forLoop, hr, LSTMUnitGradient.cell_eq]; rfl,
      fun j => ?_, fun j => ?_, fun d hd0 hd => ?_, fun j hj => ?_⟩
    · rw [Function.update_apply, hhp j]
      by_cases hj : j = s.pH_prev_diff + k
      · subst hj
        rw [if_pos rfl, if_pos (by push_cast; omega)]
        congr 2; omega
      · rw [if_neg hj]
        by_cases hr : s.pH_prev_diff ≤ j ∧ j < s.pH_prev_diff + k
        · rw [if_pos hr, if_pos (by push_cast; omega)]
        · rw [if_neg hr, if_neg (by push_cast; omega)]
    · rw [Function.update_apply, hcp j]
      by_cases hj : j = s.pC_prev_diff + k
      · subst hj
        rw [if_pos rfl, if_pos (by push_cast; omega)]
        congr 2; omega
      · rw [if_neg hj]
        by_cases hr : s.pC_prev_diff ≤ j ∧ j < s.pC_prev_diff + k
        · rw [if_pos hr, if_pos (by push_cast; omega)]
        · rw [if_neg hr, if_neg (by push_cast; omega)]
    · by_cases hdk : d < (k : Int)
      · obtain ⟨e0, e1, e2, e3⟩ := hx d hd0 hdk
        refine ⟨?_, ?_, ?_, ?_⟩
        · rw [uf _ (by omega) (by omega) (by omega) (by omega)]; exact e0
        · rw [uf _ (by omega) (by omega) (by omega) (by omega)]; exact e1
        · rw [uf _ (by omega) (by omega) (by omega) (by omega)]; exact e2
        · rw [uf _ (by omega) (by omega) (by omega) (by omega)]; exact e3
      · have hdk2 : d = (k : Int) := by push_cast at hd; omega
        subst hdk2
        exact ⟨u0, u1, u2, u3⟩
    · obtain ⟨n0, n1, n2, n3⟩ := hj k (by omega) (by push_cast; omega)
      rw [uf j n0 n1 n2 n3]
      exact hxf j (fun d hd0 hd => hj d hd0 (by push_cast; omega))

/-- The row loop of `LSTMUnitGradient` run for `k` rows: every pointer has advanced by `k`
strides, the cells of the processed rows hold the values of `vals` for their row, and every
other element of the three output buffers is as before the call. -/
theorem LSTMUnitGradient.backward_outer_spec (exp : α → α) (D t : Int) (C_prev X : Int → α)
    (seqLengths : Int → Int) (C C_diff H_diff : Int → α) (drop_states : Bool)
    (Hp0 Cp0 X0 : Int → α) (fb : α) (k : Nat) :
    ∃ hp cp x : Int → α,
      forLoop (LSTMUnitGradient.row exp D t C_prev X seqLengths C C_diff H_diff drop_states fb)
        k ⟨0, 0, 0, 0, 0, 0, 0, 0, 0, Hp0, Cp0, X0⟩ =
        ⟨k * D, k * (4 * D), k * D, k * D, k * D, k * D, k * (4 * D), k * D, k * D, hp, cp, x⟩ ∧
      (∀ n d : Int, 0 ≤ n → n < k → 0 ≤ d → d < D →
        hp (n * D + d) = (LSTMUnitGradient.vals exp D (decide (t < seqLengths n)) drop_states
          C_prev X C C_diff H_diff fb (n * D) (n * (4 * D)) (n * D) (n * D) (n * D)
          d).h_prev_diff ∧
        cp (n * D + d) = (LSTMUnitGradient.vals exp D (decide (t < seqLengths n)) drop_states
          C_prev X C C_diff H_diff fb (n * D) (n * (4 * D)) (n * D) (n * D) (n * D)
          d).c_prev_diff ∧
        x (n * (4 * D) + d) = (LSTMUnitGradient.vals exp D (decide (t < seqLengths n))
          drop_states C_prev X C C_diff H_diff fb (n * D) (n * (4 * D)) (n * D) (n * D) (n * D)
          d).i_diff ∧
        x (n * (4 * D) + 1 * D + d) = (LSTMUnitGradient.vals exp D (decide (t < seqLengths n))
          drop_states C_prev X C C_diff H_diff fb (n * D) (n * (4 * D)) (n * D) (n * D) (n * D)
          d).f_diff ∧
        x (n * (4 * D) + 2 * D + d) = (LSTMUnitGradient.vals exp D (decide (t < seqLengths n))
          drop_states C_prev X C C_diff H_diff fb (n * D) (n * (4 * D)) (n * D) (n * D) (n * D)
          d).o_diff ∧
        x (n * (4 * D) + 3 * D + d) = (LSTMUnitGradient.vals exp D (decide (t < seqLengths n))
          drop_states C_prev X C C_diff H_diff fb (n * D) (n * (4 * D)) (n * D) (n * D) (n * D)
          d).g_diff) ∧
      (∀ j : Int, (∀ n d : Int, 0 ≤ n → n < k → 0 ≤ d → d < D → j ≠ n * D + d) →
        hp j = Hp0 j ∧ cp j = Cp0 j) ∧
      (∀ j : Int, (∀ n d : Int, 0 ≤ n → n < k → 0 ≤ d → d < D →
          j ≠ n * (4 * D) + d ∧ j ≠ n * (4 * D) + 1 * D + d ∧
          j ≠ n * (4 * D) + 2 * D + d ∧ j ≠ n * (4 * D) + 3 * D + d) → x j = X0 j) := by
  induction k with
  | zero =>
    refine ⟨Hp0, Cp0, X0, by simp [forLoop], fun n d h0 h1 => absurd h1 (by push_cast; omega),
      fun j _ => ⟨rfl, rfl⟩, fun j _ => rfl⟩
  | succ k ih =>
    obtain ⟨hp, cp, x, hr, hval, hfr, hfrx⟩ := ih
    obtain ⟨hp2, cp2, x2, hin, hhp, hcp, hx, hxf⟩ := LSTMUnitGradient.backward_inner_spec exp D
      (decide (t < seqLengths (k : Int))) drop_states C_prev X C C_diff H_diff fb
      ⟨k * D, k * (4 * D), k * D, k * D, k * D, k * D, k * (4 * D), k * D, k * D, hp, cp, x⟩
      D.toNat le_rfl
    simp only at hhp hcp hx hxf
    refine ⟨hp2, cp2, x2, ?_, fun n d hn0 hn hd0 hd => ?_, fun j hj => ?_, fun j hj => ?_⟩
    · simp only [forLoop, LSTMUnitGradient.row, hr, hin, LSTMUnitGradientState.mk.injEq,
        and_true]
      refine ⟨?_, ?_, ?_, ?_, ?_, ?_, ?_, ?_, ?_⟩ <;> (push_cast; ring)
    · by_cases hnk : n < (k : Int)
      · obtain ⟨e0, e1, e2, e3, e4, e5⟩ := hval n d hn0 hnk hd0 hd
        have hlt := row_lt_of_lt (D := D) hnk hd hd0
        have hlt4 := row_lt_of_lt (D := 4 * D) (n := n) (k := k) (d := 3 * D + d) hnk
          (by omega) (by omega)
        rw [hhp, hcp, if_neg (by omega), if_neg (by omega)]
        refine ⟨e0, e1, ?_, ?_, ?_, ?_⟩
        · rw [hxf _ (fun e he0 he => by omega)]; exact e2
        · rw [hxf _ (fun e he0 he => by omega)]; exact e3
        · rw [hxf _ (fun e he0 he => by omega)]; exact e4
        · rw [hxf _ (fun e he0 he => by omega)]; exact e5
      · have hnk2 : n = (k : Int) := by push_cast at hn; omega
        subst hnk2
        have hsub : (k : Int) * D + d - k * D = d := by ring
        rw [hhp, hcp, if_pos (by omega), if_pos (by omega), hsub]
        exact ⟨rfl, rfl, hx d hd0 (by omega)⟩
    · have hout : ¬ ((k : Int) * D ≤ j ∧ j < k * D + D.toNat) := by
        intro hr
        exact hj k (j - k * D) (by omega) (by push_cast; omega) (by omega) (by omega) (by ring)
      rw [hhp, hcp, if_neg hout, if_neg hout]
      exact hfr j (fun n d hn0 hn hd0 hd => hj n d hn0 (by push_cast; omega) hd0 hd)
    · rw [hxf j (fun d hd0 hd => hj k d (by omega) (by push_cast; omega) hd0 (by omega))]
      exact hfrx j (fun n d hn0 hn hd0 hd => hj n d hn0 (by push_cast; omega) hd0 hd)

end Backward

/-! ## The kernels at a cell `(n, d)` -/

section Pointwise

variable [Field α]

/-- On a valid row the stored cell value is `f * c_prev + i * g`. -/
theorem LSTMUnit.cOut_valid (exp : α → α) (D : Int) (drop_states : Bool) (C_prev X : Int → α)
    (fb : α) (pC_prev pX d : Int) :
    LSTMUnit.cOut exp D true drop_states C_prev X fb pC_prev pX d =
      sigmoid exp (X (pX + (1 * D + d)) + fb) * C_prev (pC_prev + d)
        + sigmoid exp (X (pX + d)) * host_tanh exp (X (pX + (3 * D + d))) := by
  simp [LSTMUnit.cOut, LSTMUnit.cell]

/-- On an expired row the stored cell value is `0` or the previous cell value. -/
theorem LSTMUnit.cOut_expired (exp : α → α) (D : Int) (drop_states : Bool)
    (C_prev X : Int → α) (fb : α) (pC_prev pX d : Int) :
    LSTMUnit.cOut exp D false drop_states C_prev X fb pC_prev pX d =
      if drop_states then 0 else C_prev (pC_prev + d) := by
  cases drop_states <;> simp [LSTMUnit.cOut, LSTMUnit.cell]

/-- On a valid row the stored hidden value is `o * host_tanh c` for the stored cell value
`c`. -/
theorem LSTMUnit.hOut_valid (exp : α → α) (D : Int) (drop_states : Bool)
    (H_prev C_prev X : Int → α) (fb : α) (pH_prev pC_prev pX d : Int) :
    LSTMUnit.hOut exp D true drop_states H_prev C_prev X fb pH_prev pC_prev pX d =
      sigmoid exp (X (pX + (2 * D + d)))
        * host_tanh exp (LSTMUnit.cOut exp D true drop_states C_prev X fb pC_prev pX d) := by
  simp [LSTMUnit.hOut, LSTMUnit.cOut, LSTMUnit.cell]

/-- On an expired row the stored hidden value is `0` or the previous hidden value. -/
theorem LSTMUnit.hOut_expired (exp : α → α) (D : Int) (drop_states : Bool)
    (H_prev C_prev X : Int → α) (fb : α) (pH_prev pC_prev pX d : Int) :
    LSTMUnit.hOut exp D false drop_states H_prev C_prev X fb pH_prev pC_prev pX d =
      if drop_states then 0 else H_prev (pH_prev + d) := by
  cases drop_states <;> simp [LSTMUnit.hOut, LSTMUnit.cell]

/-- Cell `(n, d)` of the outputs of `LSTMUnit`, for `0 ≤ n < N` and `0 ≤ d < D`. -/
theorem LSTMUnit.forward_at_cell (exp : α → α) (N D t : Int) (H_prev C_prev X : Int → α)
    (seqLengths : Int → Int) (drop_states : Bool) (C0 H0 : Int → α) (fb : α) (n d : Int)
    (hn0 : 0 ≤ n) (hn : n < N) (hd0 : 0 ≤ d) (hd : d < D) :
    (LSTMUnit exp N D t H_prev C_prev X seqLengths drop_states C0 H0 fb).C (n * D + d) =
      LSTMUnit.cOut exp D (decide (t < seqLengths n)) drop_states C_prev X fb
        (n * D) (n * (4 * D)) d ∧
    (LSTMUnit exp N D t H_prev C_prev X seqLengths drop_states C0 H0 fb).H (n * D + d) =
      LSTMUnit.hOut exp D (decide (t < seqLengths n)) drop_states H_prev C_prev X fb
        (n * D) (n * D) (n * (4 * D)) d :=
  (LSTMUnit.forward_outer_spec exp D t H_prev C_prev X seqLengths drop_states C0 H0 fb
    N.toNat).2.2.2.2.2.1 n d hn0 (by omega) hd0 hd

/-- Cell `(n, d)` of the outputs of `LSTMUnitGradient`, for `0 ≤ n < N` and `0 ≤ d < D`. -/
theorem LSTMUnitGradient.backward_at_cell (exp : α → α) (N D t : Int) (C_prev X : Int → α)
    (seqLengths : Int → Int) (C H C_diff H_diff : Int → α) (drop_states : Bool)
    (Hp0 Cp0 X0 : Int → α) (fb : α) (n d : Int)
    (hn0 : 0 ≤ n) (hn : n < N) (hd0 : 0 ≤ d) (hd : d < D) :
    let r := LSTMUnitGradient exp N D t C_prev X seqLengths C H C_diff H_diff drop_states
      Hp0 Cp0 X0 fb
    let v := LSTMUnitGradient.vals exp D (decide (t < seqLengths n)) drop_states
      C_prev X C C_diff H_diff fb (n * D) (n * (4 * D)) (n * D) (n * D) (n * D) d
    r.H_prev_diff (n * D + d) = v.h_prev_diff ∧
    r.C_prev_diff (n * D + d) = v.c_prev_diff ∧
    r.X_diff (n * (4 * D) + d) = v.i_diff ∧
    r.X_diff (n * (4 * D) + 1 * D + d) = v.f_diff ∧
    r.X_diff (n * (4 * D) + 2 * D + d) = v.o_diff ∧
    r.X_diff (n * (4 * D) + 3 * D + d) = v.g_diff := by
  obtain ⟨hp, cp, x, hr, hval, -, -⟩ := LSTMUnitGradient.backward_outer_spec exp D t C_prev X seqLengths
    C C_diff H_diff drop_states Hp0 Cp0 X0 fb N.toNat
  simp only [LSTMUnitGradient, hr]
  exact hval n d hn0 (by omega) hd0 hd

end Pointwise

/-! ## Forward pass: the stored values -/

section ForwardClaims

variable [Field α]

/-- C1. Forward, valid row, cell state: for a row `n < N` with `t < seqLengths[n]` and every
`d < D`, `LSTMUnit` writes
`C[n*D+d] = sigmoid(X[n*4D+D+d] + forget_bias) * C_prev[n*D+d]
  + sigmoid(X[n*4D+d]) * host_tanh(X[n*4D+3D+d])`,
for every `N`, `D`, `t`, `forget_bias` and `drop_states`. -/
theorem LSTMUnit_valid_cell_state (exp : α → α) (N D t : Int) (H_prev C_prev X : Int → α)
    (seqLengths : Int → Int) (drop_states : Bool) (C0 H0 : Int → α) (forget_bias : α)
    (n d : Int) (hn0 : 0 ≤ n) (hn : n < N) (hd0 : 0 ≤ d) (hd : d < D)
    (hvalid : t < seqLengths n) :
    (LSTMUnit exp N D t H_prev C_prev X seqLengths drop_states C0 H0 forget_bias).C
        (n * D + d) =
      sigmoid exp (X (n * (4 * D) + D + d) + forget_bias) * C_prev (n * D + d)
        + sigmoid exp (X (n * (4 * D) + d)) * host_tanh exp (X (n * (4 * D) + 3 * D + d)) := by
  rw [(LSTMUnit.forward_at_cell exp N D t H_prev C_prev X seqLengths drop_states C0 H0 forget_bias
    n d hn0 hn hd0 hd).1]
  simp only [hvalid, decide_True, LSTMUnit.cOut_valid, one_mul, add_assoc]

/-- C1, the example of the specification: `N = 1`, `D = 1`, `t = 0`, `seqLengths = [5]`,
`C_prev = [0]`, all gate pre-activations `0`, `forget_bias = 0`, over the reals: the gate
activations are `i = f = o = 1/2` and `g = 0`, and the kernel writes `C = [0]`. -/
theorem LSTMUnit_valid_cell_state_witness :
    sigmoid Real.exp 0 = 1 / 2 ∧ host_tanh Real.exp 0 = 0 ∧
    (LSTMUnit Real.exp 1 1 0 (fun _ => 0) (fun _ => 0) (fun _ => 0) (fun _ => 5) false
      (fun _ => 7) (fun _ => 7) 0).C 0 = 0 := by
  have h := LSTMUnit_valid_cell_state Real.exp 1 1 0 (fun _ => 0) (fun _ => 0) (fun _ => 0)
    (fun _ => 5) false (fun _ => 7) (fun _ => 7) 0 0 0 (by decide) (by decide) (by decide)
    (by decide) (by decide)
  have hs : sigmoid Real.exp 0 = 1 / 2 := by
    simp only [sigmoid, neg_zero, Real.exp_zero]; norm_num
  have ht : host_tanh Real.exp 0 = 0 := by
    simp only [host_tanh, mul_zero, hs]; norm_num
  refine ⟨hs, ht, ?_⟩
  simpa [hs, ht] using h

/-- C2. Forward, valid row, hidden state: for a row `n < N` with `t < seqLengths[n]` and
every `d < D`, `LSTMUnit` writes `H[n*D+d] = sigmoid(X[n*4D+2D+d]) * host_tanh(C[n*D+d])`,
where `C[n*D+d]` is the cell value written by the same call. -/
theorem LSTMUnit_valid_hidden_state (exp : α → α) (N D t : Int) (H_prev C_prev X : Int → α)
    (seqLengths : Int → Int) (drop_states : Bool) (C0 H0 : Int → α) (forget_bias : α)
    (n d : Int) (hn0 : 0 ≤ n) (hn : n < N) (hd0 : 0 ≤ d) (hd : d < D)
    (hvalid : t < seqLengths n) :
    (LSTMUnit exp N D t H_prev C_prev X seqLengths drop_states C0 H0 forget_bias).H
        (n * D + d) =
      sigmoid exp (X (n * (4 * D) + 2 * D + d)) * host_tanh exp
        ((LSTMUnit exp N D t H_prev C_prev X seqLengths drop_states C0 H0 forget_bias).C
          (n * D + d)) := by
  obtain ⟨hC, hH⟩ := LSTMUnit.forward_at_cell exp N D t H_prev C_prev X seqLengths drop_states C0 H0
    forget_bias n d hn0 hn hd0 hd
  rw [hC, hH]
  simp only [hvalid, decide_True, LSTMUnit.hOut_valid, add_assoc]

/-- C2 at `N = 1`, `D = 1`, `t = 0`, `seqLengths = [5]`, all inputs `0`, over the reals:
`H = [1/2 * host_tanh 0] = [0]`. -/
theorem LSTMUnit_valid_hidden_state_witness :
    (LSTMUnit Real.exp 1 1 0 (fun _ => 0) (fun _ => 0) (fun _ => 0) (fun _ => 5) false
      (fun _ => 7) (fun _ => 7) 0).H 0 = 0 := by
  have h := LSTMUnit_valid_hidden_state Real.exp 1 1 0 (fun _ => 0) (fun _ => 0) (fun _ => 0)
    (fun _ => 5) false (fun _ => 7) (fun _ => 7) 0 0 0 (by decide) (by decide) (by decide)
    (by decide) (by decide)
  have hc := LSTMUnit.forward_at_cell Real.exp 1 1 0 (fun _ => 0) (fun _ => 0) (fun _ => 0)
    (fun _ => 5) false (fun _ => 7) (fun _ => 7) 0 0 0 (by decide) (by decide) (by decide)
    (by decide)
  have hs : sigmoid Real.exp 0 = 1 / 2 := by
    simp only [sigmoid, neg_zero, Real.exp_zero]; norm_num
  have ht : host_tanh Real.exp 0 = 0 := by
    simp only [host_tanh, mul_zero, hs]; norm_num
  have hc0 : (LSTMUnit Real.exp 1 1 0 (fun _ => 0) (fun _ => 0) (fun _ => 0) (fun _ => 5) false
      (fun _ => 7) (fun _ => 7) 0).C 0 = 0 := by
    simpa [LSTMUnit.cOut_valid, hs, ht] using hc.1
  simpa [hc0, hs, ht] using h

/-- C3. Forward, expired row, carry policy: for a row `n < N` with `t ≥ seqLengths[n]` and
`drop_states = false`, `LSTMUnit` writes `H[n*D+d] = H_prev[n*D+d]` and
`C[n*D+d] = C_prev[n*D+d]` for every `d < D`. -/
theorem LSTMUnit_expired_carry (exp : α → α) (N D t : Int) (H_prev C_prev X : Int → α)
    (seqLengths : Int → Int) (C0 H0 : Int → α) (forget_bias : α)
    (n d : Int) (hn0 : 0 ≤ n) (hn : n < N) (hd0 : 0 ≤ d) (hd : d < D)
    (hexpired : seqLengths n ≤ t) :
    (LSTMUnit exp N D t H_prev C_prev X seqLengths false C0 H0 forget_bias).H (n * D + d) =
      H_prev (n * D + d) ∧
    (LSTMUnit exp N D t H_prev C_prev X seqLengths false C0 H0 forget_bias).C (n * D + d) =
      C_prev (n * D + d) := by
  obtain ⟨hC, hH⟩ := LSTMUnit.forward_at_cell exp N D t H_prev C_prev X seqLengths false C0 H0
    forget_bias n d hn0 hn hd0 hd
  have hv : decide (t < seqLengths n) = false := decide_eq_false (by omega)
  rw [hC, hH, hv, LSTMUnit.hOut_expired, LSTMUnit.cOut_expired]
  exact ⟨rfl, rfl⟩

/-- C3, the example of the specification: `N = 1`, `D = 2`, `t = 3`, `seqLengths = [2]`,
`H_prev = [1, 2]`, `C_prev = [3, 4]`, arbitrary gates: `H = [1, 2]` and `C = [3, 4]`. -/
theorem LSTMUnit_expired_carry_witness :
    (LSTMUnit (fun _ => (1 : ℚ)) 1 2 3 (fun j => if j = 0 then 1 else 2)
      (fun j => if j = 0 then 3 else 4) (fun j => 10 + j) (fun _ => 2) false (fun _ => 9)
      (fun _ => 9) 0).H 0 = 1 ∧
    (LSTMUnit (fun _ => (1 : ℚ)) 1 2 3 (fun j => if j = 0 then 1 else 2)
      (fun j => if j = 0 then 3 else 4) (fun j => 10 + j) (fun _ => 2) false (fun _ => 9)
      (fun _ => 9) 0).C 0 = 3 := by
  have h0 := LSTMUnit_expired_carry (fun _ => (1 : ℚ)) 1 2 3 (fun j => if j = 0 then 1 else 2)
    (fun j => if j = 0 then 3 else 4) (fun j => 10 + j) (fun _ => 2) (fun _ => 9) (fun _ => 9)
    0 0 0 (by decide) (by decide) (by decide) (by decide) (by decide)
  simp only [zero_mul, zero_add, if_true] at h0
  exact h0

/-- C3, the same example at the second column: `H[1] = 2` and `C[1] = 4`. -/
theorem LSTMUnit_example_carry_col1 :
    (LSTMUnit (fun _ => (1 : ℚ)) 1 2 3 (fun j => if j = 0 then 1 else 2)
      (fun j => if j = 0 then 3 else 4) (fun j => 10 + j) (fun _ => 2) false (fun _ => 9)
      (fun _ => 9) 0).H 1 = 2 ∧
    (LSTMUnit (fun _ => (1 : ℚ)) 1 2 3 (fun j => if j = 0 then 1 else 2)
      (fun j => if j = 0 then 3 else 4) (fun j => 10 + j) (fun _ => 2) false (fun _ => 9)
      (fun _ => 9) 0).C 1 = 4 := by
  have h1 := (LSTMUnit.forward_at_cell (fun _ => (1 : ℚ)) 1 2 3 (fun j => if j = 0 then 1 else 2)
    (fun j => if j = 0 then 3 else 4) (fun j => 10 + j) (fun _ => 2) false (fun _ => 9)
    (fun _ => 9) 0 0 1 (by decide) (by decide) (by decide) (by decide))
  simp only [zero_mul, zero_add, LSTMUnit.cOut_expired, LSTMUnit.hOut_expired,
    show decide ((3 : Int) < 2) = false from rfl] at h1
  exact ⟨by simpa using h1.2, by simpa using h1.1⟩

/-- C4. Forward, expired row, drop policy: for a row `n < N` with `t ≥ seqLengths[n]` and
`drop_states = true`, `LSTMUnit` writes `H[n*D+d] = 0` and `C[n*D+d] = 0` for every `d < D`,
whatever `H_prev`, `C_prev` and the gates hold. -/
theorem LSTMUnit_expired_drop (exp : α → α) (N D t : Int) (H_prev C_prev X : Int → α)
    (seqLengths : Int → Int) (C0 H0 : Int → α) (forget_bias : α)
    (n d : Int) (hn0 : 0 ≤ n) (hn : n < N) (hd0 : 0 ≤ d) (hd : d < D)
    (hexpired : seqLengths n ≤ t) :
    (LSTMUnit exp N D t H_prev C_prev X seqLengths true C0 H0 forget_bias).H (n * D + d) = 0 ∧
    (LSTMUnit exp N D t H_prev C_prev X seqLengths true C0 H0 forget_bias).C (n * D + d) = 0 := by
  obtain ⟨hC, hH⟩ := LSTMUnit.forward_at_cell exp N D t H_prev C_prev X seqLengths true C0 H0
    forget_bias n d hn0 hn hd0 hd
  have hv : decide (t < seqLengths n) = false := decide_eq_false (by omega)
  rw [hC, hH, hv, LSTMUnit.hOut_expired, LSTMUnit.cOut_expired]
  exact ⟨rfl, rfl⟩

/-- C4, the example of the specification: `N = 1`, `D = 2`, `t = 3`, `seqLengths = [2]`,
`H_prev = [1, 2]`, `C_prev = [3, 4]`, `drop_states = true`: `H = [0, 0]` and `C = [0, 0]`. -/
theorem LSTMUnit_expired_drop_witness :
    (LSTMUnit (fun _ => (1 : ℚ)) 1 2 3 (fun j => if j = 0 then 1 else 2)
      (fun j => if j = 0 then 3 else 4) (fun j => 10 + j) (fun _ => 2) true (fun _ => 9)
      (fun _ => 9) 0).H 1 = 0 ∧
    (LSTMUnit (fun _ => (1 : ℚ)) 1 2 3 (fun j => if j = 0 then 1 else 2)
      (fun j => if j = 0 then 3 else 4) (fun j => 10 + j) (fun _ => 2) true (fun _ => 9)
      (fun _ => 9) 0).C 1 = 0 := by
  have h1 := LSTMUnit_expired_drop (fun _ => (1 : ℚ)) 1 2 3 (fun j => if j = 0 then 1 else 2)
    (fun j => if j = 0 then 3 else 4) (fun j => 10 + j) (fun _ => 2) (fun _ => 9) (fun _ => 9)
    0 0 1 (by decide) (by decide) (by decide) (by decide) (by decide)
  simp only [zero_mul, zero_add] at h1
  exact h1

/-- C9. The forward output of a valid row does not depend on `H_prev`: two calls of
`LSTMUnit` that agree on `N`, `D`, `t`, `C_prev`, the gates, `seqLengths`, `drop_states` and
`forget_bias` write the same `H[n*D+d]` and `C[n*D+d]` for every row `n` with
`t < seqLengths[n]` and every `d < D`, whatever the two `H_prev` buffers hold. -/
theorem LSTMUnit_valid_independent_of_H_prev (exp : α → α) (N D t : Int)
    (H_prev H_prev2 C_prev X : Int → α) (seqLengths : Int → Int) (drop_states : Bool)
    (C0 H0 : Int → α) (forget_bias : α)
    (n d : Int) (hn0 : 0 ≤ n) (hn : n < N) (hd0 : 0 ≤ d) (hd : d < D)
    (hvalid : t < seqLengths n) :
    (LSTMUnit exp N D t H_prev C_prev X seqLengths drop_states C0 H0 forget_bias).H
        (n * D + d) =
      (LSTMUnit exp N D t H_prev2 C_prev X seqLengths drop_states C0 H0 forget_bias).H
        (n * D + d) ∧
    (LSTMUnit exp N D t H_prev C_prev X seqLengths drop_states C0 H0 forget_bias).C
        (n * D + d) =
      (LSTMUnit exp N D t H_prev2 C_prev X seqLengths drop_states C0 H0 forget_bias).C
        (n * D + d) := by
  obtain ⟨hC, hH⟩ := LSTMUnit.forward_at_cell exp N D t H_prev C_prev X seqLengths drop_states C0 H0
    forget_bias n d hn0 hn hd0 hd
  obtain ⟨hC2, hH2⟩ := LSTMUnit.forward_at_cell exp N D t H_prev2 C_prev X seqLengths drop_states C0
    H0 forget_bias n d hn0 hn hd0 hd
  rw [hC, hH, hC2, hH2]
  simp only [hvalid, decide_True, LSTMUnit.hOut_valid, and_self]

/-- C9 at `N = 1`, `D = 1`, `t = 0`, `seqLengths = [1]`, over the reals: the calls with
`H_prev = [5]` and with `H_prev = [-3]` write the same hidden value. -/
theorem LSTMUnit_valid_independent_of_H_prev_witness :
    (LSTMUnit Real.exp 1 1 0 (fun _ => 5) (fun _ => 2) (fun j => j) (fun _ => 1) false
        (fun _ => 0) (fun _ => 0) 1).H 0 =
      (LSTMUnit Real.exp 1 1 0 (fun _ => -3) (fun _ => 2) (fun j => j) (fun _ => 1) false
        (fun _ => 0) (fun _ => 0) 1).H 0 := by
  have h := LSTMUnit_valid_independent_of_H_prev Real.exp 1 1 0 (fun _ => 5)
    (fun _ => -3) (fun _ => 2) (fun j => j) (fun _ => 1) false (fun _ => 0) (fun _ => 0) 1 0 0
    (by decide) (by decide) (by decide) (by decide) (by decide)
  simp only [zero_mul, zero_add] at h
  exact h.1

end ForwardClaims

/-! ## Backward pass: the stored values -/

section BackwardClaims

variable [Field α]

/-- C8. `H_prev_grad` zero property: for every row `n` with `t < seqLengths[n]` and every
`d < D`, `LSTMUnitGradient` writes `H_prev_diff[n*D+d] = 0`, for every value of `H_diff`,
`C_diff`, the gates, `C_prev`, `C`, `forget_bias` and `drop_states`. -/
theorem LSTMUnitGradient_valid_H_prev_diff_zero (exp : α → α) (N D t : Int)
    (C_prev X : Int → α) (seqLengths : Int → Int) (C H C_diff H_diff : Int → α)
    (drop_states : Bool) (Hp0 Cp0 X0 : Int → α) (forget_bias : α)
    (n d : Int) (hn0 : 0 ≤ n) (hn : n < N) (hd0 : 0 ≤ d) (hd : d < D)
    (hvalid : t < seqLengths n) :
    (LSTMUnitGradient exp N D t C_prev X seqLengths C H C_diff H_diff drop_states Hp0 Cp0 X0
      forget_bias).H_prev_diff (n * D + d) = 0 := by
  rw [(LSTMUnitGradient.backward_at_cell exp N D t C_prev X seqLengths C H C_diff H_diff drop_states
    Hp0 Cp0 X0 forget_bias n d hn0 hn hd0 hd).1]
  simp [LSTMUnitGradient.vals, hvalid]

/-- C8 at `N = 1`, `D = 1`, `t = 0`, `seqLengths = [1]`, over the reals, with upstream
gradients `H_diff = [4]`, `C_diff = [6]` and `H_prev_diff` holding `9` before the call:
`H_prev_diff[0] = 0` afterwards. -/
theorem LSTMUnitGradient_valid_H_prev_diff_zero_witness :
    (LSTMUnitGradient Real.exp 1 1 0 (fun _ => 2) (fun j => j) (fun _ => 1) (fun _ => 3)
      (fun _ => 0) (fun _ => 6) (fun _ => 4) false (fun _ => 9) (fun _ => 9) (fun _ => 9)
      1).H_prev_diff 0 = 0 := by
  have h := LSTMUnitGradient_valid_H_prev_diff_zero Real.exp 1 1 0 (fun _ => 2) (fun j => j)
    (fun _ => 1) (fun _ => 3) (fun _ => 0) (fun _ => 6) (fun _ => 4) false (fun _ => 9)
    (fun _ => 9) (fun _ => 9) 1 0 0 (by decide) (by decide) (by decide) (by decide) (by decide)
  simp only [zero_mul, zero_add] at h
  exact h

/-- C10. Backward, valid row, previous-cell gradient: for every row `n` with
`t < seqLengths[n]` and every `d < D`, `LSTMUnitGradient` writes
`C_prev_diff[n*D+d] = c_term * f`, where `f = sigmoid(X[n*4D+D+d] + forget_bias)`,
`o = sigmoid(X[n*4D+2D+d])`, `tanh_c = host_tanh(C[n*D+d])` for the buffer `C` passed in, and
`c_term = C_diff[n*D+d] + H_diff[n*D+d] * o * (1 - tanh_c^2)`. -/
theorem LSTMUnitGradient_valid_C_prev_diff (exp : α → α) (N D t : Int)
    (C_prev X : Int → α) (seqLengths : Int → Int) (C H C_diff H_diff : Int → α)
    (drop_states : Bool) (Hp0 Cp0 X0 : Int → α) (forget_bias : α)
    (n d : Int) (hn0 : 0 ≤ n) (hn : n < N) (hd0 : 0 ≤ d) (hd : d < D)
    (hvalid : t < seqLengths n) :
    (LSTMUnitGradient exp N D t C_prev X seqLengths C H C_diff H_diff drop_states Hp0 Cp0 X0
      forget_bias).C_prev_diff (n * D + d) =
      (C_diff (n * D + d) + H_diff (n * D + d) * sigmoid exp (X (n * (4 * D) + 2 * D + d))
          * (1 - host_tanh exp (C (n * D + d)) ^ 2))
        * sigmoid exp (X (n * (4 * D) + D + d) + forget_bias) := by
  rw [(LSTMUnitGradient.backward_at_cell exp N D t C_prev X seqLengths C H C_diff H_diff drop_states
    Hp0 Cp0 X0 forget_bias n d hn0 hn hd0 hd).2.1]
  simp only [LSTMUnitGradient.vals, hvalid, decide_True, Bool.not_true, Bool.false_eq_true,
    if_false, one_mul, add_assoc, pow_two]

/-- C10 at `N = 1`, `D = 1`, `t = 0`, `seqLengths = [1]`, all gates and `C` equal to `0`,
`C_diff = [6]`, `H_diff = [4]`, `forget_bias = 0`, over the reals: `f = o = 1/2`,
`tanh_c = 0`, `c_term = 6 + 4 * 1/2 = 8`, and `C_prev_diff[0] = 8 * 1/2 = 4`. -/
theorem LSTMUnitGradient_valid_C_prev_diff_witness :
    (LSTMUnitGradient Real.exp 1 1 0 (fun _ => 2) (fun _ => 0) (fun _ => 1) (fun _ => 0)
      (fun _ => 0) (fun _ => 6) (fun _ => 4) false (fun _ => 9) (fun _ => 9) (fun _ => 9)
      0).C_prev_diff 0 = 4 := by
  have h := LSTMUnitGradient_valid_C_prev_diff Real.exp 1 1 0 (fun _ => 2) (fun _ => 0)
    (fun _ => 1) (fun _ => 0) (fun _ => 0) (fun _ => 6) (fun _ => 4) false (fun _ => 9)
    (fun _ => 9) (fun _ => 9) 0 0 0 (by decide) (by decide) (by decide) (by decide) (by decide)
  have hs : sigmoid Real.exp 0 = 1 / 2 := by
    simp only [sigmoid, neg_zero, Real.exp_zero]; norm_num
  have ht : host_tanh Real.exp 0 = 0 := by
    simp only [host_tanh, mul_zero, hs]; norm_num
  simp only [zero_mul, zero_add, add_zero, hs, ht] at h
  rw [h]; norm_num

end BackwardClaims

/-! ## Differentiating the forward pass -/

section Calculus

/-- The derivative of `sigmoid` over the reals is `s * (1 - s)`. -/
theorem sigmoid_hasDerivAt (x : ℝ) :
    HasDerivAt (sigmoid Real.exp) (sigmoid Real.exp x * (1 - sigmoid Real.exp x)) x := by
  have hpos : (1 : ℝ) + Real.exp (-x) ≠ 0 := by positivity
  have h1 : HasDerivAt (fun y : ℝ => 1 + Real.exp (-y)) (Real.exp (-x) * -1) x :=
    ((hasDerivAt_neg x).exp).const_add 1
  have h2 := h1.inv hpos
  have hfun : sigmoid Real.exp = fun y : ℝ => (1 + Real.exp (-y))⁻¹ := by
    funext y; simp [sigmoid]
  rw [hfun]
  convert h2 using 1
  field_simp
  ring

/-- The derivative of `host_tanh` over the reals is `1 - host_tanh ^ 2`. -/
theorem host_tanh_hasDerivAt (x : ℝ) :
    HasDerivAt (host_tanh Real.exp) (1 - host_tanh Real.exp x * host_tanh Real.exp x) x := by
  have h1 : HasDerivAt (fun y : ℝ => 2 * y) (2 * 1) x := (hasDerivAt_id x).const_mul 2
  have h2 := ((sigmoid_hasDerivAt (2 * x)).comp x h1).const_mul 2
  have h3 := h2.sub_const 1
  have hfun : host_tanh Real.exp = fun y : ℝ => 2 * (sigmoid Real.exp ∘ fun y => 2 * y) y - 1 := by
    funext y; simp [host_tanh]
  rw [hfun]
  convert h3 using 1
  simp only [Function.comp_apply]
  ring

/-- One coordinate of a buffer as a function of the value stored at `idx`. -/
theorem update_hasDerivAt (X : Int → ℝ) (idx j : Int) :
    HasDerivAt (fun x => Function.update X idx x j) (if j = idx then 1 else 0) (X idx) := by
  by_cases h : j = idx
  · subst h
    simp only [Function.update_same, if_true]
    exact hasDerivAt_id _
  · simp only [Function.update_noteq h, if_neg h]
    exact hasDerivAt_const _ _

/-- A double sum in which only the summand `(n0, d0)` varies has the derivative of that
summand. -/
theorem hasDerivAt_sum_single (N D : ℕ) (F : ℕ → ℕ → ℝ → ℝ) (n0 d0 : ℕ) (hn : n0 < N)
    (hd : d0 < D) (x0 v : ℝ)
    (hconst : ∀ n d, n < N → d < D → (n ≠ n0 ∨ d ≠ d0) → ∀ x, F n d x = F n d x0)
    (hder : HasDerivAt (F n0 d0) v x0) :
    HasDerivAt (fun x => ∑ n ∈ Finset.range N, ∑ d ∈ Finset.range D, F n d x) v x0 := by
  have h1 : ∀ n ∈ Finset.range N, ∀ d ∈ Finset.range D,
      HasDerivAt (F n d) (if n = n0 ∧ d = d0 then v else 0) x0 := by
    intro n hn' d hd'
    by_cases h : n = n0 ∧ d = d0
    · obtain ⟨rfl, rfl⟩ := h
      simpa using hder
    · rw [if_neg h]
      have hc : F n d = fun _ => F n d x0 :=
        funext (hconst n d (Finset.mem_range.mp hn') (Finset.mem_range.mp hd') (by tauto))
      rw [hc]
      exact hasDerivAt_const _ _
  have h2 := HasDerivAt.sum (fun n hn' => HasDerivAt.sum (fun d hd' => h1 n hn' d hd'))
  convert h2 using 1
  rw [Finset.sum_eq_single n0, Finset.sum_eq_single d0]
  · simp
  · intro d _ hne
    simp [hne]
  · intro h
    exact absurd (Finset.mem_range.mpr hd) h
  · intro n _ hne
    simp [hne]
  · intro h
    exact absurd (Finset.mem_range.mpr hn) h

/-- Derivative of the loss summand of one valid cell,
`cg * c + hg * (o * host_tanh c)` with `c = f * c_prev + i * g`, when the four gate
pre-activations and the previous cell value are differentiable functions of a parameter. -/
theorem cell_loss_hasDerivAt (cg hg fb : ℝ) (ai af ao ag acp : ℝ → ℝ)
    (di df dout dg dcp x0 : ℝ)
    (hi : HasDerivAt ai di x0) (hf : HasDerivAt af df x0) (ho : HasDerivAt ao dout x0)
    (hg' : HasDerivAt ag dg x0) (hcp : HasDerivAt acp dcp x0) :
    HasDerivAt
      (fun x => cg * (sigmoid Real.exp (af x + fb) * acp x
            + sigmoid Real.exp (ai x) * host_tanh Real.exp (ag x))
        + hg * (sigmoid Real.exp (ao x) * host_tanh Real.exp
            (sigmoid Real.exp (af x + fb) * acp x
              + sigmoid Real.exp (ai x) * host_tanh Real.exp (ag x))))
      (cg * (sigmoid Real.exp (af x0 + fb) * (1 - sigmoid Real.exp (af x0 + fb)) * df * acp x0
            + sigmoid Real.exp (af x0 + fb) * dcp
            + sigmoid Real.exp (ai x0) * (1 - sigmoid Real.exp (ai x0)) * di
              * host_tanh Real.exp (ag x0)
            + sigmoid Real.exp (ai x0)
              * ((1 - host_tanh Real.exp (ag x0) * host_tanh Real.exp (ag x0)) * dg))
        + hg * (sigmoid Real.exp (ao x0) * (1 - sigmoid Real.exp (ao x0)) * dout
              * host_tanh Real.exp (sigmoid Real.exp (af x0 + fb) * acp x0
                + sigmoid Real.exp (ai x0) * host_tanh Real.exp (ag x0))
            + sigmoid Real.exp (ao x0)
              * ((1 - host_tanh Real.exp (sigmoid Real.exp (af x0 + fb) * acp x0
                    + sigmoid Real.exp (ai x0) * host_tanh Real.exp (ag x0))
                  * host_tanh Real.exp (sigmoid Real.exp (af x0 + fb) * acp x0
                    + sigmoid Real.exp (ai x0) * host_tanh Real.exp (ag x0)))
                * (sigmoid Real.exp (af x0 + fb) * (1 - sigmoid Real.exp (af x0 + fb)) * df
                    * acp x0
                  + sigmoid Real.exp (af x0 + fb) * dcp
                  + sigmoid Real.exp (ai x0) * (1 - sigmoid Real.exp (ai x0)) * di
                    * host_tanh Real.exp (ag x0)
                  + sigmoid Real.exp (ai x0)
                    * ((1 - host_tanh Real.exp (ag x0) * host_tanh Real.exp (ag x0)) * dg)))))
      x0 := by
  have hI : HasDerivAt (fun x => sigmoid Real.exp (ai x)) _ x0 :=
    (sigmoid_hasDerivAt (ai x0)).comp x0 hi
  have hF : HasDerivAt (fun x => sigmoid Real.exp (af x + fb)) _ x0 :=
    (sigmoid_hasDerivAt (af x0 + fb)).comp x0 (hf.add_const fb)
  have hO : HasDerivAt (fun x => sigmoid Real.exp (ao x)) _ x0 :=
    (sigmoid_hasDerivAt (ao x0)).comp x0 ho
  have hG : HasDerivAt (fun x => host_tanh Real.exp (ag x)) _ x0 :=
    (host_tanh_hasDerivAt (ag x0)).comp x0 hg'
  have hc : HasDerivAt (fun x => sigmoid Real.exp (af x + fb) * acp x
      + sigmoid Real.exp (ai x) * host_tanh Real.exp (ag x)) _ x0 :=
    (hF.mul hcp).add (hI.mul hG)
  have hT : HasDerivAt (fun x => host_tanh Real.exp (sigmoid Real.exp (af x + fb) * acp x
      + sigmoid Real.exp (ai x) * host_tanh Real.exp (ag x))) _ x0 :=
    (host_tanh_hasDerivAt (sigmoid Real.exp (af x0 + fb) * acp x0
      + sigmoid Real.exp (ai x0) * host_tanh Real.exp (ag x0))).comp x0 hc
  have hfin := (hc.const_mul cg).add ((hO.mul hT).const_mul hg)
  convert hfin using 1
  ring

/-- The summand of one expired cell is linear in the carried state. -/
theorem expired_loss_hasDerivAt (cg hg : ℝ) (drop_states : Bool) (ah acp : ℝ → ℝ)
    (dh dcp x0 : ℝ) (hh : HasDerivAt ah dh x0) (hcp : HasDerivAt acp dcp x0) :
    HasDerivAt
      (fun x => cg * (if drop_states then 0 else acp x) + hg * (if drop_states then 0 else ah x))
      (cg * (if drop_states then 0 else dcp) + hg * (if drop_states then 0 else dh)) x0 := by
  cases drop_states
  · simpa using (hcp.const_mul cg).add (hh.const_mul hg)
  · simpa using hasDerivAt_const x0 (0 : ℝ)

/-- The loss summand of cell `(n, d)` reads its inputs only at the six addresses of that
cell. -/
theorem LSTMUnit.cellLoss_congr {α : Type} [Field α] (exp : α → α) (D t : Int)
    (seqLengths : Int → Int) (drop_states : Bool)
    (C_grad H_grad H_prev C_prev X H_prev2 C_prev2 X2 : Int → α) (fb : α) (n d : Int)
    (hH : H_prev (n * D + d) = H_prev2 (n * D + d))
    (hC : C_prev (n * D + d) = C_prev2 (n * D + d))
    (h0 : X (n * (4 * D) + d) = X2 (n * (4 * D) + d))
    (h1 : X (n * (4 * D) + (1 * D + d)) = X2 (n * (4 * D) + (1 * D + d)))
    (h2 : X (n * (4 * D) + (2 * D + d)) = X2 (n * (4 * D) + (2 * D + d)))
    (h3 : X (n * (4 * D) + (3 * D + d)) = X2 (n * (4 * D) + (3 * D + d))) :
    LSTMUnit.cellLoss exp D t seqLengths drop_states C_grad H_grad H_prev C_prev X fb n d =
      LSTMUnit.cellLoss exp D t seqLengths drop_states C_grad H_grad H_prev2 C_prev2 X2 fb
        n d := by
  unfold LSTMUnit.cellLoss
  cases decide (t < seqLengths n)
  · simp only [LSTMUnit.cOut_expired, LSTMUnit.hOut_expired, hH, hC]
  · simp only [LSTMUnit.cOut_valid, LSTMUnit.hOut_valid, hC, h0, h1, h2, h3]

/-- The loss of the outputs of `LSTMUnit` is the sum of the per-cell summands. -/
theorem LSTMUnit.linearLoss_eq {α : Type} [Field α] (exp : α → α) (N D t : Int)
    (H_prev C_prev X : Int → α) (seqLengths : Int → Int) (drop_states : Bool)
    (C0 H0 : Int → α) (fb : α) (C_grad H_grad : Int → α) :
    linearLoss N D C_grad H_grad
        (LSTMUnit exp N D t H_prev C_prev X seqLengths drop_states C0 H0 fb).C
        (LSTMUnit exp N D t H_prev C_prev X seqLengths drop_states C0 H0 fb).H =
      ∑ n ∈ Finset.range N.toNat, ∑ d ∈ Finset.range D.toNat,
        LSTMUnit.cellLoss exp D t seqLengths drop_states C_grad H_grad H_prev C_prev X fb
          (n : Int) (d : Int) := by
  unfold linearLoss LSTMUnit.cellLoss
  refine Finset.sum_congr rfl (fun n hn => Finset.sum_congr rfl (fun d hd => ?_))
  have hn' := Finset.mem_range.mp hn
  have hd' := Finset.mem_range.mp hd
  obtain ⟨hC, hH⟩ := LSTMUnit.forward_at_cell exp N D t H_prev C_prev X seqLengths drop_states
    C0 H0 fb (n : Int) (d : Int) (by omega) (by omega) (by omega) (by omega)
  rw [hC, hH]

/-- When the inputs of `LSTMUnit` depend on a real parameter `x` in such a way that only cell
`(n, d)` reads anything that varies, the loss of the outputs has the derivative of the
summand of that cell. -/
theorem LSTMUnit.loss_hasDerivAt_of_cell (N D t : Int) (Hf Cf Xf : ℝ → Int → ℝ)
    (seqLengths : Int → Int) (drop_states : Bool) (C0 H0 : Int → ℝ) (fb : ℝ)
    (C_grad H_grad : Int → ℝ) (n d : Int) (hn0 : 0 ≤ n) (hn : n < N) (hd0 : 0 ≤ d) (hd : d < D)
    (x0 v : ℝ)
    (hconst : ∀ m e : Int, 0 ≤ m → m < N → 0 ≤ e → e < D → (m ≠ n ∨ e ≠ d) → ∀ x,
      Hf x (m * D + e) = Hf x0 (m * D + e) ∧ Cf x (m * D + e) = Cf x0 (m * D + e) ∧
      Xf x (m * (4 * D) + e) = Xf x0 (m * (4 * D) + e) ∧
      Xf x (m * (4 * D) + (1 * D + e)) = Xf x0 (m * (4 * D) + (1 * D + e)) ∧
      Xf x (m * (4 * D) + (2 * D + e)) = Xf x0 (m * (4 * D) + (2 * D + e)) ∧
      Xf x (m * (4 * D) + (3 * D + e)) = Xf x0 (m * (4 * D) + (3 * D + e)))
    (hder : HasDerivAt (fun x => LSTMUnit.cellLoss Real.exp D t seqLengths drop_states C_grad
      H_grad (Hf x) (Cf x) (Xf x) fb n d) v x0) :
    HasDerivAt (fun x => linearLoss N D C_grad H_grad
      (LSTMUnit Real.exp N D t (Hf x) (Cf x) (Xf x) seqLengths drop_states C0 H0 fb).C
      (LSTMUnit Real.exp N D t (Hf x) (Cf x) (Xf x) seqLengths drop_states C0 H0 fb).H) v x0 := by
  simp only [LSTMUnit.linearLoss_eq]
  have hnn : ((n.toNat : Nat) : Int) = n := Int.toNat_of_nonneg hn0
  have hdd : ((d.toNat : Nat) : Int) = d := Int.toNat_of_nonneg hd0
  refine hasDerivAt_sum_single N.toNat D.toNat
    (fun m e x => LSTMUnit.cellLoss Real.exp D t seqLengths drop_states C_grad H_grad
      (Hf x) (Cf x) (Xf x) fb (m : Int) (e : Int))
    n.toNat d.toNat (by omega) (by omega) x0 v (fun m e hm he hne x => ?_) ?_
  · obtain ⟨a1, a2, a3, a4, a5, a6⟩ := hconst (m : Int) (e : Int) (by omega) (by omega)
      (by omega) (by omega) (by omega) x
    exact LSTMUnit.cellLoss_congr Real.exp D t seqLengths drop_states C_grad H_grad _ _ _ _ _ _
      fb _ _ a1 a2 a3 a4 a5 a6
  · simp only [hnn, hdd]
    exact hder

end Calculus

/-! ## Backward pass: the gradient of the forward pass -/

section GradientClaims

/-- C5. Backward is the true gradient with respect to the gates on valid rows: for a row `n`
with `t < seqLengths[n]`, a column `d < D` and a gate block `k ∈ {0, 1, 2, 3}`, the loss
`L = ∑ (C_grad * C + H_grad * H)` of the outputs of `LSTMUnit`, as a function of the
pre-activation `X[n*4D + k*D + d]` with every other input fixed, is differentiable at the
given value, and its derivative is the entry `X_diff[n*4D + k*D + d]` that `LSTMUnitGradient`
computes from the forward output `C`. -/
theorem LSTMUnitGradient_is_gate_gradient (N D t : Int) (H_prev C_prev X : Int → ℝ)
    (seqLengths : Int → Int) (drop_states : Bool) (C0 H0 H : Int → ℝ)
    (C_grad H_grad Hp0 Cp0 X0 : Int → ℝ) (forget_bias : ℝ) (n d k : Int)
    (hn0 : 0 ≤ n) (hn : n < N) (hd0 : 0 ≤ d) (hd : d < D) (hk0 : 0 ≤ k) (hk : k < 4)
    (hvalid : t < seqLengths n) :
    HasDerivAt
      (fun x => linearLoss N D C_grad H_grad
        (LSTMUnit Real.exp N D t H_prev C_prev (Function.update X (n * (4 * D) + k * D + d) x)
          seqLengths drop_states C0 H0 forget_bias).C
        (LSTMUnit Real.exp N D t H_prev C_prev (Function.update X (n * (4 * D) + k * D + d) x)
          seqLengths drop_states C0 H0 forget_bias).H)
      ((LSTMUnitGradient Real.exp N D t C_prev X seqLengths
        (LSTMUnit Real.exp N D t H_prev C_prev X seqLengths drop_states C0 H0 forget_bias).C H
        C_grad H_grad drop_states Hp0 Cp0 X0 forget_bias).X_diff (n * (4 * D) + k * D + d))
      (X (n * (4 * D) + k * D + d)) := by
  have hne : ∀ (m e b : Int), 0 ≤ m → 0 ≤ e → e < D → 0 ≤ b → b < 4 →
      (m ≠ n ∨ e ≠ d) → m * (4 * D) + (b * D + e) ≠ n * (4 * D) + k * D + d := by
    intro m e b _ he0 he hb0 hb hme heq
    obtain ⟨h1, -, h3⟩ := gate_inj (k := k) he0 he hd0 hd hb0 hb hk0 hk (by rw [heq]; ring)
    omega
  refine LSTMUnit.loss_hasDerivAt_of_cell N D t (fun _ => H_prev) (fun _ => C_prev)
    (fun x => Function.update X (n * (4 * D) + k * D + d) x) seqLengths drop_states C0 H0
    forget_bias C_grad H_grad n d hn0 hn hd0 hd _ _ (fun m e hm0 hm he0 he hme x => ?_) ?_
  · have q0 := hne m e 0 hm0 he0 he (by decide) (by decide) hme
    have q1 := hne m e 1 hm0 he0 he (by decide) (by decide) hme
    have q2 := hne m e 2 hm0 he0 he (by decide) (by decide) hme
    have q3 := hne m e 3 hm0 he0 he (by decide) (by decide) hme
    rw [zero_mul, zero_add] at q0
    simp only [Function.update_noteq q0, Function.update_noteq q1, Function.update_noteq q2,
      Function.update_noteq q3, and_self]
  · simp only [LSTMUnit.cellLoss, hvalid, decide_True, LSTMUnit.cOut_valid,
      LSTMUnit.hOut_valid]
    have key := cell_loss_hasDerivAt (C_grad (n * D + d)) (H_grad (n * D + d)) forget_bias
      (fun x => Function.update X (n * (4 * D) + k * D + d) x (n * (4 * D) + d))
      (fun x => Function.update X (n * (4 * D) + k * D + d) x (n * (4 * D) + (1 * D + d)))
      (fun x => Function.update X (n * (4 * D) + k * D + d) x (n * (4 * D) + (2 * D + d)))
      (fun x => Function.update X (n * (4 * D) + k * D + d) x (n * (4 * D) + (3 * D + d)))
      (fun _ => C_prev (n * D + d)) _ _ _ _ _ (X (n * (4 * D) + k * D + d))
      (update_hasDerivAt X _ _) (update_hasDerivAt X _ _) (update_hasDerivAt X _ _)
      (update_hasDerivAt X _ _) (hasDerivAt_const _ _)
    convert key using 1
    simp only [Function.update_eq_self]
    obtain ⟨-, -, g0, g1, g2, g3⟩ := LSTMUnitGradient.backward_at_cell Real.exp N D t C_prev X
      seqLengths
      (LSTMUnit Real.exp N D t H_prev C_prev X seqLengths drop_states C0 H0 forget_bias).C H
      C_grad H_grad drop_states Hp0 Cp0 X0 forget_bias n d hn0 hn hd0 hd
    have hC := (LSTMUnit.forward_at_cell Real.exp N D t H_prev C_prev X seqLengths drop_states
      C0 H0 forget_bias n d hn0 hn hd0 hd).1
    simp only [LSTMUnitGradient.vals, hvalid, decide_True, Bool.not_true, Bool.false_eq_true,
      if_false, hC, LSTMUnit.cOut_valid] at g0 g1 g2 g3
    obtain rfl | rfl | rfl | rfl : k = 0 ∨ k = 1 ∨ k = 2 ∨ k = 3 := by omega
    · rw [show n * (4 * D) + 0 * D + d = n * (4 * D) + d by ring, g0]
      split_ifs <;> first | omega | ring
    · rw [g1]
      split_ifs <;> first | omega | ring
    · rw [g2]
      split_ifs <;> first | omega | ring
    · rw [g3]
      split_ifs <;> first | omega | ring

/-- C5 at `N = 1`, `D = 1`, `t = 0`, `seqLengths = [1]`, all gates and `C_prev` equal to `0`,
`forget_bias = 0`, `C_grad = [6]`, `H_grad = [4]`, for the candidate pre-activation `X[3]`:
`i = o = 1/2`, `g = 0`, `c = 0`, `c_term = 6 + 4 * 1/2 = 8`, and the derivative of the loss
is `g_diff = 8 * 1/2 * (1 - 0) = 4`. -/
theorem LSTMUnitGradient_is_gate_gradient_witness :
    HasDerivAt
      (fun x => linearLoss 1 1 (fun _ => 6) (fun _ => 4)
        (LSTMUnit Real.exp 1 1 0 (fun _ => 0) (fun _ => 0) (Function.update (fun _ => 0) 3 x)
          (fun _ => 1) false (fun _ => 0) (fun _ => 0) 0).C
        (LSTMUnit Real.exp 1 1 0 (fun _ => 0) (fun _ => 0) (Function.update (fun _ => 0) 3 x)
          (fun _ => 1) false (fun _ => 0) (fun _ => 0) 0).H)
      4 0 := by
  have h := LSTMUnitGradient_is_gate_gradient 1 1 0 (fun _ => 0) (fun _ => 0) (fun _ => 0)
    (fun _ => 1) false (fun _ => 0) (fun _ => 0) (fun _ => 0) (fun _ => 6) (fun _ => 4)
    (fun _ => 9) (fun _ => 9) (fun _ => 9) 0 0 0 3 (by decide) (by decide) (by decide)
    (by decide) (by decide) (by decide) (by decide)
  have hs : sigmoid Real.exp 0 = 1 / 2 := by
    simp only [sigmoid, neg_zero, Real.exp_zero]; norm_num
  have ht : host_tanh Real.exp 0 = 0 := by
    simp only [host_tanh, mul_zero, hs]; norm_num
  have hc := (LSTMUnit.forward_at_cell Real.exp 1 1 0 (fun _ => 0) (fun _ => 0) (fun _ => 0)
    (fun _ => 1) false (fun _ => 0) (fun _ => 0) 0 0 0 (by decide) (by decide) (by decide)
    (by decide)).1
  have hg := (LSTMUnitGradient.backward_at_cell Real.exp 1 1 0 (fun _ => 0) (fun _ => 0)
    (fun _ => 1)
    (LSTMUnit Real.exp 1 1 0 (fun _ => 0) (fun _ => 0) (fun _ => 0) (fun _ => 1) false
      (fun _ => 0) (fun _ => 0) 0).C
    (fun _ => 0) (fun _ => 6) (fun _ => 4) false (fun _ => 9) (fun _ => 9) (fun _ => 9) 0 0 0
    (by decide) (by decide) (by decide) (by decide)).2.2.2.2.2
  simp only [zero_mul, zero_add, add_zero, mul_one, LSTMUnit.cOut_valid, hs, ht,
    show decide ((0 : Int) < 1) = true from rfl, mul_zero] at hc
  simp only [zero_mul, zero_add, add_zero, mul_one, LSTMUnitGradient.vals, hc, hs, ht,
    show decide ((0 : Int) < 1) = true from rfl, mul_zero, Bool.not_true, Bool.false_eq_true,
    if_false, sub_zero] at hg
  simp only [zero_mul, zero_add, add_zero, mul_one, hg] at h
  convert h using 1
  norm_num

/-- C6. Backward is the true gradient with respect to the previous cell state on valid rows:
for a row `n` with `t < seqLengths[n]` and a column `d < D`, the loss
`L = ∑ (C_grad * C + H_grad * H)` of the outputs of `LSTMUnit`, as a function of
`C_prev[n*D+d]` with every other input fixed, is differentiable at the given value, and its
derivative is the entry `C_prev_diff[n*D+d]` that `LSTMUnitGradient` computes from the forward
output `C`. -/
theorem LSTMUnitGradient_is_C_prev_gradient (N D t : Int) (H_prev C_prev X : Int → ℝ)
    (seqLengths : Int → Int) (drop_states : Bool) (C0 H0 H : Int → ℝ)
    (C_grad H_grad Hp0 Cp0 X0 : Int → ℝ) (forget_bias : ℝ) (n d : Int)
    (hn0 : 0 ≤ n) (hn : n < N) (hd0 : 0 ≤ d) (hd : d < D) (hvalid : t < seqLengths n) :
    HasDerivAt
      (fun x => linearLoss N D C_grad H_grad
        (LSTMUnit Real.exp N D t H_prev (Function.update C_prev (n * D + d) x) X
          seqLengths drop_states C0 H0 forget_bias).C
        (LSTMUnit Real.exp N D t H_prev (Function.update C_prev (n * D + d) x) X
          seqLengths drop_states C0 H0 forget_bias).H)
      ((LSTMUnitGradient Real.exp N D t C_prev X seqLengths
        (LSTMUnit Real.exp N D t H_prev C_prev X seqLengths drop_states C0 H0 forget_bias).C H
        C_grad H_grad drop_states Hp0 Cp0 X0 forget_bias).C_prev_diff (n * D + d))
      (C_prev (n * D + d)) := by
  refine LSTMUnit.loss_hasDerivAt_of_cell N D t (fun _ => H_prev)
    (fun x => Function.update C_prev (n * D + d) x) (fun _ => X) seqLengths drop_states C0 H0
    forget_bias C_grad H_grad n d hn0 hn hd0 hd _ _ (fun m e hm0 hm he0 he hme x => ?_) ?_
  · have q : m * D + e ≠ n * D + d := by
      intro heq
      obtain ⟨h1, h2⟩ := rowMajor_inj he0 he hd0 hd heq
      omega
    simp only [Function.update_noteq q, and_self]
  · simp only [LSTMUnit.cellLoss, hvalid, decide_True, LSTMUnit.cOut_valid,
      LSTMUnit.hOut_valid]
    have key := cell_loss_hasDerivAt (C_grad (n * D + d)) (H_grad (n * D + d)) forget_bias
      (fun _ => X (n * (4 * D) + d)) (fun _ => X (n * (4 * D) + (1 * D + d)))
      (fun _ => X (n * (4 * D) + (2 * D + d))) (fun _ => X (n * (4 * D) + (3 * D + d)))
      (fun x => Function.update C_prev (n * D + d) x (n * D + d)) _ _ _ _ _
      (C_prev (n * D + d))
      (hasDerivAt_const _ _) (hasDerivAt_const _ _) (hasDerivAt_const _ _)
      (hasDerivAt_const _ _) (update_hasDerivAt C_prev _ _)
    convert key using 1
    simp only [Function.update_eq_self]
    obtain ⟨-, g, -⟩ := LSTMUnitGradient.backward_at_cell Real.exp N D t C_prev X
      seqLengths
      (LSTMUnit Real.exp N D t H_prev C_prev X seqLengths drop_states C0 H0 forget_bias).C H
      C_grad H_grad drop_states Hp0 Cp0 X0 forget_bias n d hn0 hn hd0 hd
    have hC := (LSTMUnit.forward_at_cell Real.exp N D t H_prev C_prev X seqLengths drop_states
      C0 H0 forget_bias n d hn0 hn hd0 hd).1
    simp only [LSTMUnitGradient.vals, hvalid, decide_True, Bool.not_true, Bool.false_eq_true,
      if_false, hC, LSTMUnit.cOut_valid] at g
    rw [g]
    simp only [Function.update_same, if_true]
    ring

/-- C6 at `N = 1`, `D = 1`, `t = 0`, `seqLengths = [1]`, all gates and `C_prev` equal to `0`,
`forget_bias = 0`, `C_grad = [6]`, `H_grad = [4]`: `f = o = 1/2`, `c = 0`, `c_term = 8`, and
the derivative of the loss with respect to `C_prev[0]` is `c_term * f = 4`. -/
theorem LSTMUnitGradient_is_C_prev_gradient_witness :
    HasDerivAt
      (fun x => linearLoss 1 1 (fun _ => 6) (fun _ => 4)
        (LSTMUnit Real.exp 1 1 0 (fun _ => 0) (Function.update (fun _ => 0) 0 x) (fun _ => 0)
          (fun _ => 1) false (fun _ => 0) (fun _ => 0) 0).C
        (LSTMUnit Real.exp 1 1 0 (fun _ => 0) (Function.update (fun _ => 0) 0 x) (fun _ => 0)
          (fun _ => 1) false (fun _ => 0) (fun _ => 0) 0).H)
      4 0 := by
  have h := LSTMUnitGradient_is_C_prev_gradient 1 1 0 (fun _ => 0) (fun _ => 0) (fun _ => 0)
    (fun _ => 1) false (fun _ => 0) (fun _ => 0) (fun _ => 0) (fun _ => 6) (fun _ => 4)
    (fun _ => 9) (fun _ => 9) (fun _ => 9) 0 0 0 (by decide) (by decide) (by decide)
    (by decide) (by decide)
  have hs : sigmoid Real.exp 0 = 1 / 2 := by
    simp only [sigmoid, neg_zero, Real.exp_zero]; norm_num
  have ht : host_tanh Real.exp 0 = 0 := by
    simp only [host_tanh, mul_zero, hs]; norm_num
  have hc := (LSTMUnit.forward_at_cell Real.exp 1 1 0 (fun _ => 0) (fun _ => 0) (fun _ => 0)
    (fun _ => 1) false (fun _ => 0) (fun _ => 0) 0 0 0 (by decide) (by decide) (by decide)
    (by decide)).1
  have hg := (LSTMUnitGradient.backward_at_cell Real.exp 1 1 0 (fun _ => 0) (fun _ => 0)
    (fun _ => 1)
    (LSTMUnit Real.exp 1 1 0 (fun _ => 0) (fun _ => 0) (fun _ => 0) (fun _ => 1) false
      (fun _ => 0) (fun _ => 0) 0).C
    (fun _ => 0) (fun _ => 6) (fun _ => 4) false (fun _ => 9) (fun _ => 9) (fun _ => 9) 0 0 0
    (by decide) (by decide) (by decide) (by decide)).2.1
  simp only [zero_mul, zero_add, add_zero, mul_one, LSTMUnit.cOut_valid, hs, ht,
    show decide ((0 : Int) < 1) = true from rfl, mul_zero] at hc
  simp only [zero_mul, zero_add, add_zero, mul_one, LSTMUnitGradient.vals, hc, hs, ht,
    show decide ((0 : Int) < 1) = true from rfl, mul_zero, Bool.not_true, Bool.false_eq_true,
    if_false, sub_zero] at hg
  simp only [zero_mul, zero_add, add_zero, mul_one, hg] at h
  convert h using 1
  norm_num

/-- C7. Backward is the true gradient on expired rows under both policies: for a row `n` with
`t ≥ seqLengths[n]` and a column `d < D`, the loss `L = ∑ (C_grad * C + H_grad * H)` of the
outputs of `LSTMUnit` is differentiable in `H_prev[n*D+d]`, in `C_prev[n*D+d]` and in each
gate pre-activation `X[n*4D + k*D + d]`, `k ∈ {0, 1, 2, 3}`, and the three derivatives are the
entries `H_prev_diff[n*D+d]`, `C_prev_diff[n*D+d]` and `X_diff[n*4D + k*D + d]` that
`LSTMUnitGradient` computes with the same `t`, `seqLengths` and `drop_states`. -/
theorem LSTMUnitGradient_is_gradient_on_expired (N D t : Int) (H_prev C_prev X : Int → ℝ)
    (seqLengths : Int → Int) (drop_states : Bool) (C0 H0 C H : Int → ℝ)
    (C_grad H_grad Hp0 Cp0 X0 : Int → ℝ) (forget_bias : ℝ) (n d : Int)
    (hn0 : 0 ≤ n) (hn : n < N) (hd0 : 0 ≤ d) (hd : d < D) (hexpired : seqLengths n ≤ t) :
    HasDerivAt
      (fun x => linearLoss N D C_grad H_grad
        (LSTMUnit Real.exp N D t (Function.update H_prev (n * D + d) x) C_prev X
          seqLengths drop_states C0 H0 forget_bias).C
        (LSTMUnit Real.exp N D t (Function.update H_prev (n * D + d) x) C_prev X
          seqLengths drop_states C0 H0 forget_bias).H)
      ((LSTMUnitGradient Real.exp N D t C_prev X seqLengths C H C_grad H_grad drop_states
        Hp0 Cp0 X0 forget_bias).H_prev_diff (n * D + d))
      (H_prev (n * D + d)) ∧
    HasDerivAt
      (fun x => linearLoss N D C_grad H_grad
        (LSTMUnit Real.exp N D t H_prev (Function.update C_prev (n * D + d) x) X
          seqLengths drop_states C0 H0 forget_bias).C
        (LSTMUnit Real.exp N D t H_prev (Function.update C_prev (n * D + d) x) X
          seqLengths drop_states C0 H0 forget_bias).H)
      ((LSTMUnitGradient Real.exp N D t C_prev X seqLengths C H C_grad H_grad drop_states
        Hp0 Cp0 X0 forget_bias).C_prev_diff (n * D + d))
      (C_prev (n * D + d)) ∧
    ∀ k : Int, 0 ≤ k → k < 4 →
      HasDerivAt
        (fun x => linearLoss N D C_grad H_grad
          (LSTMUnit Real.exp N D t H_prev C_prev
            (Function.update X (n * (4 * D) + k * D + d) x)
            seqLengths drop_states C0 H0 forget_bias).C
          (LSTMUnit Real.exp N D t H_prev C_prev
            (Function.update X (n * (4 * D) + k * D + d) x)
            seqLengths drop_states C0 H0 forget_bias).H)
        ((LSTMUnitGradient Real.exp N D t C_prev X seqLengths C H C_grad H_grad drop_states
          Hp0 Cp0 X0 forget_bias).X_diff (n * (4 * D) + k * D + d))
        (X (n * (4 * D) + k * D + d)) := by
  have hv : decide (t < seqLengths n) = false := decide_eq_false (by omega)
  have hcell : ∀ m e : Int, 0 ≤ e → e < D → (m ≠ n ∨ e ≠ d) → m * D + e ≠ n * D + d := by
    intro m e he0 he hme heq
    obtain ⟨h1, h2⟩ := rowMajor_inj he0 he hd0 hd heq
    omega
  obtain ⟨g0, g1, g2, g3, g4, g5⟩ := LSTMUnitGradient.backward_at_cell Real.exp N D t C_prev X
    seqLengths C H C_grad H_grad drop_states Hp0 Cp0 X0 forget_bias n d hn0 hn hd0 hd
  simp only [LSTMUnitGradient.vals, hv, Bool.not_false, if_true] at g0 g1 g2 g3 g4 g5
  refine ⟨?_, ?_, fun k hk0 hk => ?_⟩
  · refine LSTMUnit.loss_hasDerivAt_of_cell N D t
      (fun x => Function.update H_prev (n * D + d) x) (fun _ => C_prev) (fun _ => X)
      seqLengths drop_states C0 H0 forget_bias C_grad H_grad n d hn0 hn hd0 hd _ _
      (fun m e hm0 hm he0 he hme x => ?_) ?_
    · simp only [Function.update_noteq (hcell m e he0 he hme), and_self]
    · simp only [LSTMUnit.cellLoss, hv, LSTMUnit.cOut_expired, LSTMUnit.hOut_expired]
      have key := expired_loss_hasDerivAt (C_grad (n * D + d)) (H_grad (n * D + d))
        drop_states (fun x => Function.update H_prev (n * D + d) x (n * D + d))
        (fun _ => C_prev (n * D + d)) _ _ (H_prev (n * D + d))
        (update_hasDerivAt H_prev _ _) (hasDerivAt_const _ _)
      convert key using 1
      rw [g0]
      cases drop_states <;> simp
  · refine LSTMUnit.loss_hasDerivAt_of_cell N D t (fun _ => H_prev)
      (fun x => Function.update C_prev (n * D + d) x) (fun _ => X)
      seqLengths drop_states C0 H0 forget_bias C_grad H_grad n d hn0 hn hd0 hd _ _
      (fun m e hm0 hm he0 he hme x => ?_) ?_
    · simp only [Function.update_noteq (hcell m e he0 he hme), and_self]
    · simp only [LSTMUnit.cellLoss, hv, LSTMUnit.cOut_expired, LSTMUnit.hOut_expired]
      have key := expired_loss_hasDerivAt (C_grad (n * D + d)) (H_grad (n * D + d))
        drop_states (fun _ => H_prev (n * D + d))
        (fun x => Function.update C_prev (n * D + d) x (n * D + d)) _ _ (C_prev (n * D + d))
        (hasDerivAt_const _ _) (update_hasDerivAt C_prev _ _)
      convert key using 1
      rw [g1]
      cases drop_states <;> simp
  · have hne : ∀ (m e b : Int), 0 ≤ m → 0 ≤ e → e < D → 0 ≤ b → b < 4 →
        (m ≠ n ∨ e ≠ d) → m * (4 * D) + (b * D + e) ≠ n * (4 * D) + k * D + d := by
      intro m e b _ he0 he hb0 hb hme heq
      obtain ⟨h1, -, h3⟩ := gate_inj (k := k) he0 he hd0 hd hb0 hb hk0 hk (by rw [heq]; ring)
      omega
    refine LSTMUnit.loss_hasDerivAt_of_cell N D t (fun _ => H_prev) (fun _ => C_prev)
      (fun x => Function.update X (n * (4 * D) + k * D + d) x) seqLengths drop_states C0 H0
      forget_bias C_grad H_grad n d hn0 hn hd0 hd _ _ (fun m e hm0 hm he0 he hme x => ?_) ?_
    · have q0 := hne m e 0 hm0 he0 he (by decide) (by decide) hme
      have q1 := hne m e 1 hm0 he0 he (by decide) (by decide) hme
      have q2 := hne m e 2 hm0 he0 he (by decide) (by decide) hme
      have q3 := hne m e 3 hm0 he0 he (by decide) (by decide) hme
      rw [zero_mul, zero_add] at q0
      simp only [Function.update_noteq q0, Function.update_noteq q1, Function.update_noteq q2,
        Function.update_noteq q3, and_self]
    · simp only [LSTMUnit.cellLoss, hv, LSTMUnit.cOut_expired, LSTMUnit.hOut_expired]
      have hX : (LSTMUnitGradient Real.exp N D t C_prev X seqLengths C H C_grad H_grad
          drop_states Hp0 Cp0 X0 forget_bias).X_diff (n * (4 * D) + k * D + d) = 0 := by
        obtain rfl | rfl | rfl | rfl : k = 0 ∨ k = 1 ∨ k = 2 ∨ k = 3 := by omega
        · rw [show n * (4 * D) + 0 * D + d = n * (4 * D) + d by ring]
          cases drop_states <;> simpa using g2
        · cases drop_states <;> simpa using g3
        · cases drop_states <;> simpa using g4
        · cases drop_states <;> simpa using g5
      rw [hX]
      exact hasDerivAt_const _ _

/-- C7 at `N = 1`, `D = 2`, `t = 3`, `seqLengths = [2]`, `drop_states = false`,
`H_prev = [1, 2]`, `C_grad = [6, 6]`, `H_grad = [4, 4]`: the row is expired, the forward pass
copies `H_prev`, and the derivative of the loss with respect to `H_prev[1]` is
`H_prev_diff[1] = H_grad[1] = 4`. -/
theorem LSTMUnitGradient_is_gradient_on_expired_witness :
    HasDerivAt
      (fun x => linearLoss 1 2 (fun _ => 6) (fun _ => 4)
        (LSTMUnit Real.exp 1 2 3 (Function.update (fun j => if j = 0 then 1 else 2) 1 x)
          (fun j => if j = 0 then 3 else 4) (fun _ => 0) (fun _ => 2) false (fun _ => 0)
          (fun _ => 0) 0).C
        (LSTMUnit Real.exp 1 2 3 (Function.update (fun j => if j = 0 then 1 else 2) 1 x)
          (fun j => if j = 0 then 3 else 4) (fun _ => 0) (fun _ => 2) false (fun _ => 0)
          (fun _ => 0) 0).H)
      4 2 := by
  have h := (LSTMUnitGradient_is_gradient_on_expired 1 2 3 (fun j => if j = 0 then 1 else 2)
    (fun j => if j = 0 then 3 else 4) (fun _ => 0) (fun _ => 2) false (fun _ => 0)
    (fun _ => 0) (fun _ => 0) (fun _ => 0) (fun _ => 6) (fun _ => 4)
    (fun _ => 9) (fun _ => 9) (fun _ => 9) 0 0 1 (by decide) (by decide) (by decide)
    (by decide) (by decide)).1
  have hg := (LSTMUnitGradient.backward_at_cell Real.exp 1 2 3
    (fun j => if j = 0 then 3 else 4) (fun _ => 0) (fun _ => 2) (fun _ => 0) (fun _ => 0)
    (fun _ => 6) (fun _ => 4) false (fun _ => 9) (fun _ => 9) (fun _ => 9) 0 0 1
    (by decide) (by decide) (by decide) (by decide)).1
  simp only [zero_mul, zero_add, LSTMUnitGradient.vals,
    show decide ((3 : Int) < 2) = false from rfl, Bool.not_false, if_true,
    Bool.false_eq_true, if_false] at hg
  simp only [zero_mul, zero_add, hg, one_ne_zero, if_false] at h
  exact h

end GradientClaims

/-! ## Backward pass: gate gradients and expired rows -/

section BackwardCells

variable [Field α]

/-- C11. Backward, valid row, input-gate and candidate gradients: for every row `n` with
`t < seqLengths[n]` and every `d < D`, `LSTMUnitGradient` writes
`X_diff[n*4D+d] = c_term * g * i * (1 - i)` (first block) and
`X_diff[n*4D+3D+d] = c_term * i * (1 - g^2)` (fourth block), with `i = sigmoid(X[n*4D+d])`,
`g = host_tanh(X[n*4D+3D+d])`, `o = sigmoid(X[n*4D+2D+d])` and
`c_term = C_diff[n*D+d] + H_diff[n*D+d] * o * (1 - host_tanh(C[n*D+d])^2)`. -/
theorem LSTMUnitGradient_valid_i_g_diff (exp : α → α) (N D t : Int)
    (C_prev X : Int → α) (seqLengths : Int → Int) (C H C_diff H_diff : Int → α)
    (drop_states : Bool) (Hp0 Cp0 X0 : Int → α) (forget_bias : α)
    (n d : Int) (hn0 : 0 ≤ n) (hn : n < N) (hd0 : 0 ≤ d) (hd : d < D)
    (hvalid : t < seqLengths n) :
    (LSTMUnitGradient exp N D t C_prev X seqLengths C H C_diff H_diff drop_states Hp0 Cp0 X0
      forget_bias).X_diff (n * (4 * D) + d) =
      (C_diff (n * D + d) + H_diff (n * D + d) * sigmoid exp (X (n * (4 * D) + 2 * D + d))
          * (1 - host_tanh exp (C (n * D + d)) ^ 2))
        * host_tanh exp (X (n * (4 * D) + 3 * D + d)) * sigmoid exp (X (n * (4 * D) + d))
        * (1 - sigmoid exp (X (n * (4 * D) + d))) ∧
    (LSTMUnitGradient exp N D t C_prev X seqLengths C H C_diff H_diff drop_states Hp0 Cp0 X0
      forget_bias).X_diff (n * (4 * D) + 3 * D + d) =
      (C_diff (n * D + d) + H_diff (n * D + d) * sigmoid exp (X (n * (4 * D) + 2 * D + d))
          * (1 - host_tanh exp (C (n * D + d)) ^ 2))
        * sigmoid exp (X (n * (4 * D) + d))
        * (1 - host_tanh exp (X (n * (4 * D) + 3 * D + d)) ^ 2) := by
  obtain ⟨-, -, g0, -, -, g3⟩ := LSTMUnitGradient.backward_at_cell exp N D t C_prev X
    seqLengths C H C_diff H_diff drop_states Hp0 Cp0 X0 forget_bias n d hn0 hn hd0 hd
  rw [g0, g3]
  simp only [LSTMUnitGradient.vals, hvalid, decide_True, Bool.not_true, Bool.false_eq_true,
    if_false, add_assoc, pow_two, and_self]

/-- C11 at `N = 1`, `D = 1`, `t = 0`, `seqLengths = [1]`, all gates and `C` equal to `0`,
`C_diff = [6]`, `H_diff = [4]`, over the reals: `i = o = 1/2`, `g = 0`, `c_term = 8`, so
`X_diff[0] = 8 * 0 * 1/2 * 1/2 = 0` and `X_diff[3] = 8 * 1/2 * (1 - 0) = 4`. -/
theorem LSTMUnitGradient_valid_i_g_diff_witness :
    (LSTMUnitGradient Real.exp 1 1 0 (fun _ => 2) (fun _ => 0) (fun _ => 1) (fun _ => 0)
      (fun _ => 0) (fun _ => 6) (fun _ => 4) false (fun _ => 9) (fun _ => 9) (fun _ => 9)
      0).X_diff 0 = 0 ∧
    (LSTMUnitGradient Real.exp 1 1 0 (fun _ => 2) (fun _ => 0) (fun _ => 1) (fun _ => 0)
      (fun _ => 0) (fun _ => 6) (fun _ => 4) false (fun _ => 9) (fun _ => 9) (fun _ => 9)
      0).X_diff 3 = 4 := by
  have h := LSTMUnitGradient_valid_i_g_diff Real.exp 1 1 0 (fun _ => 2) (fun _ => 0)
    (fun _ => 1) (fun _ => 0) (fun _ => 0) (fun _ => 6) (fun _ => 4) false (fun _ => 9)
    (fun _ => 9) (fun _ => 9) 0 0 0 (by decide) (by decide) (by decide) (by decide) (by decide)
  have hs : sigmoid Real.exp 0 = 1 / 2 := by
    simp only [sigmoid, neg_zero, Real.exp_zero]; norm_num
  have ht : host_tanh Real.exp 0 = 0 := by
    simp only [host_tanh, mul_zero, hs]; norm_num
  simp only [zero_mul, zero_add, add_zero, mul_one, hs, ht] at h
  refine ⟨by rw [h.1]; norm_num, by rw [h.2]; norm_num⟩

/-- C12. Backward, valid row, forget-gate and output-gate gradients: for every row `n` with
`t < seqLengths[n]` and every `d < D`, `LSTMUnitGradient` writes
`X_diff[n*4D+D+d] = c_term * C_prev[n*D+d] * f * (1 - f)` (second block) and
`X_diff[n*4D+2D+d] = H_diff[n*D+d] * host_tanh(C[n*D+d]) * o * (1 - o)` (third block), with
`f = sigmoid(X[n*4D+D+d] + forget_bias)`, `o = sigmoid(X[n*4D+2D+d])` and
`c_term = C_diff[n*D+d] + H_diff[n*D+d] * o * (1 - host_tanh(C[n*D+d])^2)`. -/
theorem LSTMUnitGradient_valid_f_o_diff (exp : α → α) (N D t : Int)
    (C_prev X : Int → α) (seqLengths : Int → Int) (C H C_diff H_diff : Int → α)
    (drop_states : Bool) (Hp0 Cp0 X0 : Int → α) (forget_bias : α)
    (n d : Int) (hn0 : 0 ≤ n) (hn : n < N) (hd0 : 0 ≤ d) (hd : d < D)
    (hvalid : t < seqLengths n) :
    (LSTMUnitGradient exp N D t C_prev X seqLengths C H C_diff H_diff drop_states Hp0 Cp0 X0
      forget_bias).X_diff (n * (4 * D) + D + d) =
      (C_diff (n * D + d) + H_diff (n * D + d) * sigmoid exp (X (n * (4 * D) + 2 * D + d))
          * (1 - host_tanh exp (C (n * D + d)) ^ 2))
        * C_prev (n * D + d) * sigmoid exp (X (n * (4 * D) + D + d) + forget_bias)
        * (1 - sigmoid exp (X (n * (4 * D) + D + d) + forget_bias)) ∧
    (LSTMUnitGradient exp N D t C_prev X seqLengths C H C_diff H_diff drop_states Hp0 Cp0 X0
      forget_bias).X_diff (n * (4 * D) + 2 * D + d) =
      H_diff (n * D + d) * host_tanh exp (C (n * D + d))
        * sigmoid exp (X (n * (4 * D) + 2 * D + d))
        * (1 - sigmoid exp (X (n * (4 * D) + 2 * D + d))) := by
  obtain ⟨-, -, -, g1, g2, -⟩ := LSTMUnitGradient.backward_at_cell exp N D t C_prev X
    seqLengths C H C_diff H_diff drop_states Hp0 Cp0 X0 forget_bias n d hn0 hn hd0 hd
  rw [one_mul] at g1
  rw [g1, g2]
  simp only [LSTMUnitGradient.vals, hvalid, decide_True, Bool.not_true, Bool.false_eq_true,
    if_false, add_assoc, pow_two, one_mul, and_self]

/-- C12 at `N = 1`, `D = 1`, `t = 0`, `seqLengths = [1]`, all gates and `C` equal to `0`,
`C_prev = [2]`, `C_diff = [6]`, `H_diff = [4]`, `forget_bias = 0`, over the reals:
`f = o = 1/2`, `c_term = 8`, so `X_diff[1] = 8 * 2 * 1/2 * 1/2 = 4` and
`X_diff[2] = 4 * 0 * 1/2 * 1/2 = 0`. -/
theorem LSTMUnitGradient_valid_f_o_diff_witness :
    (LSTMUnitGradient Real.exp 1 1 0 (fun _ => 2) (fun _ => 0) (fun _ => 1) (fun _ => 0)
      (fun _ => 0) (fun _ => 6) (fun _ => 4) false (fun _ => 9) (fun _ => 9) (fun _ => 9)
      0).X_diff 1 = 4 ∧
    (LSTMUnitGradient Real.exp 1 1 0 (fun _ => 2) (fun _ => 0) (fun _ => 1) (fun _ => 0)
      (fun _ => 0) (fun _ => 6) (fun _ => 4) false (fun _ => 9) (fun _ => 9) (fun _ => 9)
      0).X_diff 2 = 0 := by
  have h := LSTMUnitGradient_valid_f_o_diff Real.exp 1 1 0 (fun _ => 2) (fun _ => 0)
    (fun _ => 1) (fun _ => 0) (fun _ => 0) (fun _ => 6) (fun _ => 4) false (fun _ => 9)
    (fun _ => 9) (fun _ => 9) 0 0 0 (by decide) (by decide) (by decide) (by decide) (by decide)
  have hs : sigmoid Real.exp 0 = 1 / 2 := by
    simp only [sigmoid, neg_zero, Real.exp_zero]; norm_num
  have ht : host_tanh Real.exp 0 = 0 := by
    simp only [host_tanh, mul_zero, hs]; norm_num
  simp only [zero_mul, zero_add, add_zero, mul_one, hs, ht] at h
  refine ⟨by rw [h.1]; norm_num, by rw [h.2]; norm_num⟩

/-- C13. Backward, expired row, carry policy: for every row `n` with `t ≥ seqLengths[n]` and
`drop_states = false`, `LSTMUnitGradient` writes `H_prev_diff[n*D+d] = H_diff[n*D+d]` and
`C_prev_diff[n*D+d] = C_diff[n*D+d]` for every `d < D`. -/
theorem LSTMUnitGradient_expired_carry (exp : α → α) (N D t : Int)
    (C_prev X : Int → α) (seqLengths : Int → Int) (C H C_diff H_diff : Int → α)
    (Hp0 Cp0 X0 : Int → α) (forget_bias : α)
    (n d : Int) (hn0 : 0 ≤ n) (hn : n < N) (hd0 : 0 ≤ d) (hd : d < D)
    (hexpired : seqLengths n ≤ t) :
    (LSTMUnitGradient exp N D t C_prev X seqLengths C H C_diff H_diff false Hp0 Cp0 X0
      forget_bias).H_prev_diff (n * D + d) = H_diff (n * D + d) ∧
    (LSTMUnitGradient exp N D t C_prev X seqLengths C H C_diff H_diff false Hp0 Cp0 X0
      forget_bias).C_prev_diff (n * D + d) = C_diff (n * D + d) := by
  obtain ⟨g0, g1, -⟩ := LSTMUnitGradient.backward_at_cell exp N D t C_prev X
    seqLengths C H C_diff H_diff false Hp0 Cp0 X0 forget_bias n d hn0 hn hd0 hd
  have hv : decide (t < seqLengths n) = false := decide_eq_false (by omega)
  rw [g0, g1]
  simp [LSTMUnitGradient.vals, hv]

/-- C13 at `N = 1`, `D = 2`, `t = 2`, `seqLengths = [2]` (so `t = seqLengths[0]`),
`H_diff = [4, 5]`, `C_diff = [6, 7]`: `H_prev_diff[1] = 5` and `C_prev_diff[1] = 7`. -/
theorem LSTMUnitGradient_expired_carry_witness :
    (LSTMUnitGradient (fun _ => (1 : ℚ)) 1 2 2 (fun _ => 2) (fun j => 10 + j) (fun _ => 2)
      (fun _ => 3) (fun _ => 0) (fun j => if j = 0 then 6 else 7)
      (fun j => if j = 0 then 4 else 5) false (fun _ => 9) (fun _ => 9) (fun _ => 9)
      0).H_prev_diff 1 = 5 ∧
    (LSTMUnitGradient (fun _ => (1 : ℚ)) 1 2 2 (fun _ => 2) (fun j => 10 + j) (fun _ => 2)
      (fun _ => 3) (fun _ => 0) (fun j => if j = 0 then 6 else 7)
      (fun j => if j = 0 then 4 else 5) false (fun _ => 9) (fun _ => 9) (fun _ => 9)
      0).C_prev_diff 1 = 7 := by
  have h := LSTMUnitGradient_expired_carry (fun _ => (1 : ℚ)) 1 2 2 (fun _ => 2)
    (fun j => 10 + j) (fun _ => 2) (fun _ => 3) (fun _ => 0) (fun j => if j = 0 then 6 else 7)
    (fun j => if j = 0 then 4 else 5) (fun _ => 9) (fun _ => 9) (fun _ => 9) 0 0 1
    (by decide) (by decide) (by decide) (by decide) (by decide)
  simp only [zero_mul, zero_add, one_ne_zero, if_false] at h
  exact h

/-- C14. Backward, expired row, drop policy: for every row `n` with `t ≥ seqLengths[n]` and
`drop_states = true`, `LSTMUnitGradient` writes `H_prev_diff[n*D+d] = 0` and
`C_prev_diff[n*D+d] = 0` for every `d < D`, whatever `H_diff` and `C_diff` hold. -/
theorem LSTMUnitGradient_expired_drop (exp : α → α) (N D t : Int)
    (C_prev X : Int → α) (seqLengths : Int → Int) (C H C_diff H_diff : Int → α)
    (Hp0 Cp0 X0 : Int → α) (forget_bias : α)
    (n d : Int) (hn0 : 0 ≤ n) (hn : n < N) (hd0 : 0 ≤ d) (hd : d < D)
    (hexpired : seqLengths n ≤ t) :
    (LSTMUnitGradient exp N D t C_prev X seqLengths C H C_diff H_diff true Hp0 Cp0 X0
      forget_bias).H_prev_diff (n * D + d) = 0 ∧
    (LSTMUnitGradient exp N D t C_prev X seqLengths C H C_diff H_diff true Hp0 Cp0 X0
      forget_bias).C_prev_diff (n * D + d) = 0 := by
  obtain ⟨g0, g1, -⟩ := LSTMUnitGradient.backward_at_cell exp N D t C_prev X
    seqLengths C H C_diff H_diff true Hp0 Cp0 X0 forget_bias n d hn0 hn hd0 hd
  have hv : decide (t < seqLengths n) = false := decide_eq_false (by omega)
  rw [g0, g1]
  simp [LSTMUnitGradient.vals, hv]

/-- C14 at `N = 1`, `D = 2`, `t = 3`, `seqLengths = [2]`, `H_diff = [4, 5]`, `C_diff = [6, 7]`,
`drop_states = true`: `H_prev_diff[1] = 0` and `C_prev_diff[1] = 0`. -/
theorem LSTMUnitGradient_expired_drop_witness :
    (LSTMUnitGradient (fun _ => (1 : ℚ)) 1 2 3 (fun _ => 2) (fun j => 10 + j) (fun _ => 2)
      (fun _ => 3) (fun _ => 0) (fun j => if j = 0 then 6 else 7)
      (fun j => if j = 0 then 4 else 5) true (fun _ => 9) (fun _ => 9) (fun _ => 9)
      0).H_prev_diff 1 = 0 ∧
    (LSTMUnitGradient (fun _ => (1 : ℚ)) 1 2 3 (fun _ => 2) (fun j => 10 + j) (fun _ => 2)
      (fun _ => 3) (fun _ => 0) (fun j => if j = 0 then 6 else 7)
      (fun j => if j = 0 then 4 else 5) true (fun _ => 9) (fun _ => 9) (fun _ => 9)
      0).C_prev_diff 1 = 0 := by
  have h := LSTMUnitGradient_expired_drop (fun _ => (1 : ℚ)) 1 2 3 (fun _ => 2)
    (fun j => 10 + j) (fun _ => 2) (fun _ => 3) (fun _ => 0) (fun j => if j = 0 then 6 else 7)
    (fun j => if j = 0 then 4 else 5) (fun _ => 9) (fun _ => 9) (fun _ => 9) 0 0 1
    (by decide) (by decide) (by decide) (by decide) (by decide)
  simp only [zero_mul, zero_add] at h
  exact h

/-- C15. Backward, expired row, gate gradients: for every row `n` with `t ≥ seqLengths[n]`,
under either value of `drop_states`, `LSTMUnitGradient` writes `0` to all `4D` entries
`X_diff[n*4D + j]`, `j < 4D`, of that row. -/
theorem LSTMUnitGradient_expired_X_diff_zero (exp : α → α) (N D t : Int)
    (C_prev X : Int → α) (seqLengths : Int → Int) (C H C_diff H_diff : Int → α)
    (drop_states : Bool) (Hp0 Cp0 X0 : Int → α) (forget_bias : α)
    (n j : Int) (hn0 : 0 ≤ n) (hn : n < N) (hj0 : 0 ≤ j) (hj : j < 4 * D)
    (hexpired : seqLengths n ≤ t) :
    (LSTMUnitGradient exp N D t C_prev X seqLengths C H C_diff H_diff drop_states Hp0 Cp0 X0
      forget_bias).X_diff (n * (4 * D) + j) = 0 := by
  obtain ⟨d, hd0, hd, hcase⟩ := gate_decomp hj0 hj
  obtain ⟨-, -, g0, g1, g2, g3⟩ := LSTMUnitGradient.backward_at_cell exp N D t C_prev X
    seqLengths C H C_diff H_diff drop_states Hp0 Cp0 X0 forget_bias n d hn0 hn hd0 hd
  have hv : decide (t < seqLengths n) = false := decide_eq_false (by omega)
  simp only [LSTMUnitGradient.vals, hv, Bool.not_false, if_true] at g0 g1 g2 g3
  rcases hcase with rfl | rfl | rfl | rfl
  · rw [g0]; cases drop_states <;> rfl
  · rw [← add_assoc, g1]; cases drop_states <;> rfl
  · rw [← add_assoc, g2]; cases drop_states <;> rfl
  · rw [← add_assoc, g3]; cases drop_states <;> rfl

/-- C15 at `N = 1`, `D = 2`, `t = 3`, `seqLengths = [2]`, with `X_diff` holding `9` before
the call: entry `j = 5` of the row (third block, column `1`) is `0` afterwards. -/
theorem LSTMUnitGradient_expired_X_diff_zero_witness :
    (LSTMUnitGradient (fun _ => (1 : ℚ)) 1 2 3 (fun _ => 2) (fun j => 10 + j) (fun _ => 2)
      (fun _ => 3) (fun _ => 0) (fun _ => 6) (fun _ => 4) false (fun _ => 9) (fun _ => 9)
      (fun _ => 9) 0).X_diff 5 = 0 := by
  have h := LSTMUnitGradient_expired_X_diff_zero (fun _ => (1 : ℚ)) 1 2 3 (fun _ => 2)
    (fun j => 10 + j) (fun _ => 2) (fun _ => 3) (fun _ => 0) (fun _ => 6) (fun _ => 4) false
    (fun _ => 9) (fun _ => 9) (fun _ => 9) 0 0 5 (by decide) (by decide) (by decide)
    (by decide) (by decide)
  simp only [zero_mul, zero_add] at h
  exact h

end BackwardCells

/-! ## Activations and input dependence -/

section Dependence

/-- C18. `host_tanh` is exact `tanh` over the reals: for every real `x`,
`host_tanh(x) = 2 * sigmoid(2x) - 1 = tanh(x)`, where `sigmoid(x) = 1 / (1 + exp(-x))`. -/
theorem host_tanh_eq_tanh (x : ℝ) :
    sigmoid Real.exp x = 1 / (1 + Real.exp (-x)) ∧
    host_tanh Real.exp x = 2 * sigmoid Real.exp (2 * x) - 1 ∧
    2 * sigmoid Real.exp (2 * x) - 1 = Real.tanh x := by
  refine ⟨rfl, rfl, ?_⟩
  have hv : Real.exp x ≠ 0 := (Real.exp_pos x).ne'
  have h2 : Real.exp (-(2 * x)) = (Real.exp x)⁻¹ * (Real.exp x)⁻¹ := by
    rw [← Real.exp_neg, ← Real.exp_add]
    congr 1
    ring
  have hpos : (1 : ℝ) + (Real.exp x)⁻¹ * (Real.exp x)⁻¹ ≠ 0 := by positivity
  have hpos2 : Real.exp x + (Real.exp x)⁻¹ ≠ 0 := by positivity
  rw [Real.tanh_eq_sinh_div_cosh, Real.sinh_eq, Real.cosh_eq, sigmoid, h2, Real.exp_neg]
  field_simp
  ring

variable [Field α]

/-- C19. Expired forward rows ignore the gates: two calls of `LSTMUnit` that agree on `N`,
`D`, `t`, `H_prev`, `C_prev`, `seqLengths` and `drop_states` write the same `H[n*D+d]` and
`C[n*D+d]` for every row `n` with `t ≥ seqLengths[n]` and every `d < D`, whatever the two gate
buffers and the two forget biases are. -/
theorem LSTMUnit_expired_independent_of_gates (exp : α → α) (N D t : Int)
    (H_prev C_prev X X2 : Int → α) (seqLengths : Int → Int) (drop_states : Bool)
    (C0 H0 : Int → α) (forget_bias forget_bias2 : α)
    (n d : Int) (hn0 : 0 ≤ n) (hn : n < N) (hd0 : 0 ≤ d) (hd : d < D)
    (hexpired : seqLengths n ≤ t) :
    (LSTMUnit exp N D t H_prev C_prev X seqLengths drop_states C0 H0 forget_bias).H
        (n * D + d) =
      (LSTMUnit exp N D t H_prev C_prev X2 seqLengths drop_states C0 H0 forget_bias2).H
        (n * D + d) ∧
    (LSTMUnit exp N D t H_prev C_prev X seqLengths drop_states C0 H0 forget_bias).C
        (n * D + d) =
      (LSTMUnit exp N D t H_prev C_prev X2 seqLengths drop_states C0 H0 forget_bias2).C
        (n * D + d) := by
  obtain ⟨hC, hH⟩ := LSTMUnit.forward_at_cell exp N D t H_prev C_prev X seqLengths drop_states
    C0 H0 forget_bias n d hn0 hn hd0 hd
  obtain ⟨hC2, hH2⟩ := LSTMUnit.forward_at_cell exp N D t H_prev C_prev X2 seqLengths
    drop_states C0 H0 forget_bias2 n d hn0 hn hd0 hd
  have hv : decide (t < seqLengths n) = false := decide_eq_false (by omega)
  rw [hC, hH, hC2, hH2, hv]
  simp only [LSTMUnit.hOut_expired, LSTMUnit.cOut_expired, and_self]

/-- C19, the example of the specification: `N = 1`, `D = 2`, `t = 3`, `seqLengths = [2]`,
`H_prev = [1, 2]`, `C_prev = [3, 4]`, over the reals: the calls with gates `X[j] = j`,
`forget_bias = 0` and with gates `X[j] = 7`, `forget_bias = 1` write the same `H[1]` and the
same `C[1]`. -/
theorem LSTMUnit_expired_independent_of_gates_witness :
    (LSTMUnit Real.exp 1 2 3 (fun j => if j = 0 then 1 else 2)
        (fun j => if j = 0 then 3 else 4) (fun j => j) (fun _ => 2) false (fun _ => 0)
        (fun _ => 0) 0).H 1 =
      (LSTMUnit Real.exp 1 2 3 (fun j => if j = 0 then 1 else 2)
        (fun j => if j = 0 then 3 else 4) (fun _ => 7) (fun _ => 2) false (fun _ => 0)
        (fun _ => 0) 1).H 1 ∧
    (LSTMUnit Real.exp 1 2 3 (fun j => if j = 0 then 1 else 2)
        (fun j => if j = 0 then 3 else 4) (fun j => j) (fun _ => 2) false (fun _ => 0)
        (fun _ => 0) 0).C 1 =
      (LSTMUnit Real.exp 1 2 3 (fun j => if j = 0 then 1 else 2)
        (fun j => if j = 0 then 3 else 4) (fun _ => 7) (fun _ => 2) false (fun _ => 0)
        (fun _ => 0) 1).C 1 := by
  have h := LSTMUnit_expired_independent_of_gates Real.exp 1 2 3
    (fun j => if j = 0 then 1 else 2) (fun j => if j = 0 then 3 else 4) (fun j => j)
    (fun _ => 7) (fun _ => 2) false (fun _ => 0) (fun _ => 0) 0 1 0 1
    (by decide) (by decide) (by decide) (by decide) (by decide)
  simp only [zero_mul, zero_add] at h
  exact h

/-- The values stored by the forward body at column `d` depend on the inputs only through
the six addresses read there. -/
theorem LSTMUnit.out_congr (exp : α → α) (D : Int) (valid drop_states : Bool)
    (H_prev C_prev X H_prev2 C_prev2 X2 : Int → α) (fb : α) (pH pC pX d : Int)
    (hH : H_prev (pH + d) = H_prev2 (pH + d)) (hC : C_prev (pC + d) = C_prev2 (pC + d))
    (h0 : X (pX + d) = X2 (pX + d)) (h1 : X (pX + (1 * D + d)) = X2 (pX + (1 * D + d)))
    (h2 : X (pX + (2 * D + d)) = X2 (pX + (2 * D + d)))
    (h3 : X (pX + (3 * D + d)) = X2 (pX + (3 * D + d))) :
    LSTMUnit.cOut exp D valid drop_states C_prev X fb pC pX d =
      LSTMUnit.cOut exp D valid drop_states C_prev2 X2 fb pC pX d ∧
    LSTMUnit.hOut exp D valid drop_states H_prev C_prev X fb pH pC pX d =
      LSTMUnit.hOut exp D valid drop_states H_prev2 C_prev2 X2 fb pH pC pX d := by
  cases valid
  · simp only [LSTMUnit.cOut_expired, LSTMUnit.hOut_expired, hH, hC, and_self]
  · simp only [LSTMUnit.cOut_valid, LSTMUnit.hOut_valid, hC, h0, h1, h2, h3, and_self]

/-- The values stored by the backward body at column `d` depend on the inputs only through
the eight addresses read there. -/
theorem LSTMUnitGradient.vals_congr (exp : α → α) (D : Int) (valid drop_states : Bool)
    (C_prev X C C_diff H_diff C_prev2 X2 C2 C_diff2 H_diff2 : Int → α) (fb : α)
    (pC_prev pX pC pC_diff pH_diff d : Int)
    (hCp : C_prev (pC_prev + d) = C_prev2 (pC_prev + d))
    (h0 : X (pX + d) = X2 (pX + d)) (h1 : X (pX + (1 * D + d)) = X2 (pX + (1 * D + d)))
    (h2 : X (pX + (2 * D + d)) = X2 (pX + (2 * D + d)))
    (h3 : X (pX + (3 * D + d)) = X2 (pX + (3 * D + d)))
    (hC : C (pC + d) = C2 (pC + d)) (hCd : C_diff (pC_diff + d) = C_diff2 (pC_diff + d))
    (hHd : H_diff (pH_diff + d) = H_diff2 (pH_diff + d)) :
    LSTMUnitGradient.vals exp D valid drop_states C_prev X C C_diff H_diff fb
        pC_prev pX pC pC_diff pH_diff d =
      LSTMUnitGradient.vals exp D valid drop_states C_prev2 X2 C2 C_diff2 H_diff2 fb
        pC_prev pX pC pC_diff pH_diff d := by
  simp only [LSTMUnitGradient.vals, hCp, h0, h1, h2, h3, hC, hCd, hHd]

/-- C20. Row independence: for every row `n`, the outputs `H[n*D .. n*D+D)` and
`C[n*D .. n*D+D)` of `LSTMUnit` are determined by `t`, `D`, `drop_states`, `forget_bias`,
`seqLengths[n]` and the slices of `H_prev`, `C_prev` and `X` that belong to row `n`: two
calls that agree on these write the same row `n`, whatever the other rows, the number of rows
and the prior contents of the output buffers are.  Likewise the slices of `H_prev_diff`,
`C_prev_diff` and `X_diff` for row `n` written by `LSTMUnitGradient` are determined by `t`,
`D`, `drop_states`, `forget_bias`, `seqLengths[n]` and the row-`n` slices of its input
buffers `C_prev`, `X`, `C`, `C_diff` and `H_diff`. -/
theorem row_independence (exp : α → α) (D t : Int) (drop_states : Bool) (forget_bias : α)
    (N N2 : Int) (H_prev H_prev2 C_prev C_prev2 X X2 : Int → α)
    (seqLengths seqLengths2 : Int → Int) (C0 H0 C02 H02 : Int → α)
    (C C2 H H2 C_diff C_diff2 H_diff H_diff2 Hp0 Cp0 X0 Hp02 Cp02 X02 : Int → α)
    (n : Int) (hn0 : 0 ≤ n) (hn : n < N) (hn2 : n < N2)
    (hseq : seqLengths n = seqLengths2 n)
    (hHp : ∀ d : Int, 0 ≤ d → d < D → H_prev (n * D + d) = H_prev2 (n * D + d))
    (hCp : ∀ d : Int, 0 ≤ d → d < D → C_prev (n * D + d) = C_prev2 (n * D + d))
    (hX : ∀ j : Int, 0 ≤ j → j < 4 * D → X (n * (4 * D) + j) = X2 (n * (4 * D) + j))
    (hC : ∀ d : Int, 0 ≤ d → d < D → C (n * D + d) = C2 (n * D + d))
    (hCd : ∀ d : Int, 0 ≤ d → d < D → C_diff (n * D + d) = C_diff2 (n * D + d))
    (hHd : ∀ d : Int, 0 ≤ d → d < D → H_diff (n * D + d) = H_diff2 (n * D + d)) :
    (∀ d : Int, 0 ≤ d → d < D →
      (LSTMUnit exp N D t H_prev C_prev X seqLengths drop_states C0 H0 forget_bias).H
          (n * D + d) =
        (LSTMUnit exp N2 D t H_prev2 C_prev2 X2 seqLengths2 drop_states C02 H02 forget_bias).H
          (n * D + d) ∧
      (LSTMUnit exp N D t H_prev C_prev X seqLengths drop_states C0 H0 forget_bias).C
          (n * D + d) =
        (LSTMUnit exp N2 D t H_prev2 C_prev2 X2 seqLengths2 drop_states C02 H02 forget_bias).C
          (n * D + d)) ∧
    (∀ d : Int, 0 ≤ d → d < D →
      (LSTMUnitGradient exp N D t C_prev X seqLengths C H C_diff H_diff drop_states Hp0 Cp0 X0
          forget_bias).H_prev_diff (n * D + d) =
        (LSTMUnitGradient exp N2 D t C_prev2 X2 seqLengths2 C2 H2 C_diff2 H_diff2 drop_states
          Hp02 Cp02 X02 forget_bias).H_prev_diff (n * D + d) ∧
      (LSTMUnitGradient exp N D t C_prev X seqLengths C H C_diff H_diff drop_states Hp0 Cp0 X0
          forget_bias).C_prev_diff (n * D + d) =
        (LSTMUnitGradient exp N2 D t C_prev2 X2 seqLengths2 C2 H2 C_diff2 H_diff2 drop_states
          Hp02 Cp02 X02 forget_bias).C_prev_diff (n * D + d)) ∧
    (∀ j : Int, 0 ≤ j → j < 4 * D →
      (LSTMUnitGradient exp N D t C_prev X seqLengths C H C_diff H_diff drop_states Hp0 Cp0 X0
          forget_bias).X_diff (n * (4 * D) + j) =
        (LSTMUnitGradient exp N2 D t C_prev2 X2 seqLengths2 C2 H2 C_diff2 H_diff2 drop_states
          Hp02 Cp02 X02 forget_bias).X_diff (n * (4 * D) + j)) := by
  have hfw : ∀ d : Int, 0 ≤ d → d < D →
      LSTMUnit.cOut exp D (decide (t < seqLengths n)) drop_states C_prev X forget_bias
          (n * D) (n * (4 * D)) d =
        LSTMUnit.cOut exp D (decide (t < seqLengths n)) drop_states C_prev2 X2 forget_bias
          (n * D) (n * (4 * D)) d ∧
      LSTMUnit.hOut exp D (decide (t < seqLengths n)) drop_states H_prev C_prev X forget_bias
          (n * D) (n * D) (n * (4 * D)) d =
        LSTMUnit.hOut exp D (decide (t < seqLengths n)) drop_states H_prev2 C_prev2 X2
          forget_bias (n * D) (n * D) (n * (4 * D)) d := fun d hd0 hd =>
    LSTMUnit.out_congr exp D _ drop_states H_prev C_prev X H_prev2 C_prev2 X2 forget_bias
      (n * D) (n * D) (n * (4 * D)) d (hHp d hd0 hd) (hCp d hd0 hd) (hX d hd0 (by omega))
      (hX (1 * D + d) (by omega) (by omega)) (hX (2 * D + d) (by omega) (by omega))
      (hX (3 * D + d) (by omega) (by omega))
  have hbw : ∀ d : Int, 0 ≤ d → d < D →
      LSTMUnitGradient.vals exp D (decide (t < seqLengths n)) drop_states C_prev X C C_diff
          H_diff forget_bias (n * D) (n * (4 * D)) (n * D) (n * D) (n * D) d =
        LSTMUnitGradient.vals exp D (decide (t < seqLengths n)) drop_states C_prev2 X2 C2
          C_diff2 H_diff2 forget_bias (n * D) (n * (4 * D)) (n * D) (n * D) (n * D) d :=
    fun d hd0 hd =>
    LSTMUnitGradient.vals_congr exp D _ drop_states C_prev X C C_diff H_diff C_prev2 X2 C2
      C_diff2 H_diff2 forget_bias (n * D) (n * (4 * D)) (n * D) (n * D) (n * D) d
      (hCp d hd0 hd) (hX d hd0 (by omega)) (hX (1 * D + d) (by omega) (by omega))
      (hX (2 * D + d) (by omega) (by omega)) (hX (3 * D + d) (by omega) (by omega))
      (hC d hd0 hd) (hCd d hd0 hd) (hHd d hd0 hd)
  refine ⟨fun d hd0 hd => ?_, fun d hd0 hd => ?_, fun j hj0 hj => ?_⟩
  · obtain ⟨a1, a2⟩ := LSTMUnit.forward_at_cell exp N D t H_prev C_prev X seqLengths
      drop_states C0 H0 forget_bias n d hn0 hn hd0 hd
    obtain ⟨b1, b2⟩ := LSTMUnit.forward_at_cell exp N2 D t H_prev2 C_prev2 X2 seqLengths2
      drop_states C02 H02 forget_bias n d hn0 hn2 hd0 hd
    rw [a1, a2, b1, b2, ← hseq]
    exact ⟨(hfw d hd0 hd).2, (hfw d hd0 hd).1⟩
  · obtain ⟨a1, a2, -⟩ := LSTMUnitGradient.backward_at_cell exp N D t C_prev X seqLengths C H
      C_diff H_diff drop_states Hp0 Cp0 X0 forget_bias n d hn0 hn hd0 hd
    obtain ⟨b1, b2, -⟩ := LSTMUnitGradient.backward_at_cell exp N2 D t C_prev2 X2 seqLengths2
      C2 H2 C_diff2 H_diff2 drop_states Hp02 Cp02 X02 forget_bias n d hn0 hn2 hd0 hd
    rw [a1, a2, b1, b2, ← hseq, hbw d hd0 hd]
    exact ⟨rfl, rfl⟩
  · obtain ⟨d, hd0, hd, hcase⟩ := gate_decomp hj0 hj
    obtain ⟨-, -, a0, a1, a2, a3⟩ := LSTMUnitGradient.backward_at_cell exp N D t C_prev X
      seqLengths C H C_diff H_diff drop_states Hp0 Cp0 X0 forget_bias n d hn0 hn hd0 hd
    obtain ⟨-, -, b0, b1, b2, b3⟩ := LSTMUnitGradient.backward_at_cell exp N2 D t C_prev2 X2
      seqLengths2 C2 H2 C_diff2 H_diff2 drop_states Hp02 Cp02 X02 forget_bias n d hn0 hn2
      hd0 hd
    rw [← hseq, ← hbw d hd0 hd] at b0 b1 b2 b3
    rcases hcase with rfl | rfl | rfl | rfl
    · rw [a0, b0]
    · rw [← add_assoc, a1, b1]
    · rw [← add_assoc, a2, b2]
    · rw [← add_assoc, a3, b3]

/-- C20 at `D = 1`, `t = 0`, row `n = 0`, over the reals: a call with two rows and a call
with three rows that agree on row `0` (`seqLengths[0] = 1`, `H_prev[0] = 1`, `C_prev[0] = 3`,
gates `X[0..3] = 0`) and differ in every other row (sequence lengths, `H_prev`, `C_prev` and
gates) write the same `H[0]` and `C[0]`, and the two backward calls write the same
`C_prev_diff[0]` and `X_diff[2]`. -/
theorem row_independence_witness :
    (LSTMUnit Real.exp 2 1 0 (fun j => if j = 0 then 1 else 5)
        (fun j => if j = 0 then 3 else 6) (fun j => if j < 4 then 0 else 1)
        (fun j => if j = 0 then 1 else 0) false (fun _ => 0) (fun _ => 0) 0).H 0 =
      (LSTMUnit Real.exp 3 1 0 (fun j => if j = 0 then 1 else 8)
        (fun j => if j = 0 then 3 else 9) (fun j => if j < 4 then 0 else 2)
        (fun _ => 1) false (fun _ => 7) (fun _ => 7) 0).H 0 ∧
    (LSTMUnit Real.exp 2 1 0 (fun j => if j = 0 then 1 else 5)
        (fun j => if j = 0 then 3 else 6) (fun j => if j < 4 then 0 else 1)
        (fun j => if j = 0 then 1 else 0) false (fun _ => 0) (fun _ => 0) 0).C 0 =
      (LSTMUnit Real.exp 3 1 0 (fun j => if j = 0 then 1 else 8)
        (fun j => if j = 0 then 3 else 9) (fun j => if j < 4 then 0 else 2)
        (fun _ => 1) false (fun _ => 7) (fun _ => 7) 0).C 0 ∧
    (LSTMUnitGradient Real.exp 2 1 0 (fun j => if j = 0 then 3 else 6)
        (fun j => if j < 4 then 0 else 1) (fun j => if j = 0 then 1 else 0) (fun _ => 1)
        (fun _ => 0) (fun _ => 6) (fun _ => 4) false (fun _ => 0) (fun _ => 0) (fun _ => 0)
        0).C_prev_diff 0 =
      (LSTMUnitGradient Real.exp 3 1 0 (fun j => if j = 0 then 3 else 9)
        (fun j => if j < 4 then 0 else 2) (fun _ => 1) (fun _ => 1)
        (fun _ => 5) (fun _ => 6) (fun _ => 4) false (fun _ => 7) (fun _ => 7) (fun _ => 7)
        0).C_prev_diff 0 ∧
    (LSTMUnitGradient Real.exp 2 1 0 (fun j => if j = 0 then 3 else 6)
        (fun j => if j < 4 then 0 else 1) (fun j => if j = 0 then 1 else 0) (fun _ => 1)
        (fun _ => 0) (fun _ => 6) (fun _ => 4) false (fun _ => 0) (fun _ => 0) (fun _ => 0)
        0).X_diff 2 =
      (LSTMUnitGradient Real.exp 3 1 0 (fun j => if j = 0 then 3 else 9)
        (fun j => if j < 4 then 0 else 2) (fun _ => 1) (fun _ => 1)
        (fun _ => 5) (fun _ => 6) (fun _ => 4) false (fun _ => 7) (fun _ => 7) (fun _ => 7)
        0).X_diff 2 := by
  obtain ⟨h1, h2, h3⟩ := row_independence Real.exp 1 0 false 0 2 3
    (fun j => if j = 0 then 1 else 5) (fun j => if j = 0 then 1 else 8)
    (fun j => if j = 0 then 3 else 6) (fun j => if j = 0 then 3 else 9)
    (fun j => if j < 4 then 0 else 1) (fun j => if j < 4 then 0 else 2)
    (fun j => if j = 0 then 1 else 0) (fun _ => 1)
    (fun _ => 0) (fun _ => 0) (fun _ => 7) (fun _ => 7)
    (fun _ => 1) (fun _ => 1) (fun _ => 0) (fun _ => 5) (fun _ => 6) (fun _ => 6)
    (fun _ => 4) (fun _ => 4) (fun _ => 0) (fun _ => 0) (fun _ => 0) (fun _ => 7) (fun _ => 7)
    (fun _ => 7) 0 (by decide) (by decide) (by decide) (by simp)
    (fun d hd0 hd => by obtain rfl : d = 0 := by omega
                        simp)
    (fun d hd0 hd => by obtain rfl : d = 0 := by omega
                        simp)
    (fun j hj0 hj => by
      have hlt : (0 : Int) * (4 * 1) + j < 4 := by omega
      simp only [hlt, if_true])
    (fun _ _ _ => rfl) (fun _ _ _ => rfl) (fun _ _ _ => rfl)
  have a := h1 0 (by decide) (by decide)
  have b := h2 0 (by decide) (by decide)
  have c := h3 2 (by decide) (by decide)
  simp only [zero_mul, zero_add] at a b c
  exact ⟨a.1, a.2, b.2, c⟩

end Dependence

/-! ## Forward/backward consistency -/

section Consistency

variable [Field α]

/-- Where the buffer `C` holds `f * c_prev + i * g` for the cell at hand, one iteration of the
recomputing variant is one iteration of `LSTMUnitGradient`. -/
theorem LSTMUnitGradientRecompute.cell_eq_cell (exp : α → α) (D : Int)
    (valid drop_states : Bool) (C_prev X C C_diff H_diff : Int → α) (fb : α) (d : Int)
    (s : LSTMUnitGradientState α)
    (hc : valid = true → C (s.pC + d) =
      sigmoid exp (X (s.pX + (1 * D + d)) + fb) * C_prev (s.pC_prev + d)
        + sigmoid exp (X (s.pX + d)) * host_tanh exp (X (s.pX + (3 * D + d)))) :
    LSTMUnitGradientRecompute.cell exp D valid drop_states C_prev X C_diff H_diff fb d s =
      LSTMUnitGradient.cell exp D valid drop_states C_prev X C C_diff H_diff fb d s := by
  cases valid
  · simp [LSTMUnitGradientRecompute.cell, LSTMUnitGradient.cell]
  · simp only [LSTMUnitGradientRecompute.cell, LSTMUnitGradient.cell, hc rfl]

/-- The inner loops of the two backward kernels agree on a row whose cells of `C` hold
`f * c_prev + i * g`. -/
theorem LSTMUnitGradientRecompute.inner_eq (exp : α → α) (D : Int)
    (valid drop_states : Bool) (C_prev X C C_diff H_diff : Int → α) (fb : α)
    (s : LSTMUnitGradientState α) (k : Nat) (hk : k ≤ D.toNat)
    (hc : ∀ d : Int, 0 ≤ d → d < k → valid = true → C (s.pC + d) =
      sigmoid exp (X (s.pX + (1 * D + d)) + fb) * C_prev (s.pC_prev + d)
        + sigmoid exp (X (s.pX + d)) * host_tanh exp (X (s.pX + (3 * D + d)))) :
    forLoop (LSTMUnitGradientRecompute.cell exp D valid drop_states C_prev X C_diff H_diff fb)
        k s =
      forLoop (LSTMUnitGradient.cell exp D valid drop_states C_prev X C C_diff H_diff fb)
        k s := by
  induction k with
  | zero => rfl
  | succ k ih =>
    obtain ⟨hp, cp, x, hr, -⟩ := LSTMUnitGradient.backward_inner_spec exp D valid drop_states
      C_prev X C C_diff H_diff fb s k (by omega)
    simp only [forLoop]
    rw [ih (by omega) (fun d hd0 hd => hc d hd0 (by push_cast; omega))]
    apply LSTMUnitGradientRecompute.cell_eq_cell
    rw [hr]
    exact hc k (by omega) (by push_cast; omega)

/-- The row loops of the two backward kernels agree when `C` holds `f * c_prev + i * g` on
every cell of every valid row. -/
theorem LSTMUnitGradientRecompute.outer_eq (exp : α → α) (N D t : Int) (C_prev X : Int → α)
    (seqLengths : Int → Int) (C C_diff H_diff : Int → α) (drop_states : Bool)
    (Hp0 Cp0 X0 : Int → α) (fb : α)
    (hc : ∀ n d : Int, 0 ≤ n → n < N → 0 ≤ d → d < D → t < seqLengths n →
      C (n * D + d) = sigmoid exp (X (n * (4 * D) + (1 * D + d)) + fb) * C_prev (n * D + d)
        + sigmoid exp (X (n * (4 * D) + d)) * host_tanh exp (X (n * (4 * D) + (3 * D + d))))
    (k : Nat) (hk : k ≤ N.toNat) :
    forLoop (LSTMUnitGradientRecompute.row exp D t C_prev X seqLengths C_diff H_diff
        drop_states fb) k ⟨0, 0, 0, 0, 0, 0, 0, 0, 0, Hp0, Cp0, X0⟩ =
      forLoop (LSTMUnitGradient.row exp D t C_prev X seqLengths C C_diff H_diff drop_states fb)
        k ⟨0, 0, 0, 0, 0, 0, 0, 0, 0, Hp0, Cp0, X0⟩ := by
  induction k with
  | zero => rfl
  | succ k ih =>
    obtain ⟨hp, cp, x, hr, -⟩ := LSTMUnitGradient.backward_outer_spec exp D t C_prev X
      seqLengths C C_diff H_diff drop_states Hp0 Cp0 X0 fb k
    simp only [forLoop]
    rw [ih (by omega), hr]
    simp only [LSTMUnitGradientRecompute.row, LSTMUnitGradient.row]
    rw [LSTMUnitGradientRecompute.inner_eq exp D _ drop_states C_prev X C C_diff H_diff fb _
      D.toNat le_rfl
      (fun d hd0 hd hv => hc k d (by omega) (by omega) hd0 (by omega) (of_decide_eq_true hv))]

/-- C16. Forward/backward consistency: for every row `n` with `t < seqLengths[n]` and every
`d < D`, the activations `i`, `f`, `g` that `LSTMUnitGradient` recomputes from the gates and
`forget_bias` satisfy `f * C_prev[n*D+d] + i * g = C[n*D+d]` when `C` is the output of
`LSTMUnit` on the same `N`, `D`, `t`, `C_prev`, gates, `seqLengths` and `forget_bias`; and
`LSTMUnitGradient` fed that forward output `C` returns the same three output buffers as the
variant `LSTMUnitGradientRecompute` that recomputes `c = f * C_prev + i * g` instead of
reading `C`. -/
theorem forward_backward_consistency (exp : α → α) (N D t : Int) (H_prev C_prev X : Int → α)
    (seqLengths : Int → Int) (drop_fwd drop_states : Bool) (C0 H0 H C_diff H_diff : Int → α)
    (Hp0 Cp0 X0 : Int → α) (forget_bias : α) :
    (∀ n d : Int, 0 ≤ n → n < N → 0 ≤ d → d < D → t < seqLengths n →
      sigmoid exp (X (n * (4 * D) + D + d) + forget_bias) * C_prev (n * D + d)
          + sigmoid exp (X (n * (4 * D) + d)) * host_tanh exp (X (n * (4 * D) + 3 * D + d)) =
        (LSTMUnit exp N D t H_prev C_prev X seqLengths drop_fwd C0 H0 forget_bias).C
          (n * D + d)) ∧
    (LSTMUnitGradient exp N D t C_prev X seqLengths
        (LSTMUnit exp N D t H_prev C_prev X seqLengths drop_fwd C0 H0 forget_bias).C H
        C_diff H_diff drop_states Hp0 Cp0 X0 forget_bias).H_prev_diff =
      (LSTMUnitGradientRecompute exp N D t C_prev X seqLengths C_diff H_diff drop_states
        Hp0 Cp0 X0 forget_bias).H_prev_diff ∧
    (LSTMUnitGradient exp N D t C_prev X seqLengths
        (LSTMUnit exp N D t H_prev C_prev X seqLengths drop_fwd C0 H0 forget_bias).C H
        C_diff H_diff drop_states Hp0 Cp0 X0 forget_bias).C_prev_diff =
      (LSTMUnitGradientRecompute exp N D t C_prev X seqLengths C_diff H_diff drop_states
        Hp0 Cp0 X0 forget_bias).C_prev_diff ∧
    (LSTMUnitGradient exp N D t C_prev X seqLengths
        (LSTMUnit exp N D t H_prev C_prev X seqLengths drop_fwd C0 H0 forget_bias).C H
        C_diff H_diff drop_states Hp0 Cp0 X0 forget_bias).X_diff =
      (LSTMUnitGradientRecompute exp N D t C_prev X seqLengths C_diff H_diff drop_states
        Hp0 Cp0 X0 forget_bias).X_diff := by
  have hc : ∀ n d : Int, 0 ≤ n → n < N → 0 ≤ d → d < D → t < seqLengths n →
      (LSTMUnit exp N D t H_prev C_prev X seqLengths drop_fwd C0 H0 forget_bias).C
          (n * D + d) =
        sigmoid exp (X (n * (4 * D) + (1 * D + d)) + forget_bias) * C_prev (n * D + d)
          + sigmoid exp (X (n * (4 * D) + d))
            * host_tanh exp (X (n * (4 * D) + (3 * D + d))) := by
    intro n d hn0 hn hd0 hd hv
    rw [(LSTMUnit.forward_at_cell exp N D t H_prev C_prev X seqLengths drop_fwd C0 H0
      forget_bias n d hn0 hn hd0 hd).1]
    simp only [hv, decide_True, LSTMUnit.cOut_valid]
  have heq := LSTMUnitGradientRecompute.outer_eq exp N D t C_prev X seqLengths
    (LSTMUnit exp N D t H_prev C_prev X seqLengths drop_fwd C0 H0 forget_bias).C
    C_diff H_diff drop_states Hp0 Cp0 X0 forget_bias hc N.toNat le_rfl
  refine ⟨fun n d hn0 hn hd0 hd hv => ?_, ?_, ?_, ?_⟩
  · rw [hc n d hn0 hn hd0 hd hv]
    simp only [one_mul, add_assoc]
  · simp only [LSTMUnitGradient, LSTMUnitGradientRecompute, heq]
  · simp only [LSTMUnitGradient, LSTMUnitGradientRecompute, heq]
  · simp only [LSTMUnitGradient, LSTMUnitGradientRecompute, heq]

/-- C16 at `N = 1`, `D = 1`, `t = 0`, `seqLengths = [1]`, all gates `0`, `C_prev = [2]`,
`forget_bias = 0`, over the reals: `f * C_prev + i * g = 1/2 * 2 + 1/2 * 0 = 1` is the
forward output `C[0]`, and `LSTMUnitGradient` on that `C` and the recomputing variant store
the same `C_prev_diff[0]`. -/
theorem forward_backward_consistency_witness :
    (LSTMUnit Real.exp 1 1 0 (fun _ => 5) (fun _ => 2) (fun _ => 0) (fun _ => 1) false
      (fun _ => 0) (fun _ => 0) 0).C 0 = 1 ∧
    (LSTMUnitGradient Real.exp 1 1 0 (fun _ => 2) (fun _ => 0) (fun _ => 1)
        (LSTMUnit Real.exp 1 1 0 (fun _ => 5) (fun _ => 2) (fun _ => 0) (fun _ => 1) false
          (fun _ => 0) (fun _ => 0) 0).C (fun _ => 0)
        (fun _ => 6) (fun _ => 4) false (fun _ => 9) (fun _ => 9) (fun _ => 9)
        0).C_prev_diff 0 =
      (LSTMUnitGradientRecompute Real.exp 1 1 0 (fun _ => 2) (fun _ => 0) (fun _ => 1)
        (fun _ => 6) (fun _ => 4) false (fun _ => 9) (fun _ => 9) (fun _ => 9)
        0).C_prev_diff 0 := by
  obtain ⟨h1, -, h3, -⟩ := forward_backward_consistency Real.exp 1 1 0 (fun _ => 5)
    (fun _ => 2) (fun _ => 0) (fun _ => 1) false false (fun _ => 0) (fun _ => 0) (fun _ => 0)
    (fun _ => 6) (fun _ => 4) (fun _ => 9) (fun _ => 9) (fun _ => 9) 0
  have h := h1 0 0 (by decide) (by decide) (by decide) (by decide) (by decide)
  have hs : sigmoid Real.exp 0 = 1 / 2 := by
    simp only [sigmoid, neg_zero, Real.exp_zero]; norm_num
  have ht : host_tanh Real.exp 0 = 0 := by
    simp only [host_tanh, mul_zero, hs]; norm_num
  simp only [zero_mul, zero_add, add_zero, hs, ht, mul_zero] at h
  refine ⟨?_, by rw [h3]⟩
  rw [← h]
  norm_num

end Consistency

/-! ## The validity decision of the two kernels -/

section Validity

end Validity


/-! ## Which elements the kernels write -/

section Frame

variable [Field α]

/-- An element of `C` or `H` that is not the address of a cell is left as it was. -/
theorem LSTMUnit.forward_frame (exp : α → α) (N D t : Int) (H_prev C_prev X : Int → α)
    (seqLengths : Int → Int) (drop_states : Bool) (C0 H0 : Int → α) (fb : α) (j : Int)
    (hj : ∀ n d : Int, 0 ≤ n → n < N → 0 ≤ d → d < D → j ≠ n * D + d) :
    (LSTMUnit exp N D t H_prev C_prev X seqLengths drop_states C0 H0 fb).C j = C0 j ∧
    (LSTMUnit exp N D t H_prev C_prev X seqLengths drop_states C0 H0 fb).H j = H0 j :=
  (LSTMUnit.forward_outer_spec exp D t H_prev C_prev X seqLengths drop_states C0 H0 fb
    N.toNat).2.2.2.2.2.2 j (fun n d hn0 hn hd0 hd => hj n d hn0 (by omega) hd0 hd)

/-- Elements of the three gradient buffers that are not addresses of a cell are left as they
were. -/
theorem LSTMUnitGradient.backward_frame (exp : α → α) (N D t : Int) (C_prev X : Int → α)
    (seqLengths : Int → Int) (C H C_diff H_diff : Int → α) (drop_states : Bool)
    (Hp0 Cp0 X0 : Int → α) (fb : α) :
    (∀ j : Int, (∀ n d : Int, 0 ≤ n → n < N → 0 ≤ d → d < D → j ≠ n * D + d) →
      (LSTMUnitGradient exp N D t C_prev X seqLengths C H C_diff H_diff drop_states Hp0 Cp0 X0
        fb).H_prev_diff j = Hp0 j ∧
      (LSTMUnitGradient exp N D t C_prev X seqLengths C H C_diff H_diff drop_states Hp0 Cp0 X0
        fb).C_prev_diff j = Cp0 j) ∧
    (∀ j : Int, (∀ n d : Int, 0 ≤ n → n < N → 0 ≤ d → d < D →
        j ≠ n * (4 * D) + d ∧ j ≠ n * (4 * D) + 1 * D + d ∧
        j ≠ n * (4 * D) + 2 * D + d ∧ j ≠ n * (4 * D) + 3 * D + d) →
      (LSTMUnitGradient exp N D t C_prev X seqLengths C H C_diff H_diff drop_states Hp0 Cp0 X0
        fb).X_diff j = X0 j) := by
  obtain ⟨hp, cp, x, hr, -, hfr, hfrx⟩ := LSTMUnitGradient.backward_outer_spec exp D t C_prev X
    seqLengths C C_diff H_diff drop_states Hp0 Cp0 X0 fb N.toNat
  simp only [LSTMUnitGradient, hr]
  exact ⟨fun j hj => hfr j (fun n d hn0 hn hd0 hd => hj n d hn0 (by omega) hd0 hd),
    fun j hj => hfrx j (fun n d hn0 hn hd0 hd => hj n d hn0 (by omega) hd0 hd)⟩

/-- Two calls of `LSTMUnit` on the same `N`, `D` and the same prior output contents that
agree on every cell return equal buffers. -/
theorem LSTMUnit.forward_buffers_eq_of_cells (exp : α → α) (N D t t2 : Int)
    (H_prev C_prev X H_prev2 C_prev2 X2 : Int → α) (seqLengths seqLengths2 : Int → Int)
    (drop_states drop_states2 : Bool) (C0 H0 : Int → α) (fb fb2 : α)
    (h : ∀ n d : Int, 0 ≤ n → n < N → 0 ≤ d → d < D →
      (LSTMUnit exp N D t H_prev C_prev X seqLengths drop_states C0 H0 fb).C (n * D + d) =
        (LSTMUnit exp N D t2 H_prev2 C_prev2 X2 seqLengths2 drop_states2 C0 H0 fb2).C
          (n * D + d) ∧
      (LSTMUnit exp N D t H_prev C_prev X seqLengths drop_states C0 H0 fb).H (n * D + d) =
        (LSTMUnit exp N D t2 H_prev2 C_prev2 X2 seqLengths2 drop_states2 C0 H0 fb2).H
          (n * D + d)) :
    (LSTMUnit exp N D t H_prev C_prev X seqLengths drop_states C0 H0 fb).C =
      (LSTMUnit exp N D t2 H_prev2 C_prev2 X2 seqLengths2 drop_states2 C0 H0 fb2).C ∧
    (LSTMUnit exp N D t H_prev C_prev X seqLengths drop_states C0 H0 fb).H =
      (LSTMUnit exp N D t2 H_prev2 C_prev2 X2 seqLengths2 drop_states2 C0 H0 fb2).H := by
  have key : ∀ j : Int,
      (LSTMUnit exp N D t H_prev C_prev X seqLengths drop_states C0 H0 fb).C j =
        (LSTMUnit exp N D t2 H_prev2 C_prev2 X2 seqLengths2 drop_states2 C0 H0 fb2).C j ∧
      (LSTMUnit exp N D t H_prev C_prev X seqLengths drop_states C0 H0 fb).H j =
        (LSTMUnit exp N D t2 H_prev2 C_prev2 X2 seqLengths2 drop_states2 C0 H0 fb2).H j := by
    intro j
    by_cases hj : ∃ n d : Int, 0 ≤ n ∧ n < N ∧ 0 ≤ d ∧ d < D ∧ j = n * D + d
    · obtain ⟨n, d, hn0, hn, hd0, hd, rfl⟩ := hj
      exact h n d hn0 hn hd0 hd
    · have hj' : ∀ n d : Int, 0 ≤ n → n < N → 0 ≤ d → d < D → j ≠ n * D + d :=
        fun n d hn0 hn hd0 hd he => hj ⟨n, d, hn0, hn, hd0, hd, he⟩
      obtain ⟨a1, a2⟩ := LSTMUnit.forward_frame exp N D t H_prev C_prev X seqLengths
        drop_states C0 H0 fb j hj'
      obtain ⟨b1, b2⟩ := LSTMUnit.forward_frame exp N D t2 H_prev2 C_prev2 X2 seqLengths2
        drop_states2 C0 H0 fb2 j hj'
      exact ⟨a1.trans b1.symm, a2.trans b2.symm⟩
  exact ⟨funext fun j => (key j).1, funext fun j => (key j).2⟩

/-- Two calls of `LSTMUnitGradient` on the same `N`, `D` and the same prior output contents
that agree on every cell return equal buffers. -/
theorem LSTMUnitGradient.backward_buffers_eq_of_cells (exp : α → α) (N D t t2 : Int)
    (C_prev X C_prev2 X2 : Int → α) (seqLengths seqLengths2 : Int → Int)
    (C H C_diff H_diff C2 H2 C_diff2 H_diff2 : Int → α) (drop_states drop_states2 : Bool)
    (Hp0 Cp0 X0 : Int → α) (fb fb2 : α)
    (h : ∀ n d : Int, 0 ≤ n → n < N → 0 ≤ d → d < D →
      LSTMUnitGradient.vals exp D (decide (t < seqLengths n)) drop_states C_prev X C C_diff
          H_diff fb (n * D) (n * (4 * D)) (n * D) (n * D) (n * D) d =
        LSTMUnitGradient.vals exp D (decide (t2 < seqLengths2 n)) drop_states2 C_prev2 X2 C2
          C_diff2 H_diff2 fb2 (n * D) (n * (4 * D)) (n * D) (n * D) (n * D) d) :
    (LSTMUnitGradient exp N D t C_prev X seqLengths C H C_diff H_diff drop_states Hp0 Cp0 X0
        fb).H_prev_diff =
      (LSTMUnitGradient exp N D t2 C_prev2 X2 seqLengths2 C2 H2 C_diff2 H_diff2 drop_states2
        Hp0 Cp0 X0 fb2).H_prev_diff ∧
    (LSTMUnitGradient exp N D t C_prev X seqLengths C H C_diff H_diff drop_states Hp0 Cp0 X0
        fb).C_prev_diff =
      (LSTMUnitGradient exp N D t2 C_prev2 X2 seqLengths2 C2 H2 C_diff2 H_diff2 drop_states2
        Hp0 Cp0 X0 fb2).C_prev_diff ∧
    (LSTMUnitGradient exp N D t C_prev X seqLengths C H C_diff H_diff drop_states Hp0 Cp0 X0
        fb).X_diff =
      (LSTMUnitGradient exp N D t2 C_prev2 X2 seqLengths2 C2 H2 C_diff2 H_diff2 drop_states2
        Hp0 Cp0 X0 fb2).X_diff := by
  obtain ⟨f1, fx1⟩ := LSTMUnitGradient.backward_frame exp N D t C_prev X seqLengths C H C_diff
    H_diff drop_states Hp0 Cp0 X0 fb
  obtain ⟨f2, fx2⟩ := LSTMUnitGradient.backward_frame exp N D t2 C_prev2 X2 seqLengths2 C2 H2
    C_diff2 H_diff2 drop_states2 Hp0 Cp0 X0 fb2
  have cell : ∀ n d : Int, 0 ≤ n → n < N → 0 ≤ d → d < D → _ :=
    fun n d hn0 hn hd0 hd =>
      And.intro
        (LSTMUnitGradient.backward_at_cell exp N D t C_prev X seqLengths C H C_diff H_diff
          drop_states Hp0 Cp0 X0 fb n d hn0 hn hd0 hd)
        (LSTMUnitGradient.backward_at_cell exp N D t2 C_prev2 X2 seqLengths2 C2 H2 C_diff2
          H_diff2 drop_states2 Hp0 Cp0 X0 fb2 n d hn0 hn hd0 hd)
  have keyS : ∀ j : Int,
      (LSTMUnitGradient exp N D t C_prev X seqLengths C H C_diff H_diff drop_states Hp0 Cp0 X0
          fb).H_prev_diff j =
        (LSTMUnitGradient exp N D t2 C_prev2 X2 seqLengths2 C2 H2 C_diff2 H_diff2 drop_states2
          Hp0 Cp0 X0 fb2).H_prev_diff j ∧
      (LSTMUnitGradient exp N D t C_prev X seqLengths C H C_diff H_diff drop_states Hp0 Cp0 X0
          fb).C_prev_diff j =
        (LSTMUnitGradient exp N D t2 C_prev2 X2 seqLengths2 C2 H2 C_diff2 H_diff2 drop_states2
          Hp0 Cp0 X0 fb2).C_prev_diff j := by
    intro j
    by_cases hj : ∃ n d : Int, 0 ≤ n ∧ n < N ∧ 0 ≤ d ∧ d < D ∧ j = n * D + d
    · obtain ⟨n, d, hn0, hn, hd0, hd, rfl⟩ := hj
      obtain ⟨⟨a0, a1, -⟩, ⟨b0, b1, -⟩⟩ := cell n d hn0 hn hd0 hd
      rw [a0, a1, b0, b1, h n d hn0 hn hd0 hd]
      exact ⟨rfl, rfl⟩
    · have hj' : ∀ n d : Int, 0 ≤ n → n < N → 0 ≤ d → d < D → j ≠ n * D + d :=
        fun n d hn0 hn hd0 hd he => hj ⟨n, d, hn0, hn, hd0, hd, he⟩
      obtain ⟨a1, a2⟩ := f1 j hj'
      obtain ⟨b1, b2⟩ := f2 j hj'
      exact ⟨a1.trans b1.symm, a2.trans b2.symm⟩
  have keyX : ∀ j : Int,
      (LSTMUnitGradient exp N D t C_prev X seqLengths C H C_diff H_diff drop_states Hp0 Cp0 X0
          fb).X_diff j =
        (LSTMUnitGradient exp N D t2 C_prev2 X2 seqLengths2 C2 H2 C_diff2 H_diff2 drop_states2
          Hp0 Cp0 X0 fb2).X_diff j := by
    intro j
    by_cases hj : ∃ n d : Int, 0 ≤ n ∧ n < N ∧ 0 ≤ d ∧ d < D ∧
        (j = n * (4 * D) + d ∨ j = n * (4 * D) + 1 * D + d ∨
          j = n * (4 * D) + 2 * D + d ∨ j = n * (4 * D) + 3 * D + d)
    · obtain ⟨n, d, hn0, hn, hd0, hd, hcase⟩ := hj
      obtain ⟨⟨-, -, a0, a1, a2, a3⟩, ⟨-, -, b0, b1, b2, b3⟩⟩ := cell n d hn0 hn hd0 hd
      rw [← h n d hn0 hn hd0 hd] at b0 b1 b2 b3
      rcases hcase with rfl | rfl | rfl | rfl
      · rw [a0, b0]
      · rw [a1, b1]
      · rw [a2, b2]
      · rw [a3, b3]
    · have hj' : ∀ n d : Int, 0 ≤ n → n < N → 0 ≤ d → d < D →
          j ≠ n * (4 * D) + d ∧ j ≠ n * (4 * D) + 1 * D + d ∧
          j ≠ n * (4 * D) + 2 * D + d ∧ j ≠ n * (4 * D) + 3 * D + d :=
        fun n d hn0 hn hd0 hd =>
          ⟨fun he => hj ⟨n, d, hn0, hn, hd0, hd, Or.inl he⟩,
            fun he => hj ⟨n, d, hn0, hn, hd0, hd, Or.inr (Or.inl he)⟩,
            fun he => hj ⟨n, d, hn0, hn, hd0, hd, Or.inr (Or.inr (Or.inl he))⟩,
            fun he => hj ⟨n, d, hn0, hn, hd0, hd, Or.inr (Or.inr (Or.inr he))⟩⟩
      exact (fx1 j hj').trans (fx2 j hj').symm
  exact ⟨funext fun j => (keyS j).1, funext fun j => (keyS j).2, funext keyX⟩

/-- C25. Outputs are fully and only written.  `N` and `D` are sizes, hence non-negative
(the first part below needs only that they are not both negative, in which case the cells
`n*D+d` with `n < N`, `d < D` fill exactly `[0, N*D)`).  `LSTMUnit` assigns every index in
`[0, N*D)` of `H` and of `C` (the value there does not depend on the prior contents of the
output buffers) and no index outside that range (the prior content stays);
`LSTMUnitGradient` assigns every index in `[0, N*D)` of `H_prev_diff` and `C_prev_diff` and
every index in `[0, N*4D)` of `X_diff` and no index outside; with `N ≤ 0` or `D ≤ 0`
nothing is written. -/
theorem outputs_fully_and_only_written (exp : α → α) (N D t : Int) (H_prev C_prev X : Int → α)
    (seqLengths : Int → Int) (drop_states : Bool) (C H C_diff H_diff : Int → α)
    (C0 H0 C0b H0b Hp0 Cp0 X0 Hp0b Cp0b X0b : Int → α) (forget_bias : α) :
    ((0 ≤ N ∨ 0 ≤ D) →
      (∀ j : Int, 0 ≤ j → j < N * D →
        (LSTMUnit exp N D t H_prev C_prev X seqLengths drop_states C0 H0 forget_bias).C j =
          (LSTMUnit exp N D t H_prev C_prev X seqLengths drop_states C0b H0b forget_bias).C j ∧
        (LSTMUnit exp N D t H_prev C_prev X seqLengths drop_states C0 H0 forget_bias).H j =
          (LSTMUnit exp N D t H_prev C_prev X seqLengths drop_states C0b H0b forget_bias).H j ∧
        (LSTMUnitGradient exp N D t C_prev X seqLengths C H C_diff H_diff drop_states Hp0 Cp0
            X0 forget_bias).H_prev_diff j =
          (LSTMUnitGradient exp N D t C_prev X seqLengths C H C_diff H_diff drop_states Hp0b
            Cp0b X0b forget_bias).H_prev_diff j ∧
        (LSTMUnitGradient exp N D t C_prev X seqLengths C H C_diff H_diff drop_states Hp0 Cp0
            X0 forget_bias).C_prev_diff j =
          (LSTMUnitGradient exp N D t C_prev X seqLengths C H C_diff H_diff drop_states Hp0b
            Cp0b X0b forget_bias).C_prev_diff j) ∧
      (∀ j : Int, 0 ≤ j → j < N * (4 * D) →
        (LSTMUnitGradient exp N D t C_prev X seqLengths C H C_diff H_diff drop_states Hp0 Cp0
            X0 forget_bias).X_diff j =
          (LSTMUnitGradient exp N D t C_prev X seqLengths C H C_diff H_diff drop_states Hp0b
            Cp0b X0b forget_bias).X_diff j)) ∧
    (∀ j : Int, (j < 0 ∨ N * D ≤ j) →
      (LSTMUnit exp N D t H_prev C_prev X seqLengths drop_states C0 H0 forget_bias).C j = C0 j ∧
      (LSTMUnit exp N D t H_prev C_prev X seqLengths drop_states C0 H0 forget_bias).H j = H0 j ∧
      (LSTMUnitGradient exp N D t C_prev X seqLengths C H C_diff H_diff drop_states Hp0 Cp0 X0
        forget_bias).H_prev_diff j = Hp0 j ∧
      (LSTMUnitGradient exp N D t C_prev X seqLengths C H C_diff H_diff drop_states Hp0 Cp0 X0
        forget_bias).C_prev_diff j = Cp0 j) ∧
    (∀ j : Int, (j < 0 ∨ N * (4 * D) ≤ j) →
      (LSTMUnitGradient exp N D t C_prev X seqLengths C H C_diff H_diff drop_states Hp0 Cp0 X0
        forget_bias).X_diff j = X0 j) ∧
    ((N ≤ 0 ∨ D ≤ 0) →
      (LSTMUnit exp N D t H_prev C_prev X seqLengths drop_states C0 H0 forget_bias).C = C0 ∧
      (LSTMUnit exp N D t H_prev C_prev X seqLengths drop_states C0 H0 forget_bias).H = H0 ∧
      (LSTMUnitGradient exp N D t C_prev X seqLengths C H C_diff H_diff drop_states Hp0 Cp0 X0
        forget_bias).H_prev_diff = Hp0 ∧
      (LSTMUnitGradient exp N D t C_prev X seqLengths C H C_diff H_diff drop_states Hp0 Cp0 X0
        forget_bias).C_prev_diff = Cp0 ∧
      (LSTMUnitGradient exp N D t C_prev X seqLengths C H C_diff H_diff drop_states Hp0 Cp0 X0
        forget_bias).X_diff = X0) := by
  obtain ⟨fS, fX⟩ := LSTMUnitGradient.backward_frame exp N D t C_prev X seqLengths C H C_diff
    H_diff drop_states Hp0 Cp0 X0 forget_bias
  have gateOut : ∀ j : Int, (j < 0 ∨ N * (4 * D) ≤ j) →
      ∀ n d : Int, 0 ≤ n → n < N → 0 ≤ d → d < D →
        j ≠ n * (4 * D) + d ∧ j ≠ n * (4 * D) + 1 * D + d ∧
        j ≠ n * (4 * D) + 2 * D + d ∧ j ≠ n * (4 * D) + 3 * D + d := by
    intro j hj n d hn0 hn hd0 hd
    have q0 := index_not_cell (D := 4 * D) hj n d hn0 hn hd0 (by omega)
    have q1 := index_not_cell (D := 4 * D) hj n (1 * D + d) hn0 hn (by omega) (by omega)
    have q2 := index_not_cell (D := 4 * D) hj n (2 * D + d) hn0 hn (by omega) (by omega)
    have q3 := index_not_cell (D := 4 * D) hj n (3 * D + d) hn0 hn (by omega) (by omega)
    exact ⟨q0, by omega, by omega, by omega⟩
  refine ⟨fun hND => ⟨fun j hj0 hj => ?_, fun j hj0 hj => ?_⟩, fun j hj => ?_, fun j hj => ?_,
    fun hempty => ?_⟩
  · obtain ⟨n, d, hn0, hn, hd0, hd, rfl⟩ := cell_of_index hND hj0 hj
    obtain ⟨a1, a2⟩ := LSTMUnit.forward_at_cell exp N D t H_prev C_prev X seqLengths
      drop_states C0 H0 forget_bias n d hn0 hn hd0 hd
    obtain ⟨b1, b2⟩ := LSTMUnit.forward_at_cell exp N D t H_prev C_prev X seqLengths
      drop_states C0b H0b forget_bias n d hn0 hn hd0 hd
    obtain ⟨c1, c2, -⟩ := LSTMUnitGradient.backward_at_cell exp N D t C_prev X seqLengths C H
      C_diff H_diff drop_states Hp0 Cp0 X0 forget_bias n d hn0 hn hd0 hd
    obtain ⟨e1, e2, -⟩ := LSTMUnitGradient.backward_at_cell exp N D t C_prev X seqLengths C H
      C_diff H_diff drop_states Hp0b Cp0b X0b forget_bias n d hn0 hn hd0 hd
    exact ⟨a1.trans b1.symm, a2.trans b2.symm, c1.trans e1.symm, c2.trans e2.symm⟩
  · obtain ⟨n, e, hn0, hn, he0, he, rfl⟩ :=
      cell_of_index (D := 4 * D) (by omega) hj0 hj
    obtain ⟨d, hd0, hd, hcase⟩ := gate_decomp he0 he
    obtain ⟨-, -, a0, a1, a2, a3⟩ := LSTMUnitGradient.backward_at_cell exp N D t C_prev X
      seqLengths C H C_diff H_diff drop_states Hp0 Cp0 X0 forget_bias n d hn0 hn hd0 hd
    obtain ⟨-, -, b0, b1, b2, b3⟩ := LSTMUnitGradient.backward_at_cell exp N D t C_prev X
      seqLengths C H C_diff H_diff drop_states Hp0b Cp0b X0b forget_bias n d hn0 hn hd0 hd
    rcases hcase with rfl | rfl | rfl | rfl
    · exact a0.trans b0.symm
    · rw [← add_assoc]; exact a1.trans b1.symm
    · rw [← add_assoc]; exact a2.trans b2.symm
    · rw [← add_assoc]; exact a3.trans b3.symm
  · obtain ⟨a1, a2⟩ := LSTMUnit.forward_frame exp N D t H_prev C_prev X seqLengths drop_states
      C0 H0 forget_bias j (index_not_cell hj)
    obtain ⟨b1, b2⟩ := fS j (index_not_cell hj)
    exact ⟨a1, a2, b1, b2⟩
  · exact fX j (gateOut j hj)
  · have nocell : ∀ n d : Int, 0 ≤ n → n < N → 0 ≤ d → d < D → False := by
      intro n d hn0 hn hd0 hd
      omega
    refine ⟨funext fun j => ?_, funext fun j => ?_, funext fun j => ?_, funext fun j => ?_,
      funext fun j => ?_⟩
    · exact (LSTMUnit.forward_frame exp N D t H_prev C_prev X seqLengths drop_states
        C0 H0 forget_bias j (fun n d hn0 hn hd0 hd => (nocell n d hn0 hn hd0 hd).elim)).1
    · exact (LSTMUnit.forward_frame exp N D t H_prev C_prev X seqLengths drop_states
        C0 H0 forget_bias j (fun n d hn0 hn hd0 hd => (nocell n d hn0 hn hd0 hd).elim)).2
    · exact (fS j (fun n d hn0 hn hd0 hd => (nocell n d hn0 hn hd0 hd).elim)).1
    · exact (fS j (fun n d hn0 hn hd0 hd => (nocell n d hn0 hn hd0 hd).elim)).2
    · exact fX j (fun n d hn0 hn hd0 hd => (nocell n d hn0 hn hd0 hd).elim)

/-- C25 at `N = 1`, `D = 2`, `t = 3`, `seqLengths = [2]`, `C_prev = [3, 4]`,
carry policy: index `1` lies in `[0, 2)` and holds `C_prev[1] = 4` whether `C` held `7` or `8`
before the call; index `2` lies outside and keeps its prior content `7`. -/
theorem outputs_fully_and_only_written_witness :
    (LSTMUnit (fun _ => (1 : ℚ)) 1 2 3 (fun j => if j = 0 then 1 else 2)
        (fun j => if j = 0 then 3 else 4) (fun j => 10 + j) (fun _ => 2) false (fun _ => 7)
        (fun _ => 7) 0).C 1 =
      (LSTMUnit (fun _ => (1 : ℚ)) 1 2 3 (fun j => if j = 0 then 1 else 2)
        (fun j => if j = 0 then 3 else 4) (fun j => 10 + j) (fun _ => 2) false (fun _ => 8)
        (fun _ => 8) 0).C 1 ∧
    (LSTMUnit (fun _ => (1 : ℚ)) 1 2 3 (fun j => if j = 0 then 1 else 2)
        (fun j => if j = 0 then 3 else 4) (fun j => 10 + j) (fun _ => 2) false (fun _ => 7)
        (fun _ => 7) 0).C 2 = 7 := by
  obtain ⟨h1, h2, -⟩ := outputs_fully_and_only_written (fun _ => (1 : ℚ)) 1 2 3
    (fun j => if j = 0 then 1 else 2) (fun j => if j = 0 then 3 else 4) (fun j => 10 + j)
    (fun _ => 2) false (fun _ => 0) (fun _ => 0) (fun _ => 0) (fun _ => 0)
    (fun _ => 7) (fun _ => 7) (fun _ => 8) (fun _ => 8) (fun _ => 0) (fun _ => 0) (fun _ => 0)
    (fun _ => 0) (fun _ => 0) (fun _ => 0) 0
  exact ⟨((h1 (Or.inl (by decide))).1 1 (by decide) (by decide)).1,
    (h2 2 (Or.inr (by decide))).1⟩

end Frame

/-! ## Bounds, linearity and the two configuration values -/

section Behaviour

/-- Over the reals `sigmoid` takes values strictly between `0` and `1`. -/
theorem sigmoid_bounds (x : ℝ) : 0 < sigmoid Real.exp x ∧ sigmoid Real.exp x < 1 := by
  have he : 0 < Real.exp (-x) := Real.exp_pos _
  have hpos : (0 : ℝ) < 1 + Real.exp (-x) := by linarith
  refine ⟨by simp only [sigmoid]; positivity, ?_⟩
  simp only [sigmoid]
  rw [div_lt_one hpos]
  linarith

/-- Over the reals `host_tanh` takes values strictly between `-1` and `1`. -/
theorem host_tanh_bounds (x : ℝ) : -1 < host_tanh Real.exp x ∧ host_tanh Real.exp x < 1 := by
  obtain ⟨h0, h1⟩ := sigmoid_bounds (2 * x)
  simp only [host_tanh]
  exact ⟨by linarith, by linarith⟩

/-- C27. Hidden state is bounded on valid rows: over the reals, for every input and every row
`n` with `t < seqLengths[n]` and every `d < D`, the forward output satisfies
`-1 < H[n*D+d] < 1` and the new cell state satisfies `|C[n*D+d]| < |C_prev[n*D+d]| + 1`. -/
theorem LSTMUnit_valid_bounds (N D t : Int) (H_prev C_prev X : Int → ℝ)
    (seqLengths : Int → Int) (drop_states : Bool) (C0 H0 : Int → ℝ) (forget_bias : ℝ)
    (n d : Int) (hn0 : 0 ≤ n) (hn : n < N) (hd0 : 0 ≤ d) (hd : d < D)
    (hvalid : t < seqLengths n) :
    -1 < (LSTMUnit Real.exp N D t H_prev C_prev X seqLengths drop_states C0 H0 forget_bias).H
        (n * D + d) ∧
    (LSTMUnit Real.exp N D t H_prev C_prev X seqLengths drop_states C0 H0 forget_bias).H
        (n * D + d) < 1 ∧
    |(LSTMUnit Real.exp N D t H_prev C_prev X seqLengths drop_states C0 H0 forget_bias).C
        (n * D + d)| < |C_prev (n * D + d)| + 1 := by
  obtain ⟨hC, hH⟩ := LSTMUnit.forward_at_cell Real.exp N D t H_prev C_prev X seqLengths
    drop_states C0 H0 forget_bias n d hn0 hn hd0 hd
  rw [hC, hH]
  simp only [hvalid, decide_True, LSTMUnit.hOut_valid, LSTMUnit.cOut_valid]
  obtain ⟨i0, i1⟩ := sigmoid_bounds (X (n * (4 * D) + d))
  obtain ⟨f0, f1⟩ := sigmoid_bounds (X (n * (4 * D) + (1 * D + d)) + forget_bias)
  obtain ⟨o0, o1⟩ := sigmoid_bounds (X (n * (4 * D) + (2 * D + d)))
  obtain ⟨g0, g1⟩ := host_tanh_bounds (X (n * (4 * D) + (3 * D + d)))
  obtain ⟨c0, c1⟩ := host_tanh_bounds
    (sigmoid Real.exp (X (n * (4 * D) + (1 * D + d)) + forget_bias) * C_prev (n * D + d)
      + sigmoid Real.exp (X (n * (4 * D) + d))
        * host_tanh Real.exp (X (n * (4 * D) + (3 * D + d))))
  have ha := abs_nonneg (C_prev (n * D + d))
  have hle := le_abs_self (C_prev (n * D + d))
  have hge := neg_abs_le (C_prev (n * D + d))
  refine ⟨by nlinarith, by nlinarith, ?_⟩
  rw [abs_lt]
  constructor <;> nlinarith

/-- C27 at `N = 1`, `D = 1`, `t = 0`, `seqLengths = [1]`, gates `X[j] = j`, `C_prev = [2]`,
`forget_bias = 1`: the hidden value lies strictly between `-1` and `1`, and the cell value is
below `|2| + 1` in absolute value. -/
theorem LSTMUnit_valid_bounds_witness :
    -1 < (LSTMUnit Real.exp 1 1 0 (fun _ => 5) (fun _ => 2) (fun j => j) (fun _ => 1) false
        (fun _ => 0) (fun _ => 0) 1).H 0 ∧
    (LSTMUnit Real.exp 1 1 0 (fun _ => 5) (fun _ => 2) (fun j => j) (fun _ => 1) false
        (fun _ => 0) (fun _ => 0) 1).H 0 < 1 ∧
    |(LSTMUnit Real.exp 1 1 0 (fun _ => 5) (fun _ => 2) (fun j => j) (fun _ => 1) false
        (fun _ => 0) (fun _ => 0) 1).C 0| < |(2 : ℝ)| + 1 := by
  have h := LSTMUnit_valid_bounds 1 1 0 (fun _ => 5) (fun _ => 2) (fun j => j) (fun _ => 1)
    false (fun _ => 0) (fun _ => 0) 1 0 0 (by decide) (by decide) (by decide) (by decide)
    (by decide)
  simp only [zero_mul, zero_add] at h
  exact h

variable [Field α]

/-- The six values stored by the backward body are linear in the upstream gradients. -/
theorem LSTMUnitGradient.vals_linear (exp : α → α) (D : Int) (valid drop_states : Bool)
    (C_prev X C C_diff1 H_diff1 C_diff2 H_diff2 : Int → α) (fb a b : α)
    (pC_prev pX pC pC_diff pH_diff d : Int) :
    LSTMUnitGradient.vals exp D valid drop_states C_prev X C
        (fun j => a * C_diff1 j + b * C_diff2 j) (fun j => a * H_diff1 j + b * H_diff2 j) fb
        pC_prev pX pC pC_diff pH_diff d =
      ⟨a * (LSTMUnitGradient.vals exp D valid drop_states C_prev X C C_diff1 H_diff1 fb
            pC_prev pX pC pC_diff pH_diff d).h_prev_diff
          + b * (LSTMUnitGradient.vals exp D valid drop_states C_prev X C C_diff2 H_diff2 fb
            pC_prev pX pC pC_diff pH_diff d).h_prev_diff,
        a * (LSTMUnitGradient.vals exp D valid drop_states C_prev X C C_diff1 H_diff1 fb
            pC_prev pX pC pC_diff pH_diff d).c_prev_diff
          + b * (LSTMUnitGradient.vals exp D valid drop_states C_prev X C C_diff2 H_diff2 fb
            pC_prev pX pC pC_diff pH_diff d).c_prev_diff,
        a * (LSTMUnitGradient.vals exp D valid drop_states C_prev X C C_diff1 H_diff1 fb
            pC_prev pX pC pC_diff pH_diff d).i_diff
          + b * (LSTMUnitGradient.vals exp D valid drop_states C_prev X C C_diff2 H_diff2 fb
            pC_prev pX pC pC_diff pH_diff d).i_diff,
        a * (LSTMUnitGradient.vals exp D valid drop_states C_prev X C C_diff1 H_diff1 fb
            pC_prev pX pC pC_diff pH_diff d).f_diff
          + b * (LSTMUnitGradient.vals exp D valid drop_states C_prev X C C_diff2 H_diff2 fb
            pC_prev pX pC pC_diff pH_diff d).f_diff,
        a * (LSTMUnitGradient.vals exp D valid drop_states C_prev X C C_diff1 H_diff1 fb
            pC_prev pX pC pC_diff pH_diff d).o_diff
          + b * (LSTMUnitGradient.vals exp D valid drop_states C_prev X C C_diff2 H_diff2 fb
            pC_prev pX pC pC_diff pH_diff d).o_diff,
        a * (LSTMUnitGradient.vals exp D valid drop_states C_prev X C C_diff1 H_diff1 fb
            pC_prev pX pC pC_diff pH_diff d).g_diff
          + b * (LSTMUnitGradient.vals exp D valid drop_states C_prev X C C_diff2 H_diff2 fb
            pC_prev pX pC pC_diff pH_diff d).g_diff⟩ := by
  cases valid <;> cases drop_states <;>
    simp only [LSTMUnitGradient.vals, Bool.not_true, Bool.not_false, Bool.false_eq_true,
      if_true, if_false, mul_zero, add_zero, GradCell.mk.injEq, true_and, and_true]
  all_goals (refine ⟨?_, ?_, ?_, ?_, ?_⟩ <;> ring)

/-- C28. Backward is linear in the upstream gradients: for all scalars `a`, `b` and all
upstream pairs `(C_diff1, H_diff1)`, `(C_diff2, H_diff2)`, with every other input fixed,
each entry that `LSTMUnitGradient` writes (`H_prev_diff[n*D+d]`, `C_prev_diff[n*D+d]` and
`X_diff[n*4D+j]`, `j < 4D`, for every row `n < N`, valid or expired) on
`(a*C_diff1 + b*C_diff2, a*H_diff1 + b*H_diff2)` equals `a` times the entry on the first pair
plus `b` times the entry on the second; in particular all-zero upstream gradients give
all-zero entries. -/
theorem LSTMUnitGradient_linear (exp : α → α) (N D t : Int) (C_prev X : Int → α)
    (seqLengths : Int → Int) (C H C_diff1 H_diff1 C_diff2 H_diff2 : Int → α)
    (drop_states : Bool) (Hp0 Cp0 X0 : Int → α) (forget_bias a b : α)
    (n : Int) (hn0 : 0 ≤ n) (hn : n < N) :
    (∀ d : Int, 0 ≤ d → d < D →
      (LSTMUnitGradient exp N D t C_prev X seqLengths C H
          (fun j => a * C_diff1 j + b * C_diff2 j) (fun j => a * H_diff1 j + b * H_diff2 j)
          drop_states Hp0 Cp0 X0 forget_bias).H_prev_diff (n * D + d) =
        a * (LSTMUnitGradient exp N D t C_prev X seqLengths C H C_diff1 H_diff1
            drop_states Hp0 Cp0 X0 forget_bias).H_prev_diff (n * D + d)
          + b * (LSTMUnitGradient exp N D t C_prev X seqLengths C H C_diff2 H_diff2
            drop_states Hp0 Cp0 X0 forget_bias).H_prev_diff (n * D + d) ∧
      (LSTMUnitGradient exp N D t C_prev X seqLengths C H
          (fun j => a * C_diff1 j + b * C_diff2 j) (fun j => a * H_diff1 j + b * H_diff2 j)
          drop_states Hp0 Cp0 X0 forget_bias).C_prev_diff (n * D + d) =
        a * (LSTMUnitGradient exp N D t C_prev X seqLengths C H C_diff1 H_diff1
            drop_states Hp0 Cp0 X0 forget_bias).C_prev_diff (n * D + d)
          + b * (LSTMUnitGradient exp N D t C_prev X seqLengths C H C_diff2 H_diff2
            drop_states Hp0 Cp0 X0 forget_bias).C_prev_diff (n * D + d) ∧
      (LSTMUnitGradient exp N D t C_prev X seqLengths C H (fun _ => 0) (fun _ => 0)
          drop_states Hp0 Cp0 X0 forget_bias).H_prev_diff (n * D + d) = 0 ∧
      (LSTMUnitGradient exp N D t C_prev X seqLengths C H (fun _ => 0) (fun _ => 0)
          drop_states Hp0 Cp0 X0 forget_bias).C_prev_diff (n * D + d) = 0) ∧
    (∀ j : Int, 0 ≤ j → j < 4 * D →
      (LSTMUnitGradient exp N D t C_prev X seqLengths C H
          (fun j => a * C_diff1 j + b * C_diff2 j) (fun j => a * H_diff1 j + b * H_diff2 j)
          drop_states Hp0 Cp0 X0 forget_bias).X_diff (n * (4 * D) + j) =
        a * (LSTMUnitGradient exp N D t C_prev X seqLengths C H C_diff1 H_diff1
            drop_states Hp0 Cp0 X0 forget_bias).X_diff (n * (4 * D) + j)
          + b * (LSTMUnitGradient exp N D t C_prev X seqLengths C H C_diff2 H_diff2
            drop_states Hp0 Cp0 X0 forget_bias).X_diff (n * (4 * D) + j) ∧
      (LSTMUnitGradient exp N D t C_prev X seqLengths C H (fun _ => 0) (fun _ => 0)
          drop_states Hp0 Cp0 X0 forget_bias).X_diff (n * (4 * D) + j) = 0) := by
  have hz : ∀ d : Int,
      LSTMUnitGradient.vals exp D (decide (t < seqLengths n)) drop_states C_prev X C
          (fun _ => 0) (fun _ => 0) forget_bias (n * D) (n * (4 * D)) (n * D) (n * D) (n * D)
          d = ⟨0, 0, 0, 0, 0, 0⟩ := by
    intro d
    cases decide (t < seqLengths n) <;> cases drop_states <;>
      simp [LSTMUnitGradient.vals]
  have cells : ∀ d : Int, 0 ≤ d → d < D → _ := fun d hd0 hd =>
    And.intro
      (LSTMUnitGradient.backward_at_cell exp N D t C_prev X seqLengths C H
        (fun j => a * C_diff1 j + b * C_diff2 j) (fun j => a * H_diff1 j + b * H_diff2 j)
        drop_states Hp0 Cp0 X0 forget_bias n d hn0 hn hd0 hd)
      (And.intro
        (LSTMUnitGradient.backward_at_cell exp N D t C_prev X seqLengths C H C_diff1 H_diff1
          drop_states Hp0 Cp0 X0 forget_bias n d hn0 hn hd0 hd)
        (And.intro
          (LSTMUnitGradient.backward_at_cell exp N D t C_prev X seqLengths C H C_diff2 H_diff2
            drop_states Hp0 Cp0 X0 forget_bias n d hn0 hn hd0 hd)
          (LSTMUnitGradient.backward_at_cell exp N D t C_prev X seqLengths C H (fun _ => 0)
            (fun _ => 0) drop_states Hp0 Cp0 X0 forget_bias n d hn0 hn hd0 hd)))
  refine ⟨fun d hd0 hd => ?_, fun j hj0 hj => ?_⟩
  · obtain ⟨⟨s0, s1, -⟩, ⟨a0, a1, -⟩, ⟨b0, b1, -⟩, ⟨z0, z1, -⟩⟩ := cells d hd0 hd
    rw [s0, s1, a0, a1, b0, b1, z0, z1, LSTMUnitGradient.vals_linear, hz]
    exact ⟨rfl, rfl, rfl, rfl⟩
  · obtain ⟨d, hd0, hd, hcase⟩ := gate_decomp hj0 hj
    obtain ⟨⟨-, -, s0, s1, s2, s3⟩, ⟨-, -, a0, a1, a2, a3⟩, ⟨-, -, b0, b1, b2, b3⟩,
      ⟨-, -, z0, z1, z2, z3⟩⟩ := cells d hd0 hd
    rw [LSTMUnitGradient.vals_linear] at s0 s1 s2 s3
    rw [hz] at z0 z1 z2 z3
    rcases hcase with rfl | rfl | rfl | rfl
    · rw [s0, a0, b0, z0]
      exact ⟨rfl, rfl⟩
    · rw [← add_assoc, s1, a1, b1, z1]
      exact ⟨rfl, rfl⟩
    · rw [← add_assoc, s2, a2, b2, z2]
      exact ⟨rfl, rfl⟩
    · rw [← add_assoc, s3, a3, b3, z3]
      exact ⟨rfl, rfl⟩

/-- C28 at `N = 1`, `D = 1`, `t = 0`, `seqLengths = [1]`, over the reals, with `a = 2`,
`b = 3`, upstream pairs `(C_diff1, H_diff1) = ([6], [4])` and `(C_diff2, H_diff2) = ([1],
[5])`: the entry `C_prev_diff[0]` on `(2*6 + 3*1, 2*4 + 3*5)` is twice the entry on the first
pair plus three times the entry on the second. -/
theorem LSTMUnitGradient_linear_witness :
    (LSTMUnitGradient Real.exp 1 1 0 (fun _ => 2) (fun j => j) (fun _ => 1) (fun _ => 3)
        (fun _ => 0) (fun j => 2 * (fun _ => 6) j + 3 * (fun _ => 1) j)
        (fun j => 2 * (fun _ => 4) j + 3 * (fun _ => 5) j) false (fun _ => 9) (fun _ => 9)
        (fun _ => 9) 1).C_prev_diff 0 =
      2 * (LSTMUnitGradient Real.exp 1 1 0 (fun _ => 2) (fun j => j) (fun _ => 1) (fun _ => 3)
          (fun _ => 0) (fun _ => 6) (fun _ => 4) false (fun _ => 9) (fun _ => 9)
          (fun _ => 9) 1).C_prev_diff 0
        + 3 * (LSTMUnitGradient Real.exp 1 1 0 (fun _ => 2) (fun j => j) (fun _ => 1)
          (fun _ => 3) (fun _ => 0) (fun _ => 1) (fun _ => 5) false (fun _ => 9) (fun _ => 9)
          (fun _ => 9) 1).C_prev_diff 0 := by
  have h := (LSTMUnitGradient_linear Real.exp 1 1 0 (fun _ => 2) (fun j => j) (fun _ => 1)
    (fun _ => 3) (fun _ => 0) (fun _ => 6) (fun _ => 4) (fun _ => 1) (fun _ => 5) false
    (fun _ => 9) (fun _ => 9) (fun _ => 9) 1 2 3 0 (by decide) (by decide)).1 0 (by decide)
    (by decide)
  simp only [zero_mul, zero_add] at h
  exact h.2.1

/-- On a valid row the six values stored by the backward body do not depend on
`drop_states`. -/
theorem LSTMUnitGradient.vals_valid_drop (exp : α → α) (D : Int) (dr1 dr2 : Bool)
    (C_prev X C C_diff H_diff : Int → α) (fb : α) (pC_prev pX pC pC_diff pH_diff d : Int) :
    LSTMUnitGradient.vals exp D true dr1 C_prev X C C_diff H_diff fb
        pC_prev pX pC pC_diff pH_diff d =
      LSTMUnitGradient.vals exp D true dr2 C_prev X C C_diff H_diff fb
        pC_prev pX pC pC_diff pH_diff d := by
  simp [LSTMUnitGradient.vals]

/-- C29. `drop_states` has no effect on valid rows: for every row `n` with
`t < seqLengths[n]`, the entries of row `n` written by `LSTMUnit` (`H[n*D+d]`, `C[n*D+d]`)
and by `LSTMUnitGradient` (`H_prev_diff[n*D+d]`, `C_prev_diff[n*D+d]`, `X_diff[n*4D+j]` for
`j < 4D`) are the same for `drop_states = true` and `drop_states = false`; hence when every
row is valid the two policies return identical output buffers. -/
theorem drop_states_no_effect_on_valid (exp : α → α) (N D t : Int)
    (H_prev C_prev X : Int → α) (seqLengths : Int → Int) (C H C_diff H_diff : Int → α)
    (C0 H0 Hp0 Cp0 X0 : Int → α) (forget_bias : α) :
    (∀ n : Int, 0 ≤ n → n < N → t < seqLengths n →
      (∀ d : Int, 0 ≤ d → d < D →
        (LSTMUnit exp N D t H_prev C_prev X seqLengths true C0 H0 forget_bias).H (n * D + d) =
          (LSTMUnit exp N D t H_prev C_prev X seqLengths false C0 H0 forget_bias).H
            (n * D + d) ∧
        (LSTMUnit exp N D t H_prev C_prev X seqLengths true C0 H0 forget_bias).C (n * D + d) =
          (LSTMUnit exp N D t H_prev C_prev X seqLengths false C0 H0 forget_bias).C
            (n * D + d) ∧
        (LSTMUnitGradient exp N D t C_prev X seqLengths C H C_diff H_diff true Hp0 Cp0 X0
            forget_bias).H_prev_diff (n * D + d) =
          (LSTMUnitGradient exp N D t C_prev X seqLengths C H C_diff H_diff false Hp0 Cp0 X0
            forget_bias).H_prev_diff (n * D + d) ∧
        (LSTMUnitGradient exp N D t C_prev X seqLengths C H C_diff H_diff true Hp0 Cp0 X0
            forget_bias).C_prev_diff (n * D + d) =
          (LSTMUnitGradient exp N D t C_prev X seqLengths C H C_diff H_diff false Hp0 Cp0 X0
            forget_bias).C_prev_diff (n * D + d)) ∧
      (∀ j : Int, 0 ≤ j → j < 4 * D →
        (LSTMUnitGradient exp N D t C_prev X seqLengths C H C_diff H_diff true Hp0 Cp0 X0
            forget_bias).X_diff (n * (4 * D) + j) =
          (LSTMUnitGradient exp N D t C_prev X seqLengths C H C_diff H_diff false Hp0 Cp0 X0
            forget_bias).X_diff (n * (4 * D) + j))) ∧
    ((∀ n : Int, 0 ≤ n → n < N → t < seqLengths n) →
      (LSTMUnit exp N D t H_prev C_prev X seqLengths true C0 H0 forget_bias).H =
        (LSTMUnit exp N D t H_prev C_prev X seqLengths false C0 H0 forget_bias).H ∧
      (LSTMUnit exp N D t H_prev C_prev X seqLengths true C0 H0 forget_bias).C =
        (LSTMUnit exp N D t H_prev C_prev X seqLengths false C0 H0 forget_bias).C ∧
      (LSTMUnitGradient exp N D t C_prev X seqLengths C H C_diff H_diff true Hp0 Cp0 X0
          forget_bias).H_prev_diff =
        (LSTMUnitGradient exp N D t C_prev X seqLengths C H C_diff H_diff false Hp0 Cp0 X0
          forget_bias).H_prev_diff ∧
      (LSTMUnitGradient exp N D t C_prev X seqLengths C H C_diff H_diff true Hp0 Cp0 X0
          forget_bias).C_prev_diff =
        (LSTMUnitGradient exp N D t C_prev X seqLengths C H C_diff H_diff false Hp0 Cp0 X0
          forget_bias).C_prev_diff ∧
      (LSTMUnitGradient exp N D t C_prev X seqLengths C H C_diff H_diff true Hp0 Cp0 X0
          forget_bias).X_diff =
        (LSTMUnitGradient exp N D t C_prev X seqLengths C H C_diff H_diff false Hp0 Cp0 X0
          forget_bias).X_diff) := by
  have hvals : ∀ n d : Int, t < seqLengths n →
      LSTMUnitGradient.vals exp D (decide (t < seqLengths n)) true C_prev X C C_diff H_diff
          forget_bias (n * D) (n * (4 * D)) (n * D) (n * D) (n * D) d =
        LSTMUnitGradient.vals exp D (decide (t < seqLengths n)) false C_prev X C C_diff H_diff
          forget_bias (n * D) (n * (4 * D)) (n * D) (n * D) (n * D) d := by
    intro n d hv
    simp only [hv, decide_True]
    exact LSTMUnitGradient.vals_valid_drop exp D true false C_prev X C C_diff H_diff
      forget_bias _ _ _ _ _ d
  have hfw : ∀ n d : Int, 0 ≤ n → n < N → 0 ≤ d → d < D → t < seqLengths n →
      (LSTMUnit exp N D t H_prev C_prev X seqLengths true C0 H0 forget_bias).C (n * D + d) =
        (LSTMUnit exp N D t H_prev C_prev X seqLengths false C0 H0 forget_bias).C
          (n * D + d) ∧
      (LSTMUnit exp N D t H_prev C_prev X seqLengths true C0 H0 forget_bias).H (n * D + d) =
        (LSTMUnit exp N D t H_prev C_prev X seqLengths false C0 H0 forget_bias).H
          (n * D + d) := by
    intro n d hn0 hn hd0 hd hv
    obtain ⟨a1, a2⟩ := LSTMUnit.forward_at_cell exp N D t H_prev C_prev X seqLengths true
      C0 H0 forget_bias n d hn0 hn hd0 hd
    obtain ⟨b1, b2⟩ := LSTMUnit.forward_at_cell exp N D t H_prev C_prev X seqLengths false
      C0 H0 forget_bias n d hn0 hn hd0 hd
    rw [a1, a2, b1, b2]
    simp only [hv, decide_True, LSTMUnit.cOut_valid, LSTMUnit.hOut_valid, and_self]
  refine ⟨fun n hn0 hn hv => ⟨fun d hd0 hd => ?_, fun j hj0 hj => ?_⟩, fun hall => ?_⟩
  · obtain ⟨a0, a1, -⟩ := LSTMUnitGradient.backward_at_cell exp N D t C_prev X seqLengths C H
      C_diff H_diff true Hp0 Cp0 X0 forget_bias n d hn0 hn hd0 hd
    obtain ⟨b0, b1, -⟩ := LSTMUnitGradient.backward_at_cell exp N D t C_prev X seqLengths C H
      C_diff H_diff false Hp0 Cp0 X0 forget_bias n d hn0 hn hd0 hd
    obtain ⟨c1, c2⟩ := hfw n d hn0 hn hd0 hd hv
    rw [a0, a1, b0, b1, hvals n d hv]
    exact ⟨c2, c1, rfl, rfl⟩
  · obtain ⟨d, hd0, hd, hcase⟩ := gate_decomp hj0 hj
    obtain ⟨-, -, a0, a1, a2, a3⟩ := LSTMUnitGradient.backward_at_cell exp N D t C_prev X
      seqLengths C H C_diff H_diff true Hp0 Cp0 X0 forget_bias n d hn0 hn hd0 hd
    obtain ⟨-, -, b0, b1, b2, b3⟩ := LSTMUnitGradient.backward_at_cell exp N D t C_prev X
      seqLengths C H C_diff H_diff false Hp0 Cp0 X0 forget_bias n d hn0 hn hd0 hd
    rw [hvals n d hv] at a0 a1 a2 a3
    rcases hcase with rfl | rfl | rfl | rfl
    · exact a0.trans b0.symm
    · rw [← add_assoc]; exact a1.trans b1.symm
    · rw [← add_assoc]; exact a2.trans b2.symm
    · rw [← add_assoc]; exact a3.trans b3.symm
  · obtain ⟨e1, e2⟩ := LSTMUnit.forward_buffers_eq_of_cells exp N D t t H_prev C_prev X H_prev C_prev
      X seqLengths seqLengths true false C0 H0 forget_bias forget_bias
      (fun n d hn0 hn hd0 hd => hfw n d hn0 hn hd0 hd (hall n hn0 hn))
    obtain ⟨g1, g2, g3⟩ := LSTMUnitGradient.backward_buffers_eq_of_cells exp N D t t C_prev X C_prev X
      seqLengths seqLengths C H C_diff H_diff C H C_diff H_diff true false Hp0 Cp0 X0
      forget_bias forget_bias (fun n d hn0 hn _ _ => hvals n d (hall n hn0 hn))
    exact ⟨e2, e1, g1, g2, g3⟩

/-- C29 at `N = 1`, `D = 1`, `t = 0`, `seqLengths = [1]` (the only row is valid), over the
reals: `H[0]` is the same under both policies, and so is the whole buffer `X_diff`. -/
theorem drop_states_no_effect_on_valid_witness :
    (LSTMUnit Real.exp 1 1 0 (fun _ => 5) (fun _ => 2) (fun j => j) (fun _ => 1) true
        (fun _ => 0) (fun _ => 0) 1).H 0 =
      (LSTMUnit Real.exp 1 1 0 (fun _ => 5) (fun _ => 2) (fun j => j) (fun _ => 1) false
        (fun _ => 0) (fun _ => 0) 1).H 0 ∧
    (LSTMUnitGradient Real.exp 1 1 0 (fun _ => 2) (fun j => j) (fun _ => 1) (fun _ => 3)
        (fun _ => 0) (fun _ => 6) (fun _ => 4) true (fun _ => 9) (fun _ => 9) (fun _ => 9)
        1).X_diff =
      (LSTMUnitGradient Real.exp 1 1 0 (fun _ => 2) (fun j => j) (fun _ => 1) (fun _ => 3)
        (fun _ => 0) (fun _ => 6) (fun _ => 4) false (fun _ => 9) (fun _ => 9) (fun _ => 9)
        1).X_diff := by
  obtain ⟨h1, h2⟩ := drop_states_no_effect_on_valid Real.exp 1 1 0 (fun _ => 5) (fun _ => 2)
    (fun j => j) (fun _ => 1) (fun _ => 3) (fun _ => 0) (fun _ => 6) (fun _ => 4)
    (fun _ => 0) (fun _ => 0) (fun _ => 9) (fun _ => 9) (fun _ => 9) 1
  have a := ((h1 0 (by decide) (by decide) (by decide)).1 0 (by decide) (by decide)).1
  simp only [zero_mul, zero_add] at a
  exact ⟨a, (h2 (fun n _ _ => by decide)).2.2.2.2⟩

/-- C30. Forget bias is a shift of the forget-gate block: for every input and every scalar
`b`, `LSTMUnit` with `forget_bias = b` on gates `X` returns the same `H` and `C` as `LSTMUnit`
with `forget_bias = 0` on gates `X2`, where `X2` agrees with `X` on the first, third and
fourth block of every row and `X2[n*4D + D + d] = X[n*4D + D + d] + b` on the second. -/
theorem forget_bias_is_gate_shift (exp : α → α) (N D t : Int) (H_prev C_prev X X2 : Int → α)
    (seqLengths : Int → Int) (drop_states : Bool) (C0 H0 : Int → α) (b : α)
    (hX : ∀ n d : Int, 0 ≤ n → n < N → 0 ≤ d → d < D →
      X2 (n * (4 * D) + d) = X (n * (4 * D) + d) ∧
      X2 (n * (4 * D) + D + d) = X (n * (4 * D) + D + d) + b ∧
      X2 (n * (4 * D) + 2 * D + d) = X (n * (4 * D) + 2 * D + d) ∧
      X2 (n * (4 * D) + 3 * D + d) = X (n * (4 * D) + 3 * D + d)) :
    (LSTMUnit exp N D t H_prev C_prev X seqLengths drop_states C0 H0 b).H =
      (LSTMUnit exp N D t H_prev C_prev X2 seqLengths drop_states C0 H0 0).H ∧
    (LSTMUnit exp N D t H_prev C_prev X seqLengths drop_states C0 H0 b).C =
      (LSTMUnit exp N D t H_prev C_prev X2 seqLengths drop_states C0 H0 0).C := by
  obtain ⟨e1, e2⟩ := LSTMUnit.forward_buffers_eq_of_cells exp N D t t H_prev C_prev X H_prev C_prev
    X2 seqLengths seqLengths drop_states drop_states C0 H0 b 0 (fun n d hn0 hn hd0 hd => by
      obtain ⟨a1, a2⟩ := LSTMUnit.forward_at_cell exp N D t H_prev C_prev X seqLengths
        drop_states C0 H0 b n d hn0 hn hd0 hd
      obtain ⟨b1, b2⟩ := LSTMUnit.forward_at_cell exp N D t H_prev C_prev X2 seqLengths
        drop_states C0 H0 0 n d hn0 hn hd0 hd
      obtain ⟨x0, x1, x2, x3⟩ := hX n d hn0 hn hd0 hd
      rw [add_assoc] at x1 x2 x3
      rw [a1, a2, b1, b2]
      cases decide (t < seqLengths n)
      · simp only [LSTMUnit.cOut_expired, LSTMUnit.hOut_expired, and_self]
      · simp only [LSTMUnit.cOut_valid, LSTMUnit.hOut_valid, one_mul, x0, x1, x2, x3,
          add_zero, and_self])
  exact ⟨e2, e1⟩

/-- C30 at `N = 1`, `D = 1`, `t = 0`, `seqLengths = [1]`, gates `X = [0, 0, 0, 0]` and
`forget_bias = 3`, over the reals: the call returns the same `H` and `C` as the call with
`forget_bias = 0` on the gates `[0, 3, 0, 0]`. -/
theorem forget_bias_is_gate_shift_witness :
    (LSTMUnit Real.exp 1 1 0 (fun _ => 5) (fun _ => 2) (fun _ => 0) (fun _ => 1) false
        (fun _ => 0) (fun _ => 0) 3).H =
      (LSTMUnit Real.exp 1 1 0 (fun _ => 5) (fun _ => 2) (fun j => if j = 1 then 3 else 0)
        (fun _ => 1) false (fun _ => 0) (fun _ => 0) 0).H ∧
    (LSTMUnit Real.exp 1 1 0 (fun _ => 5) (fun _ => 2) (fun _ => 0) (fun _ => 1) false
        (fun _ => 0) (fun _ => 0) 3).C =
      (LSTMUnit Real.exp 1 1 0 (fun _ => 5) (fun _ => 2) (fun j => if j = 1 then 3 else 0)
        (fun _ => 1) false (fun _ => 0) (fun _ => 0) 0).C :=
  forget_bias_is_gate_shift Real.exp 1 1 0 (fun _ => 5) (fun _ => 2) (fun _ => 0)
    (fun j => if j = 1 then 3 else 0) (fun _ => 1) false (fun _ => 0) (fun _ => 0) 3
    (fun n d hn0 hn hd0 hd => by
      obtain rfl : n = 0 := by omega
      obtain rfl : d = 0 := by omega
      norm_num)

end Behaviour

/-! ## The operators: precondition checks, shapes and configuration -/

section Operators

variable [Field α]

/-- C22. Forward operator precondition, all-or-nothing: `LSTMUnitOp::RunOnDevice` fails if
and only if `4*D ≠ G` (`D` = dim 2 of `CELL_T_M_1`, `G` = dim 2 of `GATES`) or the number of
entries of `SEQ_LENGTHS` differs from `N` (dim 1 of `CELL_T_M_1`); when it fails, neither
output has been resized or written; and when both conditions hold it runs the kernel
`LSTMUnit` on the input buffers, leaves its results in `CELL_T` and `HIDDEN_T`, and returns
`true`. -/
theorem LSTMUnitOp_RunOnDevice_precondition (exp : α → α) (op : LSTMUnitOp α)
    (inp : LSTMUnitOpInputs α) (out : LSTMUnitOpOutputs α) :
    ((∃ e, (LSTMUnitOp.RunOnDevice exp op inp out).2 = Except.error e) ↔
      (4 * inp.CELL_T_M_1.dim 2 ≠ inp.GATES.dim 2 ∨
        inp.SEQ_LENGTHS.size ≠ inp.CELL_T_M_1.dim 1)) ∧
    ((∃ e, (LSTMUnitOp.RunOnDevice exp op inp out).2 = Except.error e) →
      (LSTMUnitOp.RunOnDevice exp op inp out).1 = out) ∧
    ((4 * inp.CELL_T_M_1.dim 2 = inp.GATES.dim 2 ∧
        inp.SEQ_LENGTHS.size = inp.CELL_T_M_1.dim 1) →
      (LSTMUnitOp.RunOnDevice exp op inp out).2 = Except.ok true ∧
      (LSTMUnitOp.RunOnDevice exp op inp out).1.CELL_T.data =
        (LSTMUnit exp (inp.CELL_T_M_1.dim 1) (inp.CELL_T_M_1.dim 2) (inp.TIMESTEP.data 0)
          inp.HIDDEN_T_M_1.data inp.CELL_T_M_1.data inp.GATES.data inp.SEQ_LENGTHS.data
          op.drop_states_ out.CELL_T.data out.HIDDEN_T.data op.forget_bias_).C ∧
      (LSTMUnitOp.RunOnDevice exp op inp out).1.HIDDEN_T.data =
        (LSTMUnit exp (inp.CELL_T_M_1.dim 1) (inp.CELL_T_M_1.dim 2) (inp.TIMESTEP.data 0)
          inp.HIDDEN_T_M_1.data inp.CELL_T_M_1.data inp.GATES.data inp.SEQ_LENGTHS.data
          op.drop_states_ out.CELL_T.data out.HIDDEN_T.data op.forget_bias_).H) := by
  by_cases h1 : 4 * inp.CELL_T_M_1.dim 2 = inp.GATES.dim 2
  · by_cases h2 : inp.SEQ_LENGTHS.size = inp.CELL_T_M_1.dim 1
    · simp [LSTMUnitOp.RunOnDevice, h1, h2, Tensor.ResizeLike]
    · simp [LSTMUnitOp.RunOnDevice, h1, h2]
  · simp [LSTMUnitOp.RunOnDevice, h1]

/-- C22 at `CELL_T_M_1 : 1 x 1 x 1`, `GATES : 1 x 1 x 4` and a `SEQ_LENGTHS` tensor with two
entries, so `N = 1` and the second check fails: the call ends with the failed check and the
output tensors are as before the call. -/
theorem LSTMUnitOp_RunOnDevice_precondition_witness :
    (LSTMUnitOp.RunOnDevice (fun _ => (1 : ℚ)) ⟨0, false⟩
        ⟨⟨[1, 1, 1], fun _ => 1⟩, ⟨[1, 1, 1], fun _ => 2⟩, ⟨[1, 1, 4], fun _ => 0⟩,
          ⟨[2], fun _ => 1⟩, ⟨[1], fun _ => 0⟩⟩
        ⟨⟨[], fun _ => 9⟩, ⟨[], fun _ => 9⟩⟩).2 = Except.error EnforceNotMet.seqLengthsSize ∧
    (LSTMUnitOp.RunOnDevice (fun _ => (1 : ℚ)) ⟨0, false⟩
        ⟨⟨[1, 1, 1], fun _ => 1⟩, ⟨[1, 1, 1], fun _ => 2⟩, ⟨[1, 1, 4], fun _ => 0⟩,
          ⟨[2], fun _ => 1⟩, ⟨[1], fun _ => 0⟩⟩
        ⟨⟨[], fun _ => 9⟩, ⟨[], fun _ => 9⟩⟩).1 = ⟨⟨[], fun _ => 9⟩, ⟨[], fun _ => 9⟩⟩ := by
  have herr : (LSTMUnitOp.RunOnDevice (fun _ => (1 : ℚ)) ⟨0, false⟩
      ⟨⟨[1, 1, 1], fun _ => 1⟩, ⟨[1, 1, 1], fun _ => 2⟩, ⟨[1, 1, 4], fun _ => 0⟩,
        ⟨[2], fun _ => 1⟩, ⟨[1], fun _ => 0⟩⟩
      ⟨⟨[], fun _ => 9⟩, ⟨[], fun _ => 9⟩⟩).2 = Except.error EnforceNotMet.seqLengthsSize := by
    simp [LSTMUnitOp.RunOnDevice, Tensor.dim, Tensor.size]
  exact ⟨herr, (LSTMUnitOp_RunOnDevice_precondition (fun _ => (1 : ℚ)) ⟨0, false⟩
    ⟨⟨[1, 1, 1], fun _ => 1⟩, ⟨[1, 1, 1], fun _ => 2⟩, ⟨[1, 1, 4], fun _ => 0⟩,
      ⟨[2], fun _ => 1⟩, ⟨[1], fun _ => 0⟩⟩
    ⟨⟨[], fun _ => 9⟩, ⟨[], fun _ => 9⟩⟩).2.1 ⟨_, herr⟩⟩

/-- C23. Backward operator checks the gate width: every call of
`LSTMUnitGradientOp::RunOnDevice` with `4*D ≠ G` (`D` = dim 2 of `CELL_T_M_1`, `G` = dim 2 of
`GATES`) fails on that check, and the three outputs are neither resized nor written. -/
theorem LSTMUnitGradientOp_RunOnDevice_gate_width (exp : α → α) (op : LSTMUnitGradientOp α)
    (inp : LSTMUnitGradientOpInputs α) (out : LSTMUnitGradientOpOutputs α)
    (h : 4 * inp.CELL_T_M_1.dim 2 ≠ inp.GATES.dim 2) :
    LSTMUnitGradientOp.RunOnDevice exp op inp out =
      (out, Except.error EnforceNotMet.gateWidth) := by
  simp [LSTMUnitGradientOp.RunOnDevice, h]

/-- C23 at `CELL_T_M_1 : 1 x 1 x 1` and `GATES : 1 x 1 x 3`, so `4*D = 4 ≠ 3 = G`: the call
fails on the gate-width check and returns the output tensors untouched. -/
theorem LSTMUnitGradientOp_RunOnDevice_gate_width_witness :
    LSTMUnitGradientOp.RunOnDevice (fun _ => (1 : ℚ)) ⟨0, false⟩
        ⟨⟨[1, 1, 1], fun _ => 1⟩, ⟨[1, 1, 1], fun _ => 2⟩, ⟨[1, 1, 3], fun _ => 0⟩,
          ⟨[1], fun _ => 1⟩, ⟨[1], fun _ => 0⟩, ⟨[1, 1, 1], fun _ => 0⟩,
          ⟨[1, 1, 1], fun _ => 0⟩, ⟨[1, 1, 1], fun _ => 4⟩, ⟨[1, 1, 1], fun _ => 6⟩⟩
        ⟨⟨[], fun _ => 9⟩, ⟨[], fun _ => 9⟩, ⟨[], fun _ => 9⟩⟩ =
      (⟨⟨[], fun _ => 9⟩, ⟨[], fun _ => 9⟩, ⟨[], fun _ => 9⟩⟩,
        Except.error EnforceNotMet.gateWidth) :=
  LSTMUnitGradientOp_RunOnDevice_gate_width (fun _ => (1 : ℚ)) ⟨0, false⟩
    ⟨⟨[1, 1, 1], fun _ => 1⟩, ⟨[1, 1, 1], fun _ => 2⟩, ⟨[1, 1, 3], fun _ => 0⟩,
      ⟨[1], fun _ => 1⟩, ⟨[1], fun _ => 0⟩, ⟨[1, 1, 1], fun _ => 0⟩,
      ⟨[1, 1, 1], fun _ => 0⟩, ⟨[1, 1, 1], fun _ => 4⟩, ⟨[1, 1, 1], fun _ => 6⟩⟩
    ⟨⟨[], fun _ => 9⟩, ⟨[], fun _ => 9⟩, ⟨[], fun _ => 9⟩⟩ (by decide)

/-- C21 fails on the code.  `LSTMUnitGradientOp::RunOnDevice` has no check of the number of
entries of `SEQ_LENGTHS` (the forward operator has one).  With `CELL_T_M_1 : 1 x 1 x 1`
(`N = 1`), `GATES : 1 x 1 x 4` and a `SEQ_LENGTHS` tensor of two entries, the call does not
fail: it returns `true`, resizes `HIDDEN_T_M_1_GRAD` from the empty shape to `1 x 1 x 1` and
overwrites its element `0` (which held `9`) with `0`. -/
theorem LSTMUnitGradientOp_RunOnDevice_no_seq_lengths_check :
    (⟨[2], fun _ => 1⟩ : Tensor Int).size = 2 ∧
    (⟨[1, 1, 1], fun _ => 2⟩ : Tensor ℝ).dim 1 = 1 ∧
    (LSTMUnitGradientOp.RunOnDevice Real.exp ⟨0, false⟩
        ⟨⟨[1, 1, 1], fun _ => 1⟩, ⟨[1, 1, 1], fun _ => 2⟩, ⟨[1, 1, 4], fun _ => 0⟩,
          ⟨[2], fun _ => 1⟩, ⟨[1], fun _ => 0⟩, ⟨[1, 1, 1], fun _ => 0⟩,
          ⟨[1, 1, 1], fun _ => 0⟩, ⟨[1, 1, 1], fun _ => 4⟩, ⟨[1, 1, 1], fun _ => 6⟩⟩
        ⟨⟨[], fun _ => 9⟩, ⟨[], fun _ => 9⟩, ⟨[], fun _ => 9⟩⟩).2 = Except.ok true ∧
    (LSTMUnitGradientOp.RunOnDevice Real.exp ⟨0, false⟩
        ⟨⟨[1, 1, 1], fun _ => 1⟩, ⟨[1, 1, 1], fun _ => 2⟩, ⟨[1, 1, 4], fun _ => 0⟩,
          ⟨[2], fun _ => 1⟩, ⟨[1], fun _ => 0⟩, ⟨[1, 1, 1], fun _ => 0⟩,
          ⟨[1, 1, 1], fun _ => 0⟩, ⟨[1, 1, 1], fun _ => 4⟩, ⟨[1, 1, 1], fun _ => 6⟩⟩
        ⟨⟨[], fun _ => 9⟩, ⟨[], fun _ => 9⟩, ⟨[], fun _ => 9⟩⟩).1.HIDDEN_T_M_1_GRAD.dims =
      [1, 1, 1] ∧
    (LSTMUnitGradientOp.RunOnDevice Real.exp ⟨0, false⟩
        ⟨⟨[1, 1, 1], fun _ => 1⟩, ⟨[1, 1, 1], fun _ => 2⟩, ⟨[1, 1, 4], fun _ => 0⟩,
          ⟨[2], fun _ => 1⟩, ⟨[1], fun _ => 0⟩, ⟨[1, 1, 1], fun _ => 0⟩,
          ⟨[1, 1, 1], fun _ => 0⟩, ⟨[1, 1, 1], fun _ => 4⟩, ⟨[1, 1, 1], fun _ => 6⟩⟩
        ⟨⟨[], fun _ => 9⟩, ⟨[], fun _ => 9⟩, ⟨[], fun _ => 9⟩⟩).1.HIDDEN_T_M_1_GRAD.data 0 =
      0 := by
  have hcell := (LSTMUnitGradient.backward_at_cell Real.exp 1 1 0 (fun _ => 2) (fun _ => 0)
    (fun _ => 1) (fun _ => 0) (fun _ => 0) (fun _ => 6) (fun _ => 4) false (fun _ => 9)
    (fun _ => 9) (fun _ => 9) 0 0 0 (by decide) (by decide) (by decide) (by decide)).1
  simp only [zero_mul, zero_add, LSTMUnitGradient.vals,
    show decide ((0 : Int) < 1) = true from rfl, Bool.not_true, Bool.false_eq_true,
    if_false] at hcell
  refine ⟨by simp [Tensor.size], by simp [Tensor.dim], ?_, ?_, ?_⟩
  · simp [LSTMUnitGradientOp.RunOnDevice, Tensor.dim]
  · simp [LSTMUnitGradientOp.RunOnDevice, Tensor.dim, Tensor.ResizeLike]
  · simp only [LSTMUnitGradientOp.RunOnDevice, Tensor.dim, Tensor.ResizeLike, List.getD,
      List.get?, Option.getD]
    norm_num
    exact hcell

/-- C24. Shape invariant: for every call that passes the precondition checks with inputs of
shapes `H_prev, C_prev : 1 x N x D` and `gates : 1 x N x 4D`, the call succeeds, the forward
operator's outputs `H` and `C` each have exactly `N*D` elements, and the backward operator's
outputs `H_prev_grad` and `C_prev_grad` have `N*D` elements and `gates_grad` has `N*4D`
elements.  (The forward outputs take their shape from `C_prev`, so the shape of the forward
operator's `H_prev` is not needed.) -/
theorem operators_shape_invariant (exp : α → α) (N D : Int) (opF : LSTMUnitOp α)
    (opB : LSTMUnitGradientOp α) (inpF : LSTMUnitOpInputs α) (outF : LSTMUnitOpOutputs α)
    (inpB : LSTMUnitGradientOpInputs α) (outB : LSTMUnitGradientOpOutputs α)
    (hFC : inpF.CELL_T_M_1.dims = [1, N, D])
    (hFG : inpF.GATES.dims = [1, N, 4 * D]) (hFS : inpF.SEQ_LENGTHS.size = N)
    (hBH : inpB.HIDDEN_T_M_1.dims = [1, N, D]) (hBC : inpB.CELL_T_M_1.dims = [1, N, D])
    (hBG : inpB.GATES.dims = [1, N, 4 * D]) :
    ((LSTMUnitOp.RunOnDevice exp opF inpF outF).2 = Except.ok true ∧
      (LSTMUnitOp.RunOnDevice exp opF inpF outF).1.HIDDEN_T.size = N * D ∧
      (LSTMUnitOp.RunOnDevice exp opF inpF outF).1.CELL_T.size = N * D) ∧
    ((LSTMUnitGradientOp.RunOnDevice exp opB inpB outB).2 = Except.ok true ∧
      (LSTMUnitGradientOp.RunOnDevice exp opB inpB outB).1.HIDDEN_T_M_1_GRAD.size = N * D ∧
      (LSTMUnitGradientOp.RunOnDevice exp opB inpB outB).1.CELL_T_M_1_GRAD.size = N * D ∧
      (LSTMUnitGradientOp.RunOnDevice exp opB inpB outB).1.GATES_GRAD.size = N * (4 * D)) := by
  have hFS2 : inpF.SEQ_LENGTHS.dims.prod = N := hFS
  constructor
  · simp [LSTMUnitOp.RunOnDevice, Tensor.dim, Tensor.size, Tensor.ResizeLike, hFC, hFG, hFS2]
  · simp [LSTMUnitGradientOp.RunOnDevice, Tensor.dim, Tensor.size, Tensor.ResizeLike, hBH,
      hBC, hBG]

/-- C24 at `N = 2`, `D = 3`: with `H_prev, C_prev : 1 x 2 x 3`, `gates : 1 x 2 x 12` and two
sequence lengths, the forward output `H` has `6` elements and the backward output
`gates_grad` has `24`. -/
theorem operators_shape_invariant_witness :
    (LSTMUnitOp.RunOnDevice (fun _ => (1 : ℚ)) ⟨0, false⟩
        ⟨⟨[1, 2, 3], fun _ => 1⟩, ⟨[1, 2, 3], fun _ => 2⟩, ⟨[1, 2, 12], fun _ => 0⟩,
          ⟨[2], fun _ => 1⟩, ⟨[1], fun _ => 0⟩⟩
        ⟨⟨[], fun _ => 9⟩, ⟨[], fun _ => 9⟩⟩).1.HIDDEN_T.size = 6 ∧
    (LSTMUnitGradientOp.RunOnDevice (fun _ => (1 : ℚ)) ⟨0, false⟩
        ⟨⟨[1, 2, 3], fun _ => 1⟩, ⟨[1, 2, 3], fun _ => 2⟩, ⟨[1, 2, 12], fun _ => 0⟩,
          ⟨[2], fun _ => 1⟩, ⟨[1], fun _ => 0⟩, ⟨[1, 2, 3], fun _ => 0⟩,
          ⟨[1, 2, 3], fun _ => 0⟩, ⟨[1, 2, 3], fun _ => 4⟩, ⟨[1, 2, 3], fun _ => 6⟩⟩
        ⟨⟨[], fun _ => 9⟩, ⟨[], fun _ => 9⟩, ⟨[], fun _ => 9⟩⟩).1.GATES_GRAD.size = 24 := by
  obtain ⟨⟨-, h1, -⟩, ⟨-, -, -, h2⟩⟩ := operators_shape_invariant (fun _ => (1 : ℚ)) 2 3
    ⟨0, false⟩ ⟨0, false⟩
    ⟨⟨[1, 2, 3], fun _ => 1⟩, ⟨[1, 2, 3], fun _ => 2⟩, ⟨[1, 2, 12], fun _ => 0⟩,
      ⟨[2], fun _ => 1⟩, ⟨[1], fun _ => 0⟩⟩
    ⟨⟨[], fun _ => 9⟩, ⟨[], fun _ => 9⟩⟩
    ⟨⟨[1, 2, 3], fun _ => 1⟩, ⟨[1, 2, 3], fun _ => 2⟩, ⟨[1, 2, 12], fun _ => 0⟩,
      ⟨[2], fun _ => 1⟩, ⟨[1], fun _ => 0⟩, ⟨[1, 2, 3], fun _ => 0⟩,
      ⟨[1, 2, 3], fun _ => 0⟩, ⟨[1, 2, 3], fun _ => 4⟩, ⟨[1, 2, 3], fun _ => 6⟩⟩
    ⟨⟨[], fun _ => 9⟩, ⟨[], fun _ => 9⟩, ⟨[], fun _ => 9⟩⟩
    rfl rfl (by simp [Tensor.size]) rfl rfl rfl
  exact ⟨h1, h2⟩

/-- C26. Configuration defaults: when the operator definition carries no `forget_bias`
argument, both `LSTMUnitOp` and `LSTMUnitGradientOp` use `forget_bias_ = 0`, and when it
carries no `drop_states` argument both use `drop_states_ = false`; forward and backward
operators built from the same definition use the same pair of values. -/
theorem operators_configuration_defaults (fb : Option α) (dr : Option Bool)
    (operator_def : OperatorDef α) :
    (LSTMUnitOp.create (⟨none, dr⟩ : OperatorDef α)).forget_bias_ = 0 ∧
    (LSTMUnitGradientOp.create (⟨none, dr⟩ : OperatorDef α)).forget_bias_ = 0 ∧
    (LSTMUnitOp.create (⟨fb, none⟩ : OperatorDef α)).drop_states_ = false ∧
    (LSTMUnitGradientOp.create (⟨fb, none⟩ : OperatorDef α)).drop_states_ = false ∧
    (LSTMUnitOp.create operator_def).forget_bias_ =
      (LSTMUnitGradientOp.create operator_def).forget_bias_ ∧
    (LSTMUnitOp.create operator_def).drop_states_ =
      (LSTMUnitGradientOp.create operator_def).drop_states_ :=
  ⟨rfl, rfl, rfl, rfl, rfl, rfl⟩

end Operators

/-! ## Expired rows over time, and the unused hidden output -/

section Expired

variable [Field α]

/-- C31. An expired row stays fixed over later timesteps: for every row `n` with
`t ≥ seqLengths[n]`, every `t2 ≥ t`, either value of `drop_states` and any gate buffers and
forget biases, feeding the outputs `(H, C)` of `LSTMUnit` at timestep `t` back in as
`(H_prev, C_prev)` at timestep `t2` returns the same `(H, C)` for that row: the carried state
`(H_prev, C_prev)` under `drop_states = false`, zero under `drop_states = true`. -/
theorem LSTMUnit_expired_fixed_point (exp : α → α) (N D t t2 : Int)
    (H_prev C_prev X X2 : Int → α) (seqLengths : Int → Int) (drop_states : Bool)
    (C0 H0 C0b H0b : Int → α) (forget_bias forget_bias2 : α)
    (n d : Int) (hn0 : 0 ≤ n) (hn : n < N) (hd0 : 0 ≤ d) (hd : d < D)
    (hexpired : seqLengths n ≤ t) (hlater : t ≤ t2) :
    (LSTMUnit exp N D t2
        (LSTMUnit exp N D t H_prev C_prev X seqLengths drop_states C0 H0 forget_bias).H
        (LSTMUnit exp N D t H_prev C_prev X seqLengths drop_states C0 H0 forget_bias).C
        X2 seqLengths drop_states C0b H0b forget_bias2).H (n * D + d) =
      (LSTMUnit exp N D t H_prev C_prev X seqLengths drop_states C0 H0 forget_bias).H
        (n * D + d) ∧
    (LSTMUnit exp N D t2
        (LSTMUnit exp N D t H_prev C_prev X seqLengths drop_states C0 H0 forget_bias).H
        (LSTMUnit exp N D t H_prev C_prev X seqLengths drop_states C0 H0 forget_bias).C
        X2 seqLengths drop_states C0b H0b forget_bias2).C (n * D + d) =
      (LSTMUnit exp N D t H_prev C_prev X seqLengths drop_states C0 H0 forget_bias).C
        (n * D + d) ∧
    (LSTMUnit exp N D t H_prev C_prev X seqLengths drop_states C0 H0 forget_bias).H
        (n * D + d) = (if drop_states then 0 else H_prev (n * D + d)) ∧
    (LSTMUnit exp N D t H_prev C_prev X seqLengths drop_states C0 H0 forget_bias).C
        (n * D + d) = (if drop_states then 0 else C_prev (n * D + d)) := by
  have hv : decide (t < seqLengths n) = false := decide_eq_false (by omega)
  have hv2 : decide (t2 < seqLengths n) = false := decide_eq_false (by omega)
  obtain ⟨a1, a2⟩ := LSTMUnit.forward_at_cell exp N D t H_prev C_prev X seqLengths drop_states
    C0 H0 forget_bias n d hn0 hn hd0 hd
  obtain ⟨b1, b2⟩ := LSTMUnit.forward_at_cell exp N D t2
    (LSTMUnit exp N D t H_prev C_prev X seqLengths drop_states C0 H0 forget_bias).H
    (LSTMUnit exp N D t H_prev C_prev X seqLengths drop_states C0 H0 forget_bias).C
    X2 seqLengths drop_states C0b H0b forget_bias2 n d hn0 hn hd0 hd
  simp only [hv, LSTMUnit.cOut_expired, LSTMUnit.hOut_expired] at a1 a2
  simp only [hv2, LSTMUnit.cOut_expired, LSTMUnit.hOut_expired] at b1 b2
  rw [b1, b2]
  refine ⟨?_, ?_, a2, a1⟩
  · cases drop_states
    · simp
    · rw [a2]; simp
  · cases drop_states
    · simp
    · rw [a1]; simp

/-- C31, on the example of the specification: `N = 1`, `D = 2`, `seqLengths = [2]`,
`H_prev = [1, 2]`, `C_prev = [3, 4]`, carry policy.  The outputs at `t = 3` fed back in at
`t2 = 5`, with other gates and another forget bias, give `H[1] = 2` and `C[1] = 4` again. -/
theorem LSTMUnit_expired_fixed_point_witness :
    (LSTMUnit (fun _ => (1 : ℚ)) 1 2 5
        (LSTMUnit (fun _ => (1 : ℚ)) 1 2 3 (fun j => if j = 0 then 1 else 2)
          (fun j => if j = 0 then 3 else 4) (fun j => 10 + j) (fun _ => 2) false (fun _ => 9)
          (fun _ => 9) 0).H
        (LSTMUnit (fun _ => (1 : ℚ)) 1 2 3 (fun j => if j = 0 then 1 else 2)
          (fun j => if j = 0 then 3 else 4) (fun j => 10 + j) (fun _ => 2) false (fun _ => 9)
          (fun _ => 9) 0).C
        (fun _ => 7) (fun _ => 2) false (fun _ => 8) (fun _ => 8) 1).H 1 = 2 ∧
    (LSTMUnit (fun _ => (1 : ℚ)) 1 2 5
        (LSTMUnit (fun _ => (1 : ℚ)) 1 2 3 (fun j => if j = 0 then 1 else 2)
          (fun j => if j = 0 then 3 else 4) (fun j => 10 + j) (fun _ => 2) false (fun _ => 9)
          (fun _ => 9) 0).H
        (LSTMUnit (fun _ => (1 : ℚ)) 1 2 3 (fun j => if j = 0 then 1 else 2)
          (fun j => if j = 0 then 3 else 4) (fun j => 10 + j) (fun _ => 2) false (fun _ => 9)
          (fun _ => 9) 0).C
        (fun _ => 7) (fun _ => 2) false (fun _ => 8) (fun _ => 8) 1).C 1 = 4 := by
  obtain ⟨h1, h2, h3, h4⟩ := LSTMUnit_expired_fixed_point (fun _ => (1 : ℚ)) 1 2 3 5
    (fun j => if j = 0 then 1 else 2) (fun j => if j = 0 then 3 else 4) (fun j => 10 + j)
    (fun _ => 7) (fun _ => 2) false (fun _ => 9) (fun _ => 9) (fun _ => 8) (fun _ => 8) 0 1
    0 1 (by decide) (by decide) (by decide) (by decide) (by decide) (by decide)
  simp only [zero_mul, zero_add, one_ne_zero, if_false, Bool.false_eq_true] at h1 h2 h3 h4
  exact ⟨h1.trans h3, h2.trans h4⟩

/-- C32. The backward pass never uses the forward hidden output: two calls of
`LSTMUnitGradient` that agree on every argument except the `H` buffer return the same three
output buffers; and on a row `n` with `t ≥ seqLengths[n]` the entries written for that row
(`H_prev_diff[n*D+d]`, `C_prev_diff[n*D+d]`, `X_diff[n*4D+j]` for `j < 4D`) are the same
for any two calls that differ in the gates, `C_prev`, `C`, `H` and `forget_bias`. -/
theorem LSTMUnitGradient_ignores_H (exp : α → α) (N D t : Int)
    (C_prev X C H C_prev2 X2 C2 H2 : Int → α) (seqLengths : Int → Int)
    (C_diff H_diff : Int → α) (drop_states : Bool) (Hp0 Cp0 X0 : Int → α)
    (forget_bias forget_bias2 : α) :
    ((LSTMUnitGradient exp N D t C_prev X seqLengths C H C_diff H_diff drop_states Hp0 Cp0 X0
          forget_bias).H_prev_diff =
        (LSTMUnitGradient exp N D t C_prev X seqLengths C H2 C_diff H_diff drop_states Hp0 Cp0
          X0 forget_bias).H_prev_diff ∧
      (LSTMUnitGradient exp N D t C_prev X seqLengths C H C_diff H_diff drop_states Hp0 Cp0 X0
          forget_bias).C_prev_diff =
        (LSTMUnitGradient exp N D t C_prev X seqLengths C H2 C_diff H_diff drop_states Hp0 Cp0
          X0 forget_bias).C_prev_diff ∧
      (LSTMUnitGradient exp N D t C_prev X seqLengths C H C_diff H_diff drop_states Hp0 Cp0 X0
          forget_bias).X_diff =
        (LSTMUnitGradient exp N D t C_prev X seqLengths C H2 C_diff H_diff drop_states Hp0 Cp0
          X0 forget_bias).X_diff) ∧
    (∀ n : Int, 0 ≤ n → n < N → seqLengths n ≤ t →
      (∀ d : Int, 0 ≤ d → d < D →
        (LSTMUnitGradient exp N D t C_prev X seqLengths C H C_diff H_diff drop_states Hp0 Cp0
            X0 forget_bias).H_prev_diff (n * D + d) =
          (LSTMUnitGradient exp N D t C_prev2 X2 seqLengths C2 H2 C_diff H_diff drop_states
            Hp0 Cp0 X0 forget_bias2).H_prev_diff (n * D + d) ∧
        (LSTMUnitGradient exp N D t C_prev X seqLengths C H C_diff H_diff drop_states Hp0 Cp0
            X0 forget_bias).C_prev_diff (n * D + d) =
          (LSTMUnitGradient exp N D t C_prev2 X2 seqLengths C2 H2 C_diff H_diff drop_states
            Hp0 Cp0 X0 forget_bias2).C_prev_diff (n * D + d)) ∧
      (∀ j : Int, 0 ≤ j → j < 4 * D →
        (LSTMUnitGradient exp N D t C_prev X seqLengths C H C_diff H_diff drop_states Hp0 Cp0
            X0 forget_bias).X_diff (n * (4 * D) + j) =
          (LSTMUnitGradient exp N D t C_prev2 X2 seqLengths C2 H2 C_diff H_diff drop_states
            Hp0 Cp0 X0 forget_bias2).X_diff (n * (4 * D) + j))) := by
  refine ⟨⟨rfl, rfl, rfl⟩, fun n hn0 hn hexp => ?_⟩
  have hv : decide (t < seqLengths n) = false := decide_eq_false (by omega)
  have hvals : ∀ d : Int,
      LSTMUnitGradient.vals exp D (decide (t < seqLengths n)) drop_states C_prev X C C_diff
          H_diff forget_bias (n * D) (n * (4 * D)) (n * D) (n * D) (n * D) d =
        LSTMUnitGradient.vals exp D (decide (t < seqLengths n)) drop_states C_prev2 X2 C2
          C_diff H_diff forget_bias2 (n * D) (n * (4 * D)) (n * D) (n * D) (n * D) d := by
    intro d
    simp only [hv, LSTMUnitGradient.vals, Bool.not_false, if_true]
  refine ⟨fun d hd0 hd => ?_, fun j hj0 hj => ?_⟩
  · obtain ⟨a0, a1, -⟩ := LSTMUnitGradient.backward_at_cell exp N D t C_prev X seqLengths C H
      C_diff H_diff drop_states Hp0 Cp0 X0 forget_bias n d hn0 hn hd0 hd
    obtain ⟨b0, b1, -⟩ := LSTMUnitGradient.backward_at_cell exp N D t C_prev2 X2 seqLengths C2
      H2 C_diff H_diff drop_states Hp0 Cp0 X0 forget_bias2 n d hn0 hn hd0 hd
    rw [a0, a1, b0, b1, hvals d]
    exact ⟨rfl, rfl⟩
  · obtain ⟨d, hd0, hd, hcase⟩ := gate_decomp hj0 hj
    obtain ⟨-, -, a0, a1, a2, a3⟩ := LSTMUnitGradient.backward_at_cell exp N D t C_prev X
      seqLengths C H C_diff H_diff drop_states Hp0 Cp0 X0 forget_bias n d hn0 hn hd0 hd
    obtain ⟨-, -, b0, b1, b2, b3⟩ := LSTMUnitGradient.backward_at_cell exp N D t C_prev2 X2
      seqLengths C2 H2 C_diff H_diff drop_states Hp0 Cp0 X0 forget_bias2 n d hn0 hn hd0 hd
    rw [hvals d] at a0 a1 a2 a3
    rcases hcase with rfl | rfl | rfl | rfl
    · exact a0.trans b0.symm
    · rw [← add_assoc]; exact a1.trans b1.symm
    · rw [← add_assoc]; exact a2.trans b2.symm
    · rw [← add_assoc]; exact a3.trans b3.symm

/-- C32 at `N = 1`, `D = 2`, `t = 3`, `seqLengths = [2]` (the row is expired), carry policy,
over the reals: two calls with different gates, `C_prev`, `C`, `H` and forget bias write the
same `C_prev_diff[1]` and the same `X_diff[5]`; and two calls that differ in `H` alone return
the same buffer `X_diff`. -/
theorem LSTMUnitGradient_ignores_H_witness :
    (LSTMUnitGradient Real.exp 1 2 3 (fun _ => 2) (fun j => j) (fun _ => 2) (fun _ => 3)
        (fun _ => 0) (fun _ => 6) (fun _ => 4) false (fun _ => 9) (fun _ => 9) (fun _ => 9)
        0).X_diff =
      (LSTMUnitGradient Real.exp 1 2 3 (fun _ => 2) (fun j => j) (fun _ => 2) (fun _ => 3)
        (fun _ => 5) (fun _ => 6) (fun _ => 4) false (fun _ => 9) (fun _ => 9) (fun _ => 9)
        0).X_diff ∧
    (LSTMUnitGradient Real.exp 1 2 3 (fun _ => 2) (fun j => j) (fun _ => 2) (fun _ => 3)
        (fun _ => 0) (fun _ => 6) (fun _ => 4) false (fun _ => 9) (fun _ => 9) (fun _ => 9)
        0).C_prev_diff 1 =
      (LSTMUnitGradient Real.exp 1 2 3 (fun _ => 8) (fun _ => 7) (fun _ => 2) (fun _ => 1)
        (fun _ => 5) (fun _ => 6) (fun _ => 4) false (fun _ => 9) (fun _ => 9) (fun _ => 9)
        1).C_prev_diff 1 ∧
    (LSTMUnitGradient Real.exp 1 2 3 (fun _ => 2) (fun j => j) (fun _ => 2) (fun _ => 3)
        (fun _ => 0) (fun _ => 6) (fun _ => 4) false (fun _ => 9) (fun _ => 9) (fun _ => 9)
        0).X_diff 5 =
      (LSTMUnitGradient Real.exp 1 2 3 (fun _ => 8) (fun _ => 7) (fun _ => 2) (fun _ => 1)
        (fun _ => 5) (fun _ => 6) (fun _ => 4) false (fun _ => 9) (fun _ => 9) (fun _ => 9)
        1).X_diff 5 := by
  obtain ⟨⟨-, -, h1⟩, h2⟩ := LSTMUnitGradient_ignores_H Real.exp 1 2 3 (fun _ => 2)
    (fun j => j) (fun _ => 3) (fun _ => 0) (fun _ => 8) (fun _ => 7) (fun _ => 1) (fun _ => 5)
    (fun _ => 2) (fun _ => 6) (fun _ => 4) false (fun _ => 9) (fun _ => 9) (fun _ => 9) 0 1
  obtain ⟨h3, h4⟩ := h2 0 (by decide) (by decide) (by decide)
  have a := (h3 1 (by decide) (by decide)).2
  have b := h4 5 (by decide) (by decide)
  simp only [zero_mul, zero_add] at a b
  exact ⟨h1, a, b⟩

end Expired

end detail
end caffe2
